import Mathlib

/-!
# VPC reconciliation of the AWS cluster-api provider

A shallow embedding of `pkg/cloud/services/ec2/vpc.go`.

* Go values `(ptr, err)` are pairs of options, so that the combination
  `(nil, nil)` stays expressible.
* The EC2 client is an explicit transition system on a provider state `σ`;
  every request that leaves the service is appended to a call log.
* Helpers that live in other packages of the repository (`awserrors`, `wait`,
  `filter`, `converters`, `tags`, `infrav1`) are either fields of the
  environment `Env` or small definitions marked as modelled.
* The subnet pass of `subnets.go`, which is not among the sources, is modelled
  from the specification; its provider `SubnetEnv` answers each request, and
  the scenarios are those of `subnets_test.go`.
-/

namespace Ec2Vpc

/-! ## Errors -/

/-- Kinds of `awserrors.EC2Error` used by the VPC code. -/
inductive ErrorKind where
  | NotFound
  | Conflict
  deriving DecidableEq, Repr

/-- Go `error` values that occur in `vpc.go`. -/
inductive Error where
  /-- an `awserr.Error` handed back by the SDK, with its error code -/
  | sdk (code : String) (msg : String)
  /-- an `*awserrors.EC2Error`, made by `NewNotFound` or `NewConflict` -/
  | ec2 (kind : ErrorKind) (msg : String)
  /-- the result of `errors.Errorf` -/
  | errorf (msg : String)
  /-- the result of `errors.Wrap` or `errors.Wrapf` on a non-nil error -/
  | wrap (cause : Error) (msg : String)
  /-- the result of `kerrors.NewAggregate` on a non-empty list -/
  | aggregate (errs : List Error)

/-- The `Error()` text of an error. -/
def Error.text : Error → String
  | .sdk code msg => code ++ ": " ++ msg
  | .ec2 _ msg => msg
  | .errorf msg => msg
  | .wrap cause msg => msg ++ ": " ++ cause.text
  | .aggregate _ => "aggregate error"

/-- `errors.Cause` of github.com/pkg/errors: strips the wrappers. -/
def Error.Cause : Error → Error
  | .wrap cause _ => cause.Cause
  | e => e

/-- `errors.Wrap` and `errors.Wrapf` of github.com/pkg/errors: wrapping a nil
error gives nil. -/
def Wrap (err : Option Error) (msg : String) : Option Error :=
  match err with
  | none => none
  | some e => some (Error.wrap e msg)

/-- Modelled from the spec: `awserrors.NewNotFound`, which is not among the
sources; it makes the error of kind `NotFound` carrying the text of its
argument. -/
def NewNotFound (err : Error) : Error := Error.ec2 ErrorKind.NotFound err.text

/-- Modelled from the spec: `awserrors.NewConflict`, which is not among the
sources; it makes the error of kind `Conflict` carrying the text of its
argument. -/
def NewConflict (err : Error) : Error := Error.ec2 ErrorKind.Conflict err.text

/-- Modelled from the spec: `awserrors.IsNotFound`, which is not among the
sources; it holds exactly for an error of kind `NotFound`, and not for nil. -/
def IsNotFound (err : Option Error) : Bool :=
  match err with
  | some (Error.ec2 ErrorKind.NotFound _) => true
  | _ => false

/-- Modelled from the spec: `awserrors.IsConflict`, which is not among the
sources; it holds exactly for an error of kind `Conflict`. -/
def IsConflict (err : Option Error) : Bool :=
  match err with
  | some (Error.ec2 ErrorKind.Conflict _) => true
  | _ => false

/-- Modelled from the spec: `awserrors.Code`, which is not among the sources;
the provider error code of an error that is itself an SDK error. -/
def Code (err : Error) : Option String :=
  match err with
  | Error.sdk code _ => some code
  | _ => none

/-- Modelled from the spec: the constant `awserrors.VPCNotFound`, the provider
code for a VPC that does not exist. -/
def VPCNotFound : String := "InvalidVpcID.NotFound"

/-- `kerrors.NewAggregate`: nil for an empty list, one aggregate otherwise. -/
def NewAggregate (errs : List Error) : Option Error :=
  match errs with
  | [] => none
  | e :: es => some (Error.aggregate (e :: es))

/-! ## Data model -/

/-- `infrav1.Tags`: a map from tag key to value, kept as an association list
with unique keys. -/
abbrev Tags := List (String × String)

/-- Map assignment `t[k] = v`. -/
def tagsSet (t : Tags) (k v : String) : Tags :=
  if t.any (fun p => p.1 == k) then t.map (fun p => if p.1 == k then (k, v) else p)
  else t ++ [(k, v)]

/-- `ec2.Tag`. -/
structure Tag where
  Key : String
  Value : String
  deriving DecidableEq, Repr

/-- Modelled from the spec: `converters.TagsToMap`, which is not among the
sources; the observed tags are carried over into a tag map. -/
def TagsToMap (src : List Tag) : Tags :=
  src.foldl (fun m t => tagsSet m t.Key t.Value) []

/-- `infrav1.VPCSpec`. -/
structure VPCSpec where
  ID : String
  CidrBlock : String
  EnableIPv6 : Bool
  Ipv6CidrBlock : Option String
  Tags : Tags
  deriving DecidableEq, Repr

/-- `infrav1.BuildParams`. -/
structure BuildParams where
  ClusterName : String
  ResourceID : String
  Lifecycle : String
  Name : Option String
  Role : Option String
  Additional : Tags
  deriving DecidableEq, Repr

/-- The constant `infrav1.ResourceLifecycleOwned`. -/
def ResourceLifecycleOwned : String := "owned"

/-- The constant `infrav1.CommonRoleTagValue`. -/
def CommonRoleTagValue : String := "common"

/-- `infrav1.ClusterTagKey`, with the key that the tests of the repository
spell out. -/
def ClusterTagKey (name : String) : String :=
  "sigs.k8s.io/cluster-api-provider-aws/cluster/" ++ name

/-- Modelled from the spec: `Tags.HasOwned`, which is not among the sources;
the tags carry the cluster-ownership tag of this cluster with value `owned`. -/
def HasOwned (t : Tags) (cluster : String) : Bool :=
  match t.lookup (ClusterTagKey cluster) with
  | some value => value == ResourceLifecycleOwned
  | none => false

/-- Modelled from the spec: `VPCSpec.IsUnmanaged`, which is not among the
sources; a VPC is managed iff its tags carry the ownership tag `owned` for the
cluster, and unmanaged otherwise. -/
def IsUnmanaged (v : VPCSpec) (clusterName : String) : Bool :=
  !HasOwned v.Tags clusterName

/-- Modelled from the spec: `infrav1.Build`, which is not among the sources;
the tag set of a resource: the additional tags, the cluster-ownership tag with
the lifecycle, the role and the name. -/
def Build (params : BuildParams) : Tags :=
  let t0 := tagsSet params.Additional (ClusterTagKey params.ClusterName) params.Lifecycle
  let t1 := match params.Role with
    | some role => tagsSet t0 "sigs.k8s.io/cluster-api-provider-aws/role" role
    | none => t0
  match params.Name with
  | some name => tagsSet t1 "Name" name
  | none => t1

/-! ## Provider requests and responses -/

/-- `ec2.Filter`. -/
structure Filter where
  Name : String
  Values : List String
  deriving DecidableEq, Repr

/-- `ec2.VpcIpv6CidrBlockAssociation`; `State` is
`Ipv6CidrBlockState.State`, which the code dereferences. -/
structure VpcIpv6CidrBlockAssociation where
  Ipv6CidrBlock : Option String
  State : String
  deriving DecidableEq, Repr

/-- `ec2.Vpc`, with the fields the code dereferences. -/
structure Vpc where
  VpcId : String
  CidrBlock : String
  State : String
  Tags : List Tag
  Ipv6CidrBlockAssociationSet : List VpcIpv6CidrBlockAssociation
  deriving DecidableEq, Repr

/-- `ec2.DescribeVpcsInput`. -/
structure DescribeVpcsInput where
  Filters : List Filter
  VpcIds : List String
  deriving DecidableEq, Repr

/-- `ec2.DescribeVpcsOutput`. -/
structure DescribeVpcsOutput where
  Vpcs : List Vpc
  deriving DecidableEq, Repr

/-- `ec2.CreateVpcInput`. -/
structure CreateVpcInput where
  CidrBlock : String
  AmazonProvidedIpv6CidrBlock : Bool
  deriving DecidableEq, Repr

/-- `ec2.CreateVpcOutput`. -/
structure CreateVpcOutput where
  Vpc : Vpc
  deriving DecidableEq, Repr

/-- `ec2.DeleteVpcInput`. -/
structure DeleteVpcInput where
  VpcId : String
  deriving DecidableEq, Repr

/-- `ec2.DescribeVpcAttributeInput`. -/
structure DescribeVpcAttributeInput where
  VpcId : String
  Attribute : String
  deriving DecidableEq, Repr

/-- `ec2.DescribeVpcAttributeOutput`; each field is the `Value` pointer of the
attribute, read with `aws.BoolValue`. -/
structure DescribeVpcAttributeOutput where
  EnableDnsHostnames : Option Bool
  EnableDnsSupport : Option Bool
  deriving DecidableEq, Repr

/-- `ec2.ModifyVpcAttributeInput`. -/
structure ModifyVpcAttributeInput where
  VpcId : String
  EnableDnsHostnames : Option Bool
  EnableDnsSupport : Option Bool
  deriving DecidableEq, Repr

/-- `aws.BoolValue`: false for a nil pointer. -/
def BoolValue (b : Option Bool) : Bool :=
  match b with
  | some v => v
  | none => false

/-- The constants `ec2.VpcStatePending`, `ec2.VpcStateAvailable` and
`ec2.VpcCidrBlockStateCodeAssociated` of the SDK. -/
def VpcStatePending : String := "pending"

/-- See `VpcStatePending`. -/
def VpcStateAvailable : String := "available"

/-- See `VpcStatePending`. -/
def VpcCidrBlockStateCodeAssociated : String := "associated"

/-- Modelled from the spec: `filter.EC2.VPCStates`, which is not among the
sources; the state filter, as the tests spell it out for subnets. -/
def VPCStates (states : List String) : Filter :=
  { Name := "state", Values := states }

/-- Modelled from the spec: `filter.EC2.Cluster`, which is not among the
sources; the cluster-ownership tag filter for a cluster name. -/
def Cluster (clusterName : String) : Filter :=
  { Name := "tag-key", Values := [ClusterTagKey clusterName] }

/-- The filter that checks that the IPv6 CIDR block is associated to the
VPC. -/
def filterIPv6BlockAssociatedVPC : Filter :=
  { Name := "ipv6-cidr-block-association.state", Values := [VpcCidrBlockStateCodeAssociated] }

/-- The constant `defaultVPCCidr`. -/
def defaultVPCCidr : String := "10.0.0.0/16"

/-! ## The service and its environment -/

/-- A request that leaves the service: the EC2 calls of `vpc.go` and the two
entry points of the `tags` package, which issue the tagging calls. -/
inductive Call where
  | DescribeVpcs (input : DescribeVpcsInput)
  | CreateVpc (input : CreateVpcInput)
  | WaitUntilVpcAvailable (input : DescribeVpcsInput)
  | DeleteVpc (input : DeleteVpcInput)
  | DescribeVpcAttribute (input : DescribeVpcAttributeInput)
  | ModifyVpcAttribute (input : ModifyVpcAttributeInput)
  | tagsApply (params : BuildParams)
  | tagsEnsure (current : Tags) (params : BuildParams)
  deriving DecidableEq, Repr

/-- Recognises a `CreateVpc` call. -/
def Call.isCreateVpc : Call → Bool
  | .CreateVpc _ => true
  | _ => false

/-- Recognises a `DeleteVpc` call. -/
def Call.isDeleteVpc : Call → Bool
  | .DeleteVpc _ => true
  | _ => false

/-- Recognises a tagging call, `tags.Apply` or `tags.Ensure`. -/
def Call.isTag : Call → Bool
  | .tagsApply _ => true
  | .tagsEnsure _ _ => true
  | _ => false

/-- Recognises a `DescribeVpcAttribute` or `ModifyVpcAttribute` call. -/
def Call.isAttribute : Call → Bool
  | .DescribeVpcAttribute _ => true
  | .ModifyVpcAttribute _ => true
  | _ => false

/-- An argument of an event message. -/
inductive FmtArg where
  | str (s : String)
  | err (e : Option Error)

/-- An event recorded with `record.Eventf` (`Normal`) or `record.Warnf`
(`Warning`). -/
structure Event where
  eventtype : String
  reason : String
  messageFmt : String
  args : List FmtArg

/-- What lies outside `vpc.go`: the EC2 client as transitions on the provider
state, the two entry points of the `tags` package, and the helpers of `infrav1`
and `wait` that are not among the sources. -/
structure Env (σ : Type) where
  DescribeVpcs : DescribeVpcsInput → σ → Except Error DescribeVpcsOutput × σ
  CreateVpc : CreateVpcInput → σ → Except Error CreateVpcOutput × σ
  WaitUntilVpcAvailable : DescribeVpcsInput → σ → Option Error × σ
  DeleteVpc : DeleteVpcInput → σ → Option Error × σ
  DescribeVpcAttribute : DescribeVpcAttributeInput → σ → Except Error DescribeVpcAttributeOutput × σ
  ModifyVpcAttribute : ModifyVpcAttributeInput → σ → Option Error × σ
  /-- the entry point `tags.Apply` -/
  tagsApply : BuildParams → σ → Option Error × σ
  /-- the entry point `tags.Ensure` -/
  tagsEnsure : Tags → BuildParams → σ → Option Error × σ
  /-- the method `VPCSpec.IsUnmanaged` -/
  IsUnmanaged : VPCSpec → String → Bool
  /-- the function `infrav1.Build` -/
  Build : BuildParams → Tags
  /-- the number of attempts of `wait.NewBackoff()` -/
  backoffSteps : Nat

/-- The receiver `s *Service`: the scope (cluster name, additional tags and the
VPC spec it points to), the provider state behind `s.scope.EC2`, and the logs
of calls and events of the run. -/
structure Service (σ : Type) where
  Name : String
  AdditionalTags : Tags
  VPC : VPCSpec
  EC2 : σ
  calls : List Call
  events : List Event

/-- The result of a function that can also stop in a nil-pointer panic. -/
inductive Outcome (α : Type) where
  | ret (a : α)
  | panic
  deriving DecidableEq, Repr

variable {σ : Type}

/-- Records an event with `record.Eventf` or `record.Warnf`. -/
def Service.record (s : Service σ) (ev : Event) : Service σ :=
  { s with events := s.events ++ [ev] }

/-- Issues one provider call: logs it and advances the provider state. -/
def Service.issue {α : Type} (s : Service σ) (c : Call) (op : σ → α × σ) : α × Service σ :=
  ((op s.EC2).1, { s with EC2 := (op s.EC2).2, calls := s.calls ++ [c] })

/-- Modelled from the spec: `wait.WaitForWithRetryable`, which is not among the
sources; the condition is tried at most `steps` times, until it is done or
returns an error that is not retryable; an error whose cause carries one of
the retryable provider codes is retried, and when the attempts are used up the
last such error is returned (a timeout error when there is none). -/
def WaitForWithRetryable {S : Type} (steps : Nat) (condition : S → (Bool × Option Error) × S)
    (retryableErrors : List String) (errToReturn : Option Error) (s : S) : Option Error × S :=
  match steps with
  | 0 =>
    match errToReturn with
    | some e => (some e, s)
    | none => (some (Error.errorf "timed out waiting for the condition"), s)
  | n + 1 =>
    match condition s with
    | ((true, _), s1) => (none, s1)
    | ((false, none), s1) => WaitForWithRetryable n condition retryableErrors none s1
    | ((false, some err), s1) =>
      match Code err.Cause with
      | none => (some err, s1)
      | some code =>
        if retryableErrors.contains code then
          WaitForWithRetryable n condition retryableErrors (some err) s1
        else (some err, s1)

/-! ## The functions of `vpc.go` -/

/-- The request that `describeVPC` sends: the state filter, then the query by
ID or by cluster tag, then the IPv6 filter. -/
def describeVPCInput (s : Service σ) : DescribeVpcsInput :=
  let input : DescribeVpcsInput :=
    { Filters := [VPCStates [VpcStatePending, VpcStateAvailable]], VpcIds := [] }
  let input : DescribeVpcsInput :=
    if s.VPC.ID = "" then
      { input with Filters := input.Filters ++ [Cluster s.Name] }
    else
      { input with VpcIds := [s.VPC.ID] }
  if s.VPC.EnableIPv6 then
    { input with Filters := input.Filters ++ [filterIPv6BlockAssociatedVPC] }
  else input

/-- The loop over the association set in `describeVPC` and `createVPC`: the
block of the first entry whose state is `associated`. The outer option tells
whether there is such an entry. -/
def findAssociated (set : List VpcIpv6CidrBlockAssociation) : Option (Option String) :=
  match set with
  | [] => none
  | ipv6CidrBlock :: rest =>
    if ipv6CidrBlock.State = VpcCidrBlockStateCodeAssociated then some ipv6CidrBlock.Ipv6CidrBlock
    else findAssociated rest

/-- The method `describeVPC`. -/
def describeVPC (env : Env σ) (s : Service σ) : (Option VPCSpec × Option Error) × Service σ :=
  let input := describeVPCInput s
  match s.issue (Call.DescribeVpcs input) (env.DescribeVpcs input) with
  | (Except.error err, s) =>
    if IsNotFound (some err) then ((none, some err), s)
    else ((none, Wrap (some err) "failed to query ec2 for VPCs"), s)
  | (Except.ok out, s) =>
    match out.Vpcs with
    | [] =>
      ((none, some (NewNotFound (Error.errorf ("could not find vpc \"" ++ s.VPC.ID ++ "\"")))), s)
    | _ :: _ :: _ =>
      -- the text ends with the dump `out.GoString()` of the response, left out here
      ((none, some (NewConflict (Error.errorf
        "found more than one vpc with supplied filters. Please clean up extra VPCs: "))), s)
    | [vpc0] =>
      if vpc0.State = VpcStateAvailable ∨ vpc0.State = VpcStatePending then
        let output : VPCSpec :=
          { ID := vpc0.VpcId, CidrBlock := vpc0.CidrBlock, Tags := TagsToMap vpc0.Tags,
            EnableIPv6 := s.VPC.EnableIPv6, Ipv6CidrBlock := none }
        if s.VPC.EnableIPv6 then
          match vpc0.Ipv6CidrBlockAssociationSet with
          | [] =>
            ((none, some (Error.errorf ("failed to obtain an IPv6 prefix for VPC " ++ vpc0.VpcId))), s)
          | set =>
            match findAssociated set with
            | some block => ((some { output with Ipv6CidrBlock := block }, none), s)
            | none =>
              ((none, some (Error.errorf ("failed to obtain an IPv6 prefix for VPC " ++ vpc0.VpcId))), s)
        else ((some output, none), s)
      else
        ((none, some (NewNotFound (Error.errorf "could not find available or pending vpc"))), s)

/-- The method `getVPCTagParams`. -/
def getVPCTagParams (s : Service σ) (id : String) : BuildParams :=
  { ClusterName := s.Name, ResourceID := id, Lifecycle := ResourceLifecycleOwned,
    Name := some (s.Name ++ "-vpc"), Role := some CommonRoleTagValue,
    Additional := s.AdditionalTags }

/-- The local variables of `ensureManagedVPCAttributes` (`errs`, `updated` and
the `err` declared with the first describe call), together with the service. -/
structure AttrLocals (σ : Type) where
  errs : List Error
  updated : Bool
  err : Option Error
  s : Service σ

/-- The first block of `ensureManagedVPCAttributes`: describe
`enableDnsHostnames` and set it when it is false. The error of the modify call
is a variable of its own and leaves `err` as the describe call set it. -/
def ensureDnsHostnames (env : Env σ) (vpc : VPCSpec) (s : Service σ) : AttrLocals σ :=
  let descAttrInput : DescribeVpcAttributeInput :=
    { VpcId := vpc.ID, Attribute := "enableDnsHostnames" }
  match s.issue (Call.DescribeVpcAttribute descAttrInput)
      (env.DescribeVpcAttribute descAttrInput) with
  | (Except.error err, s) =>
    { errs := [Error.wrap err "failed to describe enableDnsHostnames vpc attribute"],
      updated := false, err := some err, s := s }
  | (Except.ok vpcAttr, s) =>
    if !BoolValue vpcAttr.EnableDnsHostnames then
      let attrInput : ModifyVpcAttributeInput :=
        { VpcId := vpc.ID, EnableDnsHostnames := some true, EnableDnsSupport := none }
      match s.issue (Call.ModifyVpcAttribute attrInput) (env.ModifyVpcAttribute attrInput) with
      | (some merr, s) =>
        { errs := [Error.wrap merr "failed to set enableDnsHostnames vpc attribute"],
          updated := false, err := none, s := s }
      | (none, s) => { errs := [], updated := true, err := none, s := s }
    else { errs := [], updated := false, err := none, s := s }

/-- The second block of `ensureManagedVPCAttributes`: describe
`enableDnsSupport` and set it when it is false. The describe call assigns
`err` anew. -/
def ensureDnsSupport (env : Env σ) (vpc : VPCSpec) (l : AttrLocals σ) : AttrLocals σ :=
  let descAttrInput : DescribeVpcAttributeInput :=
    { VpcId := vpc.ID, Attribute := "enableDnsSupport" }
  match l.s.issue (Call.DescribeVpcAttribute descAttrInput)
      (env.DescribeVpcAttribute descAttrInput) with
  | (Except.error err, s) =>
    { errs := l.errs ++ [Error.wrap err "failed to describe enableDnsSupport vpc attribute"],
      updated := l.updated, err := some err, s := s }
  | (Except.ok vpcAttr, s) =>
    if !BoolValue vpcAttr.EnableDnsSupport then
      let attrInput : ModifyVpcAttributeInput :=
        { VpcId := vpc.ID, EnableDnsHostnames := none, EnableDnsSupport := some true }
      match s.issue (Call.ModifyVpcAttribute attrInput) (env.ModifyVpcAttribute attrInput) with
      | (some merr, s) =>
        { errs := l.errs ++ [Error.wrap merr "failed to set enableDnsSupport vpc attribute"],
          updated := l.updated, err := none, s := s }
      | (none, s) => { errs := l.errs, updated := true, err := none, s := s }
    else { errs := l.errs, updated := l.updated, err := none, s := s }

/-- The method `ensureManagedVPCAttributes`: the two blocks, then the event and
the result. The warning event is formatted with the variable `err`. -/
def ensureManagedVPCAttributes (env : Env σ) (vpc : VPCSpec) (s : Service σ) :
    Option Error × Service σ :=
  let l := ensureDnsSupport env vpc (ensureDnsHostnames env vpc s)
  if l.errs.length > 0 then
    (NewAggregate l.errs,
      l.s.record { eventtype := "Warning", reason := "FailedSetVPCAttributes",
                   messageFmt := "Failed to set managed VPC attributes for %q: %v",
                   args := [FmtArg.str vpc.ID, FmtArg.err l.err] })
  else if l.updated then
    (none,
      l.s.record { eventtype := "Normal", reason := "SuccessfulSetVPCAttributes",
                   messageFmt := "Set managed VPC attributes for %q",
                   args := [FmtArg.str vpc.ID] })
  else (none, l.s)

/-- A closure `func() (bool, error)` around an operation that returns an
error: not done with the error, or done. -/
def condition (op : Service σ → Option Error × Service σ) (s : Service σ) :
    (Bool × Option Error) × Service σ :=
  match op s with
  | (some err, s) => ((false, some err), s)
  | (none, s) => ((true, none), s)

/-- The assignment at the head of `createVPC`: an empty `CidrBlock` of the
scope becomes `defaultVPCCidr`. -/
def defaulted (s : Service σ) : Service σ :=
  if s.VPC.CidrBlock = "" then { s with VPC := { s.VPC with CidrBlock := defaultVPCCidr } }
  else s

/-- The method `createVPC`. -/
def createVPC (env : Env σ) (s : Service σ) : (Option VPCSpec × Option Error) × Service σ :=
  if env.IsUnmanaged s.VPC s.Name then
    ((none, some (Error.errorf "cannot create a managed vpc in unmanaged mode")), s)
  else
    let s : Service σ := defaulted s
    let input : CreateVpcInput :=
      { CidrBlock := s.VPC.CidrBlock, AmazonProvidedIpv6CidrBlock := s.VPC.EnableIPv6 }
    match s.issue (Call.CreateVpc input) (env.CreateVpc input) with
    | (Except.error err, s) =>
      ((none, Wrap (some err) "failed to create vpc"),
        s.record { eventtype := "Warning", reason := "FailedCreateVPC",
                   messageFmt := "Failed to create new managed VPC: %v",
                   args := [FmtArg.err (some err)] })
    | (Except.ok out, s) =>
      -- the variable `err` of the function body is nil from here on
      let err : Option Error := none
      let s := s.record { eventtype := "Normal", reason := "SuccessfulCreateVPC",
                          messageFmt := "Created new managed VPC %q",
                          args := [FmtArg.str out.Vpc.VpcId] }
      let wReq : DescribeVpcsInput :=
        { VpcIds := [out.Vpc.VpcId],
          Filters := if s.VPC.EnableIPv6 then [filterIPv6BlockAssociatedVPC] else [] }
      match s.issue (Call.WaitUntilVpcAvailable wReq) (env.WaitUntilVpcAvailable wReq) with
      | (some werr, s) =>
        ((none, Wrap (some werr) ("failed to wait for vpc \"" ++ out.Vpc.VpcId ++ "\"")), s)
      | (none, s) =>
        let tagParams := getVPCTagParams s out.Vpc.VpcId
        match WaitForWithRetryable env.backoffSteps
            (condition (fun s => s.issue (Call.tagsApply tagParams) (env.tagsApply tagParams)))
            [VPCNotFound] none s with
        | (some terr, s) =>
          ((none, some terr),
            s.record { eventtype := "Warning", reason := "FailedTagVPC",
                       messageFmt := "Failed to tag managed VPC %q: %v",
                       args := [FmtArg.str out.Vpc.VpcId, FmtArg.err (some terr)] })
        | (none, s) =>
          let s := s.record { eventtype := "Normal", reason := "SuccesfulTagVPC",
                              messageFmt := "Tagged managed VPC %q",
                              args := [FmtArg.str out.Vpc.VpcId] }
          let output : VPCSpec :=
            { ID := out.Vpc.VpcId, CidrBlock := out.Vpc.CidrBlock, Tags := env.Build tagParams,
              EnableIPv6 := s.VPC.EnableIPv6, Ipv6CidrBlock := none }
          if s.VPC.EnableIPv6 then
            match out.Vpc.Ipv6CidrBlockAssociationSet with
            | [] =>
              ((none, some (Error.errorf
                ("failed to find associate IPv6 prefix creating VPC " ++ out.Vpc.VpcId))), s)
            | set =>
              match findAssociated set with
              | some block => ((some { output with Ipv6CidrBlock := block }, none), s)
              | none =>
                ((none, Wrap err
                  ("failed waiting to associate an IPv6 prefix creating VPC " ++ out.Vpc.VpcId)), s)
          else ((some output, none), s)

/-- The method `deleteVPC`. -/
def deleteVPC (env : Env σ) (s : Service σ) : Outcome (Option Error) × Service σ :=
  if env.IsUnmanaged s.VPC s.Name then (Outcome.ret none, s)
  else
    match describeVPC env s with
    | ((_, some err), s) =>
      if IsNotFound (some err) then (Outcome.ret none, s) else (Outcome.ret (some err), s)
    | ((none, none), s) => (Outcome.panic, s)
    | ((some vpc, none), s) =>
      let input : DeleteVpcInput := { VpcId := vpc.ID }
      match s.issue (Call.DeleteVpc input) (env.DeleteVpc input) with
      | (some err, s) =>
        if Code err = some VPCNotFound then (Outcome.ret none, s)
        else
          (Outcome.ret (Wrap (some err) ("failed to delete vpc \"" ++ vpc.ID ++ "\"")),
            s.record { eventtype := "Warning", reason := "FailedDeleteVPC",
                       messageFmt := "Failed to delete managed VPC %q: %v",
                       args := [FmtArg.str vpc.ID, FmtArg.err (some err)] })
      | (none, s) =>
        (Outcome.ret none,
          s.record { eventtype := "Normal", reason := "SuccessfulDeleteVPC",
                     messageFmt := "Deleted managed VPC %q", args := [FmtArg.str vpc.ID] })

/-- The part of `reconcileVPC` after the ownership check, for a managed VPC:
tags, then attributes, each under the retry helper, then the copy into the
scope. -/
def reconcileManagedVPC (env : Env σ) (vpc : VPCSpec) (s : Service σ) :
    Option Error × Service σ :=
  match WaitForWithRetryable env.backoffSteps
      (condition (fun s => s.issue (Call.tagsEnsure vpc.Tags (getVPCTagParams s vpc.ID))
        (env.tagsEnsure vpc.Tags (getVPCTagParams s vpc.ID))))
      [VPCNotFound] none s with
  | (some err, s) =>
    (Wrap (some err) ("failed to tag vpc \"" ++ vpc.ID ++ "\""),
      s.record { eventtype := "Warning", reason := "FailedTagVPC",
                 messageFmt := "Failed to tag managed VPC %q: %v",
                 args := [FmtArg.str vpc.ID, FmtArg.err (some err)] })
  | (none, s) =>
    match WaitForWithRetryable env.backoffSteps
        (condition (ensureManagedVPCAttributes env vpc)) [VPCNotFound] none s with
    | (some err, s) =>
      (Wrap (some err) ("failed to to set vpc attributes for \"" ++ vpc.ID ++ "\""), s)
    | (none, s) => (none, { s with VPC := vpc })

/-- The part of `reconcileVPC` from the ownership check on, with the VPC
pointer that `describeVPC` or `createVPC` returned: a nil pointer panics, an
unmanaged VPC is copied into the scope, and a managed VPC is tagged and has its
attributes set. -/
def reconcileResolvedVPC (env : Env σ) (vpc : Option VPCSpec) (s : Service σ) :
    Outcome (Option Error) × Service σ :=
  match vpc with
  | none => (Outcome.panic, s)
  | some vpc =>
    if env.IsUnmanaged vpc s.Name then (Outcome.ret none, { s with VPC := vpc })
    else ((reconcileManagedVPC env vpc s).1 |> Outcome.ret, (reconcileManagedVPC env vpc s).2)

/-- The method `reconcileVPC`. -/
def reconcileVPC (env : Env σ) (s : Service σ) : Outcome (Option Error) × Service σ :=
  match describeVPC env s with
  | ((vpc, err), s) =>
    if IsNotFound err then
      -- Create a new managed vpc.
      match createVPC env s with
      | ((_, some err), s) => (Outcome.ret (Wrap (some err) "failed to create new vpc"), s)
      | ((vpc, none), s) => reconcileResolvedVPC env vpc s
    else
      match err with
      | some err => (Outcome.ret (Wrap (some err) "failed to describe VPCs"), s)
      | none => reconcileResolvedVPC env vpc s

/-! ## Runs and their calls -/

/-- The run from `s` to `t` keeps the scope (cluster name, additional tags
and VPC spec), keeps the property `I` of the provider state, and issues only
calls that satisfy `P`. -/
def Run (I : σ → Prop) (P : Call → Prop) (s t : Service σ) : Prop :=
  t.Name = s.Name ∧ t.AdditionalTags = s.AdditionalTags ∧ t.VPC = s.VPC ∧
    (I s.EC2 → I t.EC2) ∧ ∃ l, t.calls = s.calls ++ l ∧ ∀ c ∈ l, P c

/-- The calls issued by a run from `s` to `t`. -/
def issued (s t : Service σ) : List Call := t.calls.drop s.calls.length

/-! ## A scripted provider, for concrete runs -/

/-- The fixed answers of a scripted provider, one per operation. -/
structure Script where
  describeVpcs : Except Error DescribeVpcsOutput
  createVpc : Except Error CreateVpcOutput
  waitUntilVpcAvailable : Option Error
  deleteVpc : Option Error
  describeVpcAttribute : Except Error DescribeVpcAttributeOutput
  modifyVpcAttribute : Option Error
  tagsApply : Option Error
  tagsEnsure : Option Error

/-- The provider that gives the answers of a script, whatever the request; its
state counts the calls it served. The helpers of `infrav1` are the modelled
ones and three attempts are made under the retry helper. -/
def scripted (sc : Script) : Env Nat where
  DescribeVpcs := fun _ n => (sc.describeVpcs, n + 1)
  CreateVpc := fun _ n => (sc.createVpc, n + 1)
  WaitUntilVpcAvailable := fun _ n => (sc.waitUntilVpcAvailable, n + 1)
  DeleteVpc := fun _ n => (sc.deleteVpc, n + 1)
  DescribeVpcAttribute := fun _ n => (sc.describeVpcAttribute, n + 1)
  ModifyVpcAttribute := fun _ n => (sc.modifyVpcAttribute, n + 1)
  tagsApply := fun _ n => (sc.tagsApply, n + 1)
  tagsEnsure := fun _ _ n => (sc.tagsEnsure, n + 1)
  IsUnmanaged := IsUnmanaged
  Build := Build
  backoffSteps := 3

/-- A service at the start of a run: nothing called, nothing recorded. -/
def newService (name : String) (vpc : VPCSpec) : Service Nat :=
  { Name := name, AdditionalTags := [], VPC := vpc, EC2 := 0, calls := [], events := [] }

/-- A script in which every operation succeeds: no VPC is found, the created
VPC is `vpc-new`, and both attributes are already set. -/
def okScript : Script where
  describeVpcs := Except.ok { Vpcs := [] }
  createVpc := Except.ok { Vpc := { VpcId := "vpc-new", CidrBlock := "10.0.0.0/16",
                                    State := "pending", Tags := [],
                                    Ipv6CidrBlockAssociationSet := [] } }
  waitUntilVpcAvailable := none
  deleteVpc := none
  describeVpcAttribute := Except.ok { EnableDnsHostnames := some true, EnableDnsSupport := some true }
  modifyVpcAttribute := none
  tagsApply := none
  tagsEnsure := none

/-- The script in which `DescribeVpcs` answers with the given VPCs and every
other operation is as in `okScript`. -/
def foundScript (vpcs : List Vpc) : Script :=
  { okScript with describeVpcs := Except.ok { Vpcs := vpcs } }

/-- An observed VPC in state `available` with the given ID, tags and IPv6
associations. -/
def availableVpc (id : String) (tags : List Tag)
    (set : List VpcIpv6CidrBlockAssociation) : Vpc :=
  { VpcId := id, CidrBlock := "10.0.0.0/16", State := "available", Tags := tags,
    Ipv6CidrBlockAssociationSet := set }

/-- The ownership tag `owned` of the cluster `test-cluster`, as the provider
reports it. -/
def ownedTag : Tag :=
  { Key := "sigs.k8s.io/cluster-api-provider-aws/cluster/test-cluster", Value := "owned" }

/-- A VPC spec with the given ID and tags and nothing else set. -/
def specOf (id : String) (tags : Tags) (ipv6 : Bool) : VPCSpec :=
  { ID := id, CidrBlock := "", EnableIPv6 := ipv6, Ipv6CidrBlock := none, Tags := tags }

/-- The script of a creation with IPv6 in which the provider reports the new
block as still `associating`, as it does right after `CreateVpc`. -/
def associatingScript : Script :=
  { okScript with
    createVpc := Except.ok { Vpc := { VpcId := "vpc-new", CidrBlock := "10.0.0.0/16",
                                      State := "pending", Tags := [],
                                      Ipv6CidrBlockAssociationSet :=
                                        [{ Ipv6CidrBlock := some "2001:db8:1234:1a00::/56",
                                           State := "associating" }] } } }

/-- The tags of a scope that declares the VPC as owned by `test-cluster`. -/
def ownedTags : Tags :=
  [("sigs.k8s.io/cluster-api-provider-aws/cluster/test-cluster", "owned")]

/-- The script in which `DeleteVpc` fails with the given error and the VPC
`vpc-1` is found. -/
def deleteFailsScript (err : Error) : Script :=
  { foundScript [availableVpc "vpc-1" [ownedTag] []] with deleteVpc := some err }

/-! ## A provider without outside changes -/

/-- The VPC is pending or available, the states that `describeVPC` accepts. -/
def live (v : Vpc) : Prop := v.State = VpcStateAvailable ∨ v.State = VpcStatePending

/-- The inventory `vpcs` of the provider state `st` has a pending or available
VPC with this ID, which has an associated IPv6 block when `ipv6` is set. -/
def Holds (vpcs : σ → List Vpc) (id : String) (ipv6 : Bool) (st : σ) : Prop :=
  ∃ v ∈ vpcs st, v.VpcId = id ∧ live v ∧
    (ipv6 = true → findAssociated v.Ipv6CidrBlockAssociationSet ≠ none)

/-- The request for one VPC by ID among the pending and available ones, with
the IPv6 filter when `ipv6` is set. -/
def lookupRequest (id : String) (ipv6 : Bool) : DescribeVpcsInput :=
  { Filters := [VPCStates [VpcStatePending, VpcStateAvailable]] ++
      (if ipv6 then [filterIPv6BlockAssociatedVPC] else []),
    VpcIds := [id] }

/-- What is assumed of a provider that nobody else changes, in terms of its
inventory `vpcs` of VPCs:
* `DescribeVpcs` reports VPCs of the inventory, and their IDs are not empty;
* a lookup by ID finds a VPC that is in the inventory, and reports only
  pending or available ones;
* a created VPC has an ID;
* a successful wait for one ID means that the VPC is in the inventory and
  available, with an associated IPv6 block when the wait had the IPv6 filter;
* describing, tagging and reading or setting attributes removes no VPC from
  the inventory and leaves its state and its associated IPv6 block. -/
structure Lawful (env : Env σ) (vpcs : σ → List Vpc) : Prop where
  describe_sound : ∀ input st out, (env.DescribeVpcs input st).1 = Except.ok out →
    ∀ v ∈ out.Vpcs, v ∈ vpcs (env.DescribeVpcs input st).2 ∧ v.VpcId ≠ ""
  describe_complete : ∀ id ipv6 st, Holds vpcs id ipv6 st →
    ∃ out, (env.DescribeVpcs (lookupRequest id ipv6) st).1 = Except.ok out ∧
      out.Vpcs ≠ [] ∧ ∀ v ∈ out.Vpcs, live v
  create_id : ∀ input st out, (env.CreateVpc input st).1 = Except.ok out →
    out.Vpc.VpcId ≠ ""
  wait_available : ∀ id filters st,
    (env.WaitUntilVpcAvailable { Filters := filters, VpcIds := [id] } st).1 = none →
    Holds vpcs id (decide (filterIPv6BlockAssociatedVPC ∈ filters))
      (env.WaitUntilVpcAvailable { Filters := filters, VpcIds := [id] } st).2
  keep_describe : ∀ id ipv6 input st, Holds vpcs id ipv6 st →
    Holds vpcs id ipv6 (env.DescribeVpcs input st).2
  keep_tagsApply : ∀ id ipv6 params st, Holds vpcs id ipv6 st →
    Holds vpcs id ipv6 (env.tagsApply params st).2
  keep_tagsEnsure : ∀ id ipv6 current params st, Holds vpcs id ipv6 st →
    Holds vpcs id ipv6 (env.tagsEnsure current params st).2
  keep_describeAttribute : ∀ id ipv6 input st, Holds vpcs id ipv6 st →
    Holds vpcs id ipv6 (env.DescribeVpcAttribute input st).2
  keep_modifyAttribute : ∀ id ipv6 input st, Holds vpcs id ipv6 st →
    Holds vpcs id ipv6 (env.ModifyVpcAttribute input st).2

/-! ## A small provider: an account that can hold one VPC -/

/-- The VPC of the small provider: it has the ID `vpc-1`, is available and has
no IPv6 block; its CIDR block and tags vary. -/
structure OneVpc where
  CidrBlock : String
  Tags : List Tag
  deriving DecidableEq, Repr

/-- The inventory of the small provider. -/
def oneVpcInventory (st : Option OneVpc) : List Vpc :=
  match st with
  | none => []
  | some v => [{ VpcId := "vpc-1", CidrBlock := v.CidrBlock, State := "available",
                 Tags := v.Tags, Ipv6CidrBlockAssociationSet := [] }]

/-- Whether a VPC passes a filter of `DescribeVpcs`: by state, by tag key or by
the state of an IPv6 association; no other filter is known. -/
def matchesFilter (f : Filter) (v : Vpc) : Bool :=
  if f.Name = "state" then f.Values.contains v.State
  else if f.Name = "tag-key" then v.Tags.any (fun t => f.Values.contains t.Key)
  else if f.Name = "ipv6-cidr-block-association.state" then
    v.Ipv6CidrBlockAssociationSet.any (fun a => f.Values.contains a.State)
  else false

/-- Whether a VPC is selected by a `DescribeVpcs` request: one of the IDs, when
IDs are given, and every filter. -/
def matchesRequest (input : DescribeVpcsInput) (v : Vpc) : Bool :=
  (input.VpcIds.isEmpty || input.VpcIds.contains v.VpcId) &&
    input.Filters.all (fun f => matchesFilter f v)

/-- The tags that a tagging call writes: those that `Build` gives. -/
def builtTags (params : BuildParams) : List Tag :=
  (Build params).map (fun p => { Key := p.1, Value := p.2 })

/-- The tagging of the small provider: only `vpc-1` can be tagged, when it
exists. -/
def oneVpcTag (params : BuildParams) (st : Option OneVpc) : Option Error × Option OneVpc :=
  match st with
  | some v =>
    if params.ResourceID = "vpc-1" then (none, some { v with Tags := builtTags params })
    else (some (Error.sdk VPCNotFound "no such VPC"), st)
  | none => (some (Error.sdk VPCNotFound "no such VPC"), st)

/-- The small provider: an account that holds at most one VPC, `vpc-1`, and
offers no IPv6. Both DNS attributes are always on. -/
def oneVpcProvider : Env (Option OneVpc) where
  DescribeVpcs := fun input st =>
    (Except.ok { Vpcs := (oneVpcInventory st).filter (matchesRequest input) }, st)
  CreateVpc := fun input st =>
    match st with
    | some _ => (Except.error (Error.sdk "VpcLimitExceeded" "one VPC only"), st)
    | none =>
      if input.AmazonProvidedIpv6CidrBlock then
        (Except.error (Error.sdk "UnsupportedOperation" "no IPv6"), st)
      else
        (Except.ok { Vpc := { VpcId := "vpc-1", CidrBlock := input.CidrBlock,
                              State := "available", Tags := [],
                              Ipv6CidrBlockAssociationSet := [] } },
          some { CidrBlock := input.CidrBlock, Tags := [] })
  WaitUntilVpcAvailable := fun input st =>
    if ((oneVpcInventory st).filter (matchesRequest input)).isEmpty then
      (some (Error.sdk "ResourceNotReady" "exceeded wait attempts"), st)
    else (none, st)
  DeleteVpc := fun input st =>
    match st with
    | some _ =>
      if input.VpcId = "vpc-1" then (none, none)
      else (some (Error.sdk VPCNotFound "no such VPC"), st)
    | none => (some (Error.sdk VPCNotFound "no such VPC"), st)
  DescribeVpcAttribute := fun _ st =>
    (Except.ok { EnableDnsHostnames := some true, EnableDnsSupport := some true }, st)
  ModifyVpcAttribute := fun _ st => (none, st)
  tagsApply := oneVpcTag
  tagsEnsure := fun _ params st => oneVpcTag params st
  IsUnmanaged := IsUnmanaged
  Build := Build
  backoffSteps := 3

/-- A service of the cluster `test-cluster` on the small provider, at the start
of a run. -/
def oneVpcService (st : Option OneVpc) (vpc : VPCSpec) : Service (Option OneVpc) :=
  { Name := "test-cluster", AdditionalTags := [], VPC := vpc, EC2 := st, calls := [],
    events := [] }

/-! ## What is expected of one attribute -/

/-- Whether a `DescribeVpcAttribute` answer is a success that reports the
attribute as false; a value that is missing reads as false. -/
def reportedFalse (r : Except Error DescribeVpcAttributeOutput)
    (value : DescribeVpcAttributeOutput → Option Bool) : Bool :=
  match r with
  | Except.ok out => !BoolValue (value out)
  | Except.error _ => false

/-- The calls expected for one attribute, from the provider state `st`: the
describe call, followed by the modify call exactly when the describe call
reported false. -/
def attributeCalls (env : Env σ) (d : DescribeVpcAttributeInput) (m : ModifyVpcAttributeInput)
    (value : DescribeVpcAttributeOutput → Option Bool) (st : σ) : List Call :=
  Call.DescribeVpcAttribute d ::
    (if reportedFalse (env.DescribeVpcAttribute d st).1 value then [Call.ModifyVpcAttribute m]
     else [])

/-- The provider state after the calls of `attributeCalls`. -/
def afterAttribute (env : Env σ) (d : DescribeVpcAttributeInput) (m : ModifyVpcAttributeInput)
    (value : DescribeVpcAttributeOutput → Option Bool) (st : σ) : σ :=
  if reportedFalse (env.DescribeVpcAttribute d st).1 value then
    (env.ModifyVpcAttribute m (env.DescribeVpcAttribute d st).2).2
  else (env.DescribeVpcAttribute d st).2

/-- The failure of one attribute, from the provider state `st`: the wrapped
error of the describe call, or else the wrapped error of the modify call when
that call is made; none when neither call fails. -/
def attributeFailure (env : Env σ) (d : DescribeVpcAttributeInput) (m : ModifyVpcAttributeInput)
    (value : DescribeVpcAttributeOutput → Option Bool) (describeMsg modifyMsg : String)
    (st : σ) : Option Error :=
  match (env.DescribeVpcAttribute d st).1 with
  | Except.error e => some (Error.wrap e describeMsg)
  | Except.ok out =>
    if !BoolValue (value out) then
      match (env.ModifyVpcAttribute m (env.DescribeVpcAttribute d st).2).1 with
      | some e => some (Error.wrap e modifyMsg)
      | none => none
    else none

/-- The request that describes `enableDnsHostnames`. -/
def describeHostnames (vpc : VPCSpec) : DescribeVpcAttributeInput :=
  { VpcId := vpc.ID, Attribute := "enableDnsHostnames" }

/-- The request that sets `enableDnsHostnames`, and nothing else, to true. -/
def modifyHostnames (vpc : VPCSpec) : ModifyVpcAttributeInput :=
  { VpcId := vpc.ID, EnableDnsHostnames := some true, EnableDnsSupport := none }

/-- The request that describes `enableDnsSupport`. -/
def describeSupport (vpc : VPCSpec) : DescribeVpcAttributeInput :=
  { VpcId := vpc.ID, Attribute := "enableDnsSupport" }

/-- The request that sets `enableDnsSupport`, and nothing else, to true. -/
def modifySupport (vpc : VPCSpec) : ModifyVpcAttributeInput :=
  { VpcId := vpc.ID, EnableDnsHostnames := none, EnableDnsSupport := some true }

/-- The failure of the attribute `enableDnsHostnames`, with the texts of
`ensureManagedVPCAttributes`. -/
def hostnamesFailure (env : Env σ) (vpc : VPCSpec) (st : σ) : Option Error :=
  attributeFailure env (describeHostnames vpc) (modifyHostnames vpc)
    (fun out => out.EnableDnsHostnames)
    "failed to describe enableDnsHostnames vpc attribute"
    "failed to set enableDnsHostnames vpc attribute" st

/-- The failure of the attribute `enableDnsSupport`, with the texts of
`ensureManagedVPCAttributes`. -/
def supportFailure (env : Env σ) (vpc : VPCSpec) (st : σ) : Option Error :=
  attributeFailure env (describeSupport vpc) (modifySupport vpc)
    (fun out => out.EnableDnsSupport)
    "failed to describe enableDnsSupport vpc attribute"
    "failed to set enableDnsSupport vpc attribute" st

/-- The provider state in which `enableDnsSupport` is described: the one that
the calls for `enableDnsHostnames` leave. -/
def afterHostnames (env : Env σ) (vpc : VPCSpec) (st : σ) : σ :=
  afterAttribute env (describeHostnames vpc) (modifyHostnames vpc)
    (fun out => out.EnableDnsHostnames) st

/-! ## Requests and scripts for the claims on `createVPC` -/

/-- The script in which no VPC is found and `CreateVpc` fails. -/
def createFailsScript : Script :=
  { okScript with createVpc := Except.error (Error.sdk "VpcLimitExceeded" "too many VPCs") }

/-- The `CreateVpc` request of `createVPC` on the scope `s`. -/
def createRequest (s : Service σ) : CreateVpcInput :=
  { CidrBlock := (defaulted s).VPC.CidrBlock,
    AmazonProvidedIpv6CidrBlock := (defaulted s).VPC.EnableIPv6 }

/-- The request with which `createVPC` waits for the VPC `id`: that one ID, and
the IPv6 filter exactly when the scope enables IPv6. -/
def waitRequest (s : Service σ) (id : String) : DescribeVpcsInput :=
  { Filters := if s.VPC.EnableIPv6 then [filterIPv6BlockAssociatedVPC] else [],
    VpcIds := [id] }

/-! ## Subnets: IPv6 blocks

`subnets.go` is not among the sources; the definitions for subnets follow the
specification and the requests that `subnets_test.go` expects. The texts of
addresses are those of the Go library `net`. -/

/-- An IPv6 network as written: the address as a number below `2 ^ 128` and
the length of the mask. -/
structure IPv6Net where
  addr : Nat
  len : Nat
  deriving DecidableEq, Repr

/-- The value of a hexadecimal digit. -/
def hexDigit (c : Char) : Option Nat :=
  if '0' ≤ c ∧ c ≤ '9' then some (c.toNat - '0'.toNat)
  else if 'a' ≤ c ∧ c ≤ 'f' then some (c.toNat - 'a'.toNat + 10)
  else if 'A' ≤ c ∧ c ≤ 'F' then some (c.toNat - 'A'.toNat + 10)
  else none

/-- The value of a numeral in the given base; `acc` is the value of the digits
read so far. -/
def readDigits (base : Nat) (acc : Nat) (cs : List Char) : Option Nat :=
  match cs with
  | [] => some acc
  | c :: rest =>
    match hexDigit c with
    | some d => if d < base then readDigits base (acc * base + d) rest else none
    | none => none

/-- The pieces of a text between the separators `sep`. -/
def piecesOf (sep : Char) (cs : List Char) : List (List Char) :=
  match cs with
  | [] => [[]]
  | c :: rest =>
    match piecesOf sep rest with
    | [] => [[]]
    | piece :: pieces => if c = sep then [] :: piece :: pieces else (c :: piece) :: pieces

/-- One group of an address: one to four hexadecimal digits. -/
def readGroup (p : List Char) : Option Nat :=
  if p.length ≤ 4 then readDigits 16 0 p else none

/-- The eight groups of an address text: the groups before and after the gap
`::`, with zero groups in the gap; without a gap all eight are written. -/
def readGroups (pieces : List (List Char)) : Option (List Nat) :=
  let left := pieces.takeWhile (fun p => !p.isEmpty)
  let tail := pieces.dropWhile (fun p => !p.isEmpty)
  match (left.mapM readGroup, (tail.filter (fun p => !p.isEmpty)).mapM readGroup) with
  | (some l, some r) =>
    if tail.isEmpty then (if l.length = 8 then some l else none)
    else if l.length + r.length < 8 then
      some (l ++ List.replicate (8 - l.length - r.length) 0 ++ r)
    else none
  | _ => none

/-- The number that groups of sixteen bits spell. -/
def groupsValue (groups : List Nat) : Nat :=
  groups.foldl (fun acc g => acc * 65536 + g) 0

/-- Reading of a text such as `2001:10:10:10::/56`: the address as written and
the length of the mask. -/
def parseCIDR (text : String) : Option IPv6Net :=
  match piecesOf '/' text.toList with
  | [a, l] =>
    match readGroups (piecesOf ':' a), (if l.isEmpty then none else readDigits 10 0 l) with
    | some groups, some len =>
      if len ≤ 128 then some { addr := groupsValue groups, len := len } else none
    | _, _ => none
  | _ => none

/-- The eight groups of sixteen bits of an address. -/
def groupsOf (addr : Nat) : List Nat :=
  (List.range 8).map (fun k => addr / 65536 ^ (7 - k) % 65536)

/-- The longest run of zero groups, as start and length, the first one among
runs of equal length; `pos` is the position, `cur` the run being read and
`best` the best run so far. -/
def longestZeroRun (groups : List Nat) (pos : Nat) (cur best : Nat × Nat) : Nat × Nat :=
  match groups with
  | [] => if cur.2 > best.2 then cur else best
  | g :: rest =>
    if g = 0 then
      longestZeroRun rest (pos + 1) (if cur.2 = 0 then (pos, 1) else (cur.1, cur.2 + 1)) best
    else
      longestZeroRun rest (pos + 1) (0, 0) (if cur.2 > best.2 then cur else best)

/-- The text of a group: hexadecimal without leading zeros. -/
def groupText (g : Nat) : String := String.mk (Nat.toDigits 16 g)

/-- The text of an address: the groups separated by `:`, with the longest run
of at least two zero groups written as `::`. -/
def addrText (addr : Nat) : String :=
  let groups := groupsOf addr
  let run := longestZeroRun groups 0 (0, 0) (0, 0)
  if run.2 < 2 then ":".intercalate (groups.map groupText)
  else
    ":".intercalate ((groups.take run.1).map groupText) ++ "::" ++
      ":".intercalate ((groups.drop (run.1 + run.2)).map groupText)

/-- The text of a network, such as `2001:10:10:a::/64`. -/
def formatCIDR (n : IPv6Net) : String :=
  addrText n.addr ++ "/" ++ String.mk (Nat.toDigits 10 n.len)

/-- Modelled from the spec: the computation of the IPv6 block of a subnet in
`subnets.go`, which is not among the sources; the `/56` block of the VPC is
sliced into `/64` blocks and the subnet takes the slice with its index: the
first 56 bits of the address of the VPC, the index in the next eight bits, and
zero in the last 64 bits. -/
def ipv6Slice (vpc : IPv6Net) (id : Nat) : IPv6Net :=
  { addr := vpc.addr / 2 ^ 72 * 2 ^ 72 + (id % 256) * 2 ^ 64, len := 64 }

/-! ## Subnets: data, provider and the pass -/

/-- `infrav1.SubnetSpec`, with the fields that the tests of the repository
set. `Ipv6CidrBlockID` is a `*uint8`. -/
structure SubnetSpec where
  ID : String
  CidrBlock : String
  AvailabilityZone : String
  IsPublic : Bool
  IsIPv6 : Bool
  Ipv6CidrBlockID : Option Nat
  RouteTableID : Option String
  Tags : Tags
  deriving DecidableEq, Repr

/-- `ec2.Subnet`, with the fields that the tests of the repository set. -/
structure Subnet where
  VpcId : String
  SubnetId : String
  AvailabilityZone : String
  CidrBlock : String
  Tags : List Tag
  deriving DecidableEq, Repr

/-- `ec2.Route`. -/
structure Route where
  DestinationCidrBlock : Option String
  GatewayId : Option String
  deriving DecidableEq, Repr

/-- `ec2.RouteTableAssociation`; the association of the main route table has
no subnet. -/
structure RouteTableAssociation where
  SubnetId : Option String
  deriving DecidableEq, Repr

/-- `ec2.RouteTable`. -/
structure RouteTable where
  RouteTableId : String
  Associations : List RouteTableAssociation
  Routes : List Route
  deriving DecidableEq, Repr

/-- `ec2.CreateSubnetInput`. -/
structure CreateSubnetInput where
  VpcId : String
  CidrBlock : String
  AvailabilityZone : String
  Ipv6CidrBlock : Option String
  deriving DecidableEq, Repr

/-- `ec2.ModifySubnetAttributeInput`. -/
structure ModifySubnetAttributeInput where
  SubnetId : String
  MapPublicIpOnLaunch : Option Bool
  AssignIpv6AddressOnCreation : Option Bool
  deriving DecidableEq, Repr

/-- A request of the subnet pass that leaves the service; `CreateTags` stands
for the tagging of one subnet with the tags built from the parameters. -/
inductive SubnetCall where
  | DescribeAvailabilityZones
  | DescribeSubnets (filters : List Filter)
  | DescribeRouteTables (filters : List Filter)
  | DescribeNatGatewaysPages (filters : List Filter)
  | CreateSubnet (input : CreateSubnetInput)
  | WaitUntilSubnetAvailable (subnetId : String)
  | CreateTags (params : BuildParams)
  | ModifySubnetAttribute (input : ModifySubnetAttributeInput)
  deriving DecidableEq, Repr

/-- The provider as the subnet pass sees it: the answer to each request, and
the two constants `defaultPrivateSubnetCidr` and `defaultPublicSubnetCidr`,
whose values are not among the sources. -/
structure SubnetEnv where
  defaultPrivateSubnetCidr : String
  defaultPublicSubnetCidr : String
  DescribeAvailabilityZones : Except Error (List String)
  DescribeSubnets : List Filter → Except Error (List Subnet)
  DescribeRouteTables : List Filter → Except Error (List RouteTable)
  DescribeNatGatewaysPages : List Filter → Option Error
  CreateSubnet : CreateSubnetInput → Except Error Subnet
  WaitUntilSubnetAvailable : String → Option Error
  CreateTags : BuildParams → Option Error
  ModifySubnetAttribute : ModifySubnetAttributeInput → Option Error

/-- The scope of the subnet pass: the cluster name, the VPC, the subnets of the
network spec, and the log of the requests. -/
structure SubnetScope where
  Name : String
  VPC : VPCSpec
  Subnets : List SubnetSpec
  calls : List SubnetCall
  deriving DecidableEq, Repr

/-- Logs one request. -/
def SubnetScope.log (s : SubnetScope) (c : SubnetCall) : SubnetScope :=
  { s with calls := s.calls ++ [c] }

/-- The filters with which the tests expect the subnets of a VPC to be
listed. -/
def subnetFilters (vpcID : String) : List Filter :=
  [VPCStates [VpcStatePending, VpcStateAvailable], { Name := "vpc-id", Values := [vpcID] }]

/-- The filter with which the route tables of a VPC are listed. -/
def routeTableFilters (vpcID : String) : List Filter :=
  [{ Name := "vpc-id", Values := [vpcID] }]

/-- The filters with which the tests expect the NAT gateways of a VPC to be
listed. -/
def natGatewayFilters (vpcID : String) : List Filter :=
  [{ Name := "vpc-id", Values := [vpcID] }, VPCStates [VpcStatePending, VpcStateAvailable]]

/-- Modelled from the spec: phase 1 of `reconcileSubnets`, which is not among
the sources; the zones are queried only when the desired subnet list is empty,
and, the query being of use for default generation only, in a managed VPC. -/
def discoverZones (env : SubnetEnv) (s : SubnetScope) : Except Error (List String) × SubnetScope :=
  if s.Subnets.isEmpty && !IsUnmanaged s.VPC s.Name then
    (env.DescribeAvailabilityZones, s.log SubnetCall.DescribeAvailabilityZones)
  else (Except.ok [], s)

/-- Modelled from the spec: the mapping of an observed subnet into a
`SubnetSpec`, which is not among the sources; the tags are carried over, and
the subnet is private without a route table until it is classified. -/
def mapSubnet (sn : Subnet) : SubnetSpec :=
  { ID := sn.SubnetId, CidrBlock := sn.CidrBlock, AvailabilityZone := sn.AvailabilityZone,
    IsPublic := false, IsIPv6 := false, Ipv6CidrBlockID := none, RouteTableID := none,
    Tags := TagsToMap sn.Tags }

/-- Modelled from the spec: a route is a default route through an internet
gateway when its destination is `0.0.0.0/0` and its gateway ID starts with
`igw-`. -/
def isInternetRoute (r : Route) : Bool :=
  r.DestinationCidrBlock == some "0.0.0.0/0" &&
    match r.GatewayId with
    | some g => "igw-".toList.isPrefixOf g.toList
    | none => false

/-- The route table has a default route through an internet gateway. -/
def hasInternetRoute (rt : RouteTable) : Bool :=
  rt.Routes.any isInternetRoute

/-- The route table is associated with the subnet. -/
def associatedWith (rt : RouteTable) (id : String) : Bool :=
  rt.Associations.any (fun a => a.SubnetId == some id)

/-- Modelled from the spec: the classification by one route table, which is
not among the sources; a subnet associated with the table records the table,
and is marked public when the table has a default route through an internet
gateway. -/
def classifyBy (rt : RouteTable) (sn : SubnetSpec) : SubnetSpec :=
  if associatedWith rt sn.ID then
    { sn with RouteTableID := some rt.RouteTableId, IsPublic := sn.IsPublic || hasInternetRoute rt }
  else sn

/-- Modelled from the spec: phase 3 of `reconcileSubnets`, which is not among
the sources; the route tables are gone through in the order of the response. -/
def classify (tables : List RouteTable) (subnets : List SubnetSpec) : List SubnetSpec :=
  tables.foldl (fun sns rt => sns.map (classifyBy rt)) subnets

/-- Modelled from the spec: phases 2 to 4 of `reconcileSubnets`, which is not
among the sources; the subnets of the VPC are listed and mapped, the route
tables are listed and the subnets classified, and the NAT gateways are listed;
a failed request ends the pass. -/
def describeVpcSubnets (env : SubnetEnv) (s : SubnetScope) :
    Except Error (List SubnetSpec) × SubnetScope :=
  let s1 := s.log (SubnetCall.DescribeSubnets (subnetFilters s.VPC.ID))
  match env.DescribeSubnets (subnetFilters s.VPC.ID) with
  | Except.error e => (Except.error e, s1)
  | Except.ok out =>
    let s2 := s1.log (SubnetCall.DescribeRouteTables (routeTableFilters s.VPC.ID))
    match env.DescribeRouteTables (routeTableFilters s.VPC.ID) with
    | Except.error e => (Except.error e, s2)
    | Except.ok tables =>
      let s3 := s2.log (SubnetCall.DescribeNatGatewaysPages (natGatewayFilters s.VPC.ID))
      match env.DescribeNatGatewaysPages (natGatewayFilters s.VPC.ID) with
      | some e => (Except.error e, s3)
      | none => (Except.ok (classify tables (out.map mapSubnet)), s3)

/-- Modelled from the spec: the union of phase 5, which is not among the
sources; a desired subnet whose ID was discovered takes the observed state,
and the discovered subnets that are not in the desired list are appended. -/
def unionSubnets (desired existing : List SubnetSpec) : List SubnetSpec :=
  desired.map (fun sn => (existing.find? (fun d => d.ID == sn.ID)).getD sn) ++
    existing.filter (fun d => !desired.any (fun sn => sn.ID == d.ID))

/-- Modelled from the spec: the default subnets of phase 5, which are not among
the sources; one private and one public subnet with the default CIDR
constants, in the given zone. When the VPC has IPv6 enabled the tests expect
them to take the slices 0 and 1 of the block of the VPC. -/
def defaultSubnets (env : SubnetEnv) (vpc : VPCSpec) (zone : String) : List SubnetSpec :=
  [{ ID := "", CidrBlock := env.defaultPrivateSubnetCidr, AvailabilityZone := zone,
     IsPublic := false, IsIPv6 := vpc.EnableIPv6,
     Ipv6CidrBlockID := if vpc.EnableIPv6 then some 0 else none, RouteTableID := none,
     Tags := [] },
   { ID := "", CidrBlock := env.defaultPublicSubnetCidr, AvailabilityZone := zone,
     IsPublic := true, IsIPv6 := vpc.EnableIPv6,
     Ipv6CidrBlockID := if vpc.EnableIPv6 then some 1 else none, RouteTableID := none,
     Tags := [] }]

/-- The role tag of a subnet. -/
def subnetRole (sn : SubnetSpec) : String :=
  if sn.IsPublic then "public" else "private"

/-- Modelled from the spec: the tag parameters of a subnet, which are not
among the sources; the ownership tags of a managed resource and the role tag,
with the name that the tests show on a tagged subnet. -/
def subnetTagParams (s : SubnetScope) (id : String) (role : String) : BuildParams :=
  { ClusterName := s.Name, ResourceID := id, Lifecycle := ResourceLifecycleOwned,
    Name := some (s.Name ++ "-subnet-" ++ role), Role := some role, Additional := [] }

/-- Modelled from the spec: the IPv6 block of the create request, which is not
among the sources; there is one only if the VPC has IPv6 enabled and the
subnet is flagged IPv6, and it is the slice of the block of the VPC with the
index `Ipv6CidrBlockID` (a nil index reads as 0). -/
def subnetIpv6Block (vpc : VPCSpec) (sn : SubnetSpec) : Except Error (Option String) :=
  if vpc.EnableIPv6 && sn.IsIPv6 then
    match vpc.Ipv6CidrBlock.bind parseCIDR with
    | some net => Except.ok (some (formatCIDR (ipv6Slice net (sn.Ipv6CidrBlockID.getD 0))))
    | none => Except.error (Error.errorf "the VPC has no IPv6 CIDR block to slice")
  else Except.ok none

/-- One optional subnet attribute: the request is issued when `wanted`. -/
def modifyWhen (env : SubnetEnv) (wanted : Bool) (input : ModifySubnetAttributeInput)
    (s : SubnetScope) : Option Error × SubnetScope :=
  if wanted then (env.ModifySubnetAttribute input, s.log (SubnetCall.ModifySubnetAttribute input))
  else (none, s)

/-- Modelled from the spec: the creation of one subnet in phase 5, which is not
among the sources; create, wait until available, tag, then the attribute for a
public IPv4 address on launch for a public subnet and the attribute for an IPv6
address on creation for an IPv6 subnet; the first failure ends the pass. The
created subnet takes the ID that the provider returned. For a subnet that is
public and IPv6 the IPv6 tests expect the IPv6 attribute only; the
specification has both attributes, and so has this definition. -/
def createSubnet (env : SubnetEnv) (sn : SubnetSpec) (s : SubnetScope) :
    (Option Error × SubnetSpec) × SubnetScope :=
  match subnetIpv6Block s.VPC sn with
  | Except.error e => ((some e, sn), s)
  | Except.ok block =>
    let input : CreateSubnetInput :=
      { VpcId := s.VPC.ID, CidrBlock := sn.CidrBlock, AvailabilityZone := sn.AvailabilityZone,
        Ipv6CidrBlock := block }
    let s1 := s.log (SubnetCall.CreateSubnet input)
    match env.CreateSubnet input with
    | Except.error e => ((some e, sn), s1)
    | Except.ok out =>
      let created := { sn with ID := out.SubnetId }
      let s2 := s1.log (SubnetCall.WaitUntilSubnetAvailable out.SubnetId)
      match env.WaitUntilSubnetAvailable out.SubnetId with
      | some e => ((some e, created), s2)
      | none =>
        let params := subnetTagParams s out.SubnetId (subnetRole sn)
        let s3 := s2.log (SubnetCall.CreateTags params)
        match env.CreateTags params with
        | some e => ((some e, created), s3)
        | none =>
          match modifyWhen env sn.IsPublic
              { SubnetId := out.SubnetId, MapPublicIpOnLaunch := some true,
                AssignIpv6AddressOnCreation := none } s3 with
          | (some e, s4) => ((some e, created), s4)
          | (none, s4) =>
            match modifyWhen env (s.VPC.EnableIPv6 && sn.IsIPv6)
                { SubnetId := out.SubnetId, MapPublicIpOnLaunch := none,
                  AssignIpv6AddressOnCreation := some true } s4 with
            | (err, s5) => ((err, created), s5)

/-- Modelled from the spec: the handling of one subnet of the list in phase 5,
which is not among the sources; a subnet whose ID was discovered exists and
has its tags applied again, every other subnet is created. -/
def convergeSubnet (env : SubnetEnv) (existingIDs : List String) (sn : SubnetSpec)
    (s : SubnetScope) : (Option Error × SubnetSpec) × SubnetScope :=
  if existingIDs.contains sn.ID then
    ((env.CreateTags (subnetTagParams s sn.ID (subnetRole sn)), sn),
      s.log (SubnetCall.CreateTags (subnetTagParams s sn.ID (subnetRole sn))))
  else createSubnet env sn s

/-- Modelled from the spec: the loop of phase 5, which is not among the
sources; the subnets are handled in the order of the list, one after the
other, and the first failure ends the pass, leaving the rest as it was. -/
def convergeSubnets (env : SubnetEnv) (existingIDs : List String) :
    List SubnetSpec → SubnetScope → (Option Error × List SubnetSpec) × SubnetScope
  | [], s => ((none, []), s)
  | sn :: rest, s =>
    match convergeSubnet env existingIDs sn s with
    | ((some e, sn1), s1) => ((some e, sn1 :: rest), s1)
    | ((none, sn1), s1) =>
      match convergeSubnets env existingIDs rest s1 with
      | ((err, rest1), s2) => ((err, sn1 :: rest1), s2)

/-- Modelled from the spec: `reconcileSubnets`, which is not among the
sources; the five phases in order. Nothing is tagged or created in a VPC that
is not managed. The default subnets are made when the list is empty after the
union, in the first zone that the provider returned. The tests with one
declared subnet expect the default subnet of the other kind next to it; the
specification makes the defaults for an empty list only, and so does this
definition. -/
def reconcileSubnets (env : SubnetEnv) (s : SubnetScope) : Option Error × SubnetScope :=
  match discoverZones env s with
  | (Except.error e, s1) => (some e, s1)
  | (Except.ok zones, s1) =>
    match describeVpcSubnets env s1 with
    | (Except.error e, s2) => (some e, s2)
    | (Except.ok existing, s2) =>
      let merged := unionSubnets s2.Subnets existing
      if IsUnmanaged s2.VPC s2.Name then (none, { s2 with Subnets := merged })
      else
        match (if merged.isEmpty then zones.head?.map (defaultSubnets env s2.VPC)
            else some merged) with
        | none =>
          (some (Error.errorf "no availability zone for the default subnets"),
            { s2 with Subnets := merged })
        | some wanted =>
          match convergeSubnets env (existing.map (fun d => d.ID)) wanted s2 with
          | ((err, subnets), s3) => (err, { s3 with Subnets := subnets })

/-! ## Subnets: the providers of the tests -/

/-- The error of a request that a test does not expect. -/
def unexpectedCall : Error := Error.errorf "unexpected call"

/-- A provider without expectations: every request fails. The two constants
have values for the concrete runs only. -/
def strictEnv : SubnetEnv where
  defaultPrivateSubnetCidr := "10.0.0.0/24"
  defaultPublicSubnetCidr := "10.0.1.0/24"
  DescribeAvailabilityZones := Except.error unexpectedCall
  DescribeSubnets := fun _ => Except.error unexpectedCall
  DescribeRouteTables := fun _ => Except.error unexpectedCall
  DescribeNatGatewaysPages := fun _ => some unexpectedCall
  CreateSubnet := fun _ => Except.error unexpectedCall
  WaitUntilSubnetAvailable := fun _ => some unexpectedCall
  CreateTags := fun _ => some unexpectedCall
  ModifySubnetAttribute := fun _ => some unexpectedCall

/-- The constant `subnetsVPCID` of the tests. -/
def subnetsVPCID : String := "vpc-subnets"

/-- The provider of `TestDiscoverSubnets`: two subnets, the route table `rtb-1`
of `subnet-1` with a default route through `igw-0`, the route table `rtb-2` of
`subnet-2` with a local route only, and the listing of the NAT gateways. -/
def discoverEnv : SubnetEnv :=
  { strictEnv with
    DescribeSubnets := fun f =>
      if f = subnetFilters subnetsVPCID then
        Except.ok
          [{ VpcId := subnetsVPCID, SubnetId := "subnet-1", AvailabilityZone := "us-east-1a",
             CidrBlock := "10.0.10.0/24", Tags := [⟨"Name", "provided-subnet-public"⟩] },
           { VpcId := subnetsVPCID, SubnetId := "subnet-2", AvailabilityZone := "us-east-1a",
             CidrBlock := "10.0.11.0/24", Tags := [⟨"Name", "provided-subnet-private"⟩] }]
      else Except.error unexpectedCall
    DescribeRouteTables := fun _ =>
      Except.ok
        [{ RouteTableId := "rtb-1", Associations := [⟨some "subnet-1"⟩],
           Routes := [⟨some "10.0.10.0/24", some "local"⟩, ⟨some "0.0.0.0/0", some "igw-0"⟩] },
         { RouteTableId := "rtb-2", Associations := [⟨some "subnet-2"⟩],
           Routes := [⟨some "10.0.11.0/24", some "local"⟩] }]
    DescribeNatGatewaysPages := fun f =>
      if f = natGatewayFilters subnetsVPCID then none else some unexpectedCall }

/-- The scope of `TestDiscoverSubnets`: the VPC `vpc-subnets` without tags and
no declared subnets. -/
def discoverScope : SubnetScope :=
  { Name := "test-cluster", VPC := specOf subnetsVPCID [] false, Subnets := [], calls := [] }

/-- The scope of the IPv6 tests: the managed VPC `vpc-subnets` with the block
`2001:10:10:10::/56`, and the declared subnets. -/
def ipv6Scope (subnets : List SubnetSpec) : SubnetScope :=
  { Name := "test-cluster",
    VPC := { specOf subnetsVPCID ownedTags true with Ipv6CidrBlock := some "2001:10:10:10::/56" },
    Subnets := subnets, calls := [] }

/-- A declared subnet of the IPv6 tests. -/
def ipv6Subnet (zone cidr : String) (pub : Bool) (id : Nat) : SubnetSpec :=
  { ID := "", CidrBlock := cidr, AvailabilityZone := zone, IsPublic := pub, IsIPv6 := true,
    Ipv6CidrBlockID := some id, RouteTableID := none, Tags := [] }

/-- The error of an answer of the provider, nil for a success: the `err` of
`out, err := ...`. -/
def answerError {α : Type} (r : Except Error α) : Option Error :=
  match r with
  | Except.error e => some e
  | Except.ok _ => none

/-- The warning event of `ensureManagedVPCAttributes` for the VPC `id`,
formatted with the error `err`. -/
def failedSetVPCAttributes (id : String) (err : Option Error) : Event :=
  { eventtype := "Warning", reason := "FailedSetVPCAttributes",
    messageFmt := "Failed to set managed VPC attributes for %q: %v",
    args := [FmtArg.str id, FmtArg.err err] }

/-- The error with which the provider refuses a request in the concrete
runs. -/
def requestLimitExceeded : Error := Error.sdk "RequestLimitExceeded" "request limit exceeded"

/-- A provider in which the describe call for `enableDnsHostnames` fails and
every other call succeeds, `enableDnsSupport` being reported as set. -/
def hostnamesDescribeFails : Env Nat :=
  { scripted okScript with
    DescribeVpcAttribute := fun input n =>
      if input.Attribute = "enableDnsHostnames" then (Except.error requestLimitExceeded, n + 1)
      else (Except.ok { EnableDnsHostnames := some true, EnableDnsSupport := some true }, n + 1) }

/-- The IPv6 associations of the observed VPC of the concrete run: one block
that is still associating, followed by two associated blocks. -/
def threeAssociations : List VpcIpv6CidrBlockAssociation :=
  [{ Ipv6CidrBlock := some "2001:db8:1::/56", State := "associating" },
   { Ipv6CidrBlock := some "2001:db8:1234:1a00::/56", State := "associated" },
   { Ipv6CidrBlock := some "2001:db8:2::/56", State := "associated" }]

/-- An association set whose one entry is `associated` and carries no block:
the field `Ipv6CidrBlock` of the entry is a nil pointer. -/
def blocklessAssociation : List VpcIpv6CidrBlockAssociation :=
  [{ Ipv6CidrBlock := none, State := "associated" }]

/-! ## General facts about runs -/

theorem issued_self (s : Service σ) : issued s s = [] := by
  simp [issued]

theorem issued_append (s t : Service σ) (l : List Call) (h : t.calls = s.calls ++ l) :
    issued s t = l := by
  simp [issued, h]

theorem Run.refl (I : σ → Prop) (P : Call → Prop) (s : Service σ) : Run I P s s :=
  ⟨rfl, rfl, rfl, id, [], by simp, by simp⟩

theorem Run.trans {I : σ → Prop} {P : Call → Prop} {a b c : Service σ} (h1 : Run I P a b)
    (h2 : Run I P b c) : Run I P a c := by
  obtain ⟨n1, t1, v1, i1, l1, c1, p1⟩ := h1
  obtain ⟨n2, t2, v2, i2, l2, c2, p2⟩ := h2
  refine ⟨n2.trans n1, t2.trans t1, v2.trans v1, fun h => i2 (i1 h), l1 ++ l2, ?_, ?_⟩
  · rw [c2, c1, List.append_assoc]
  · intro c hc
    rcases List.mem_append.mp hc with h | h
    · exact p1 c h
    · exact p2 c h

theorem Run.mono {I : σ → Prop} {P Q : Call → Prop} {a b : Service σ} (h : Run I P a b)
    (hPQ : ∀ c, P c → Q c) : Run I Q a b := by
  obtain ⟨n1, t1, v1, i1, l1, c1, p1⟩ := h
  exact ⟨n1, t1, v1, i1, l1, c1, fun c hc => hPQ c (p1 c hc)⟩

theorem Run.issue {α : Type} (I : σ → Prop) (P : Call → Prop) (s : Service σ) (c : Call)
    (op : σ → α × σ) (hI : ∀ st, I st → I (op st).2) (hc : P c) : Run I P s (s.issue c op).2 :=
  ⟨rfl, rfl, rfl, hI s.EC2, [c], rfl, by simpa using hc⟩

theorem Run.record (I : σ → Prop) (P : Call → Prop) (s : Service σ) (ev : Event) :
    Run I P s (s.record ev) :=
  ⟨rfl, rfl, rfl, id, [], by simp [Service.record], by simp⟩

/-- The retry helper keeps every relation between states that is reflexive,
transitive and kept by one attempt. -/
theorem WaitForWithRetryable_rel {S : Type} (R : S → S → Prop)
    (hrefl : ∀ s, R s s) (htrans : ∀ a b c, R a b → R b c → R a c)
    (condition : S → (Bool × Option Error) × S) (hcond : ∀ s, R s (condition s).2)
    (retryable : List String) (steps : Nat) :
    ∀ (e : Option Error) (s : S), R s (WaitForWithRetryable steps condition retryable e s).2 := by
  induction steps with
  | zero =>
    intro e s
    unfold WaitForWithRetryable
    split <;> exact hrefl s
  | succ n ih =>
    intro e s
    unfold WaitForWithRetryable
    have hc := hcond s
    split
    · rename_i s1 heq
      rw [heq] at hc
      exact hc
    · rename_i s1 heq
      rw [heq] at hc
      exact htrans _ _ _ hc (ih _ _)
    · rename_i err s1 heq
      rw [heq] at hc
      split
      · exact hc
      · split
        · exact htrans _ _ _ hc (ih _ _)
        · exact hc

theorem Run.condition (I : σ → Prop) (P : Call → Prop)
    (op : Service σ → Option Error × Service σ)
    (h : ∀ s, Run I P s (op s).2) (s : Service σ) : Run I P s (Ec2Vpc.condition op s).2 := by
  unfold Ec2Vpc.condition
  have := h s
  split <;> rename_i heq <;> rw [heq] at this <;> exact this

theorem Run.retry (I : σ → Prop) (P : Call → Prop) (op : Service σ → Option Error × Service σ)
    (h : ∀ s, Run I P s (op s).2) (retryable : List String) (steps : Nat) (e : Option Error)
    (s : Service σ) :
    Run I P s (WaitForWithRetryable steps (Ec2Vpc.condition op) retryable e s).2 :=
  WaitForWithRetryable_rel (Run I P) (Run.refl I P) (fun _ _ _ => Run.trans) _
    (Run.condition I P op h) retryable steps e s

/-! ## Facts about `describeVPC` -/

/-- The only effect of `describeVPC` is its one `DescribeVpcs` call. -/
theorem describeVPC_state (env : Env σ) (s : Service σ) :
    (describeVPC env s).2 =
      { s with EC2 := (env.DescribeVpcs (describeVPCInput s) s.EC2).2,
               calls := s.calls ++ [Call.DescribeVpcs (describeVPCInput s)] } := by
  unfold describeVPC
  simp only [Service.issue]
  split
  · rename_i err s1 heq
    simp only [Prod.mk.injEq] at heq
    obtain ⟨_, rfl⟩ := heq
    split <;> rfl
  · rename_i out s1 heq
    simp only [Prod.mk.injEq] at heq
    obtain ⟨_, rfl⟩ := heq
    split
    · rfl
    · rfl
    · split
      · split
        · split
          · rfl
          · split <;> rfl
        · rfl
      · rfl

/-- The pair that `describeVPC` returns is a spec without an error or an error
without a spec. -/
theorem describeVPC_result (env : Env σ) (s : Service σ) :
    (∃ vpc, (describeVPC env s).1 = (some vpc, none)) ∨
    (∃ err, (describeVPC env s).1 = (none, some err)) := by
  unfold describeVPC
  simp only [Service.issue]
  split
  · split
    · exact Or.inr ⟨_, rfl⟩
    · exact Or.inr ⟨_, rfl⟩
  · split
    · exact Or.inr ⟨_, rfl⟩
    · exact Or.inr ⟨_, rfl⟩
    · split
      · split
        · split
          · exact Or.inr ⟨_, rfl⟩
          · split
            · exact Or.inl ⟨_, rfl⟩
            · exact Or.inr ⟨_, rfl⟩
        · exact Or.inl ⟨_, rfl⟩
      · exact Or.inr ⟨_, rfl⟩

theorem findAssociated_none (set : List VpcIpv6CidrBlockAssociation)
    (h : ∀ a ∈ set, a.State ≠ VpcCidrBlockStateCodeAssociated) : findAssociated set = none := by
  induction set with
  | nil => rfl
  | cons a rest ih =>
    have ha : a.State ≠ VpcCidrBlockStateCodeAssociated := h a (List.mem_cons_self a rest)
    have hrest : ∀ b ∈ rest, b.State ≠ VpcCidrBlockStateCodeAssociated :=
      fun b hb => h b (List.mem_cons_of_mem a hb)
    simp [findAssociated, ha, ih hrest]

/-! ## Facts about `createVPC` -/

theorem defaulted_calls (s : Service σ) : (defaulted s).calls = s.calls := by
  unfold defaulted
  split <;> rfl

theorem defaulted_CidrBlock (s : Service σ) :
    (defaulted s).VPC.CidrBlock =
      if s.VPC.CidrBlock = "" then "10.0.0.0/16" else s.VPC.CidrBlock := by
  unfold defaulted
  split <;> simp_all [defaultVPCCidr]

theorem defaulted_EnableIPv6 (s : Service σ) :
    (defaulted s).VPC.EnableIPv6 = s.VPC.EnableIPv6 := by
  unfold defaulted
  split <;> rfl

theorem tagsApply_run (env : Env σ) (I : σ → Prop) (P : Call → Prop)
    (hT : ∀ p st, I st → I (env.tagsApply p st).2) (hP : ∀ p, P (Call.tagsApply p))
    (params : BuildParams) (s : Service σ) :
    Run I P s
      ((fun s : Service σ => s.issue (Call.tagsApply params) (env.tagsApply params)) s).2 :=
  Run.issue _ _ _ _ _ (hT params) (hP params)

/-- On a managed scope `createVPC` first issues `CreateVpc`, with the CIDR
block defaulted; what follows is the wait and the tagging, and the scope stays
as it was at the `CreateVpc` call. -/
theorem createVPC_after_create (env : Env σ) (I : σ → Prop) (P : Call → Prop) (s : Service σ)
    (h : env.IsUnmanaged s.VPC s.Name = false)
    (hW : ∀ i st, I st → I (env.WaitUntilVpcAvailable i st).2)
    (hT : ∀ p st, I st → I (env.tagsApply p st).2)
    (hPW : ∀ i, P (Call.WaitUntilVpcAvailable i)) (hPT : ∀ p, P (Call.tagsApply p)) :
    Run I P
      ((defaulted s).issue
        (Call.CreateVpc { CidrBlock := (defaulted s).VPC.CidrBlock,
                          AmazonProvidedIpv6CidrBlock := (defaulted s).VPC.EnableIPv6 })
        (env.CreateVpc { CidrBlock := (defaulted s).VPC.CidrBlock,
                         AmazonProvidedIpv6CidrBlock := (defaulted s).VPC.EnableIPv6 })).2
      (createVPC env s).2 := by
  unfold createVPC
  simp only [h, Bool.false_eq_true, if_false]
  split
  · rename_i err s1 heq
    rw [heq]
    exact Run.record _ _ _ _
  · rename_i out s1 heq
    rw [heq]
    generalize (if (Service.VPC _).EnableIPv6 = true then [filterIPv6BlockAssociatedVPC]
      else ([] : List Filter)) = flt
    split
    · rename_i werr s2 heq2
      have hs2 := (congrArg Prod.snd heq2).symm
      subst hs2
      exact Run.trans (Run.record _ _ _ _) (Run.issue _ _ _ _ _ (hW _) (hPW _))
    · rename_i s2 heq2
      have hs2 := (congrArg Prod.snd heq2).symm
      subst hs2
      split
      · rename_i terr s3 heq3
        have hs3 := (congrArg Prod.snd heq3).symm
        subst hs3
        refine Run.trans ?_ (Run.record _ _ _ _)
        refine Run.trans ?_ (Run.retry _ _ _ (tagsApply_run env I P hT hPT _) _ _ _ _)
        exact Run.trans (Run.record _ _ _ _) (Run.issue _ _ _ _ _ (hW _) (hPW _))
      · rename_i s3 heq3
        have hs3 := (congrArg Prod.snd heq3).symm
        subst hs3
        split
        on_goal 1 => split
        on_goal 2 => split
        all_goals
          refine Run.trans ?_ (Run.record _ _ _ _)
          refine Run.trans ?_ (Run.retry _ _ _ (tagsApply_run env I P hT hPT _) _ _ _ _)
          exact Run.trans (Run.record _ _ _ _) (Run.issue _ _ _ _ _ (hW _) (hPW _))

/-! ## Facts about `deleteVPC` -/

theorem deleteVPC_of_describe_error (env : Env σ) (s : Service σ) (err : Error)
    (h : env.IsUnmanaged s.VPC s.Name = false)
    (hd : (describeVPC env s).1 = (none, some err)) :
    deleteVPC env s =
      (Outcome.ret (if IsNotFound (some err) then none else some err), (describeVPC env s).2) := by
  have hpair : describeVPC env s = ((none, some err), (describeVPC env s).2) := by rw [← hd]
  unfold deleteVPC
  rw [hpair]
  simp only [h, Bool.false_eq_true, if_false]
  split <;> rfl

theorem deleteVPC_of_describe_ok (env : Env σ) (s : Service σ) (vpc : VPCSpec)
    (h : env.IsUnmanaged s.VPC s.Name = false)
    (hd : (describeVPC env s).1 = (some vpc, none)) :
    (deleteVPC env s).2.calls =
      (describeVPC env s).2.calls ++ [Call.DeleteVpc { VpcId := vpc.ID }] ∧
    (deleteVPC env s).1 =
      Outcome.ret (match (env.DeleteVpc { VpcId := vpc.ID } (describeVPC env s).2.EC2).1 with
        | none => none
        | some err =>
          if Code err = some VPCNotFound then none
          else some (Error.wrap err ("failed to delete vpc \"" ++ vpc.ID ++ "\""))) := by
  have hpair : describeVPC env s = ((some vpc, none), (describeVPC env s).2) := by rw [← hd]
  unfold deleteVPC
  rw [hpair]
  simp only [h, Bool.false_eq_true, if_false, Service.issue]
  cases hr : (env.DeleteVpc { VpcId := vpc.ID } (describeVPC env s).2.EC2).1 with
  | none => simp [Service.record]
  | some err =>
    by_cases hc : Code err = some VPCNotFound
    · simp [hc]
    · simp [hc, Service.record, Wrap]

/-! ## Facts about the attribute and reconcile runs -/

theorem ensureDnsHostnames_run (env : Env σ) (I : σ → Prop) (vpc : VPCSpec)
    (hD : ∀ i st, I st → I (env.DescribeVpcAttribute i st).2)
    (hM : ∀ i st, I st → I (env.ModifyVpcAttribute i st).2) (s : Service σ) :
    Run I (fun c => c.isAttribute = true) s (ensureDnsHostnames env vpc s).s := by
  unfold ensureDnsHostnames
  simp only []
  split
  · rename_i err s1 heq
    have hs := (congrArg Prod.snd heq).symm
    subst hs
    exact Run.issue _ _ _ _ _ (hD _) (by rfl)
  · rename_i vpcAttr s1 heq
    have hs := (congrArg Prod.snd heq).symm
    subst hs
    split
    · split
      all_goals
        rename_i s2 heq2
        have hs2 := (congrArg Prod.snd heq2).symm
        subst hs2
        exact Run.trans (Run.issue _ _ _ _ _ (hD _) (by rfl)) (Run.issue _ _ _ _ _ (hM _) (by rfl))
    · exact Run.issue _ _ _ _ _ (hD _) (by rfl)

theorem ensureDnsSupport_run (env : Env σ) (I : σ → Prop) (vpc : VPCSpec)
    (hD : ∀ i st, I st → I (env.DescribeVpcAttribute i st).2)
    (hM : ∀ i st, I st → I (env.ModifyVpcAttribute i st).2) (l : AttrLocals σ) :
    Run I (fun c => c.isAttribute = true) l.s (ensureDnsSupport env vpc l).s := by
  unfold ensureDnsSupport
  simp only []
  split
  · rename_i err s1 heq
    have hs := (congrArg Prod.snd heq).symm
    subst hs
    exact Run.issue _ _ _ _ _ (hD _) (by rfl)
  · rename_i vpcAttr s1 heq
    have hs := (congrArg Prod.snd heq).symm
    subst hs
    split
    · split
      all_goals
        rename_i s2 heq2
        have hs2 := (congrArg Prod.snd heq2).symm
        subst hs2
        exact Run.trans (Run.issue _ _ _ _ _ (hD _) (by rfl)) (Run.issue _ _ _ _ _ (hM _) (by rfl))
    · exact Run.issue _ _ _ _ _ (hD _) (by rfl)

theorem ensureManagedVPCAttributes_run (env : Env σ) (I : σ → Prop) (vpc : VPCSpec)
    (hD : ∀ i st, I st → I (env.DescribeVpcAttribute i st).2)
    (hM : ∀ i st, I st → I (env.ModifyVpcAttribute i st).2) (s : Service σ) :
    Run I (fun c => c.isAttribute = true) s (ensureManagedVPCAttributes env vpc s).2 := by
  have h12 := Run.trans (ensureDnsHostnames_run env I vpc hD hM s)
    (ensureDnsSupport_run env I vpc hD hM (ensureDnsHostnames env vpc s))
  unfold ensureManagedVPCAttributes
  simp only []
  split
  · exact Run.trans h12 (Run.record _ _ _ _)
  · split
    · exact Run.trans h12 (Run.record _ _ _ _)
    · exact h12

theorem tagsEnsure_run (env : Env σ) (I : σ → Prop) (P : Call → Prop)
    (hT : ∀ c p st, I st → I (env.tagsEnsure c p st).2) (hP : ∀ c p, P (Call.tagsEnsure c p))
    (vpc : VPCSpec) (s : Service σ) :
    Run I P s
      ((fun s : Service σ => s.issue (Call.tagsEnsure vpc.Tags (getVPCTagParams s vpc.ID))
        (env.tagsEnsure vpc.Tags (getVPCTagParams s vpc.ID))) s).2 :=
  Run.issue _ _ _ _ _ (hT _ _) (hP _ _)

/-- The state that `reconcileManagedVPC` reaches is a run of tagging and
attribute calls, followed on success by the copy of the VPC into the scope. -/
theorem reconcileManagedVPC_run (env : Env σ) (I : σ → Prop) (vpc : VPCSpec)
    (hT : ∀ c p st, I st → I (env.tagsEnsure c p st).2)
    (hD : ∀ i st, I st → I (env.DescribeVpcAttribute i st).2)
    (hM : ∀ i st, I st → I (env.ModifyVpcAttribute i st).2) (s : Service σ) :
    ∃ t, Run I (fun c => c.isTag = true ∨ c.isAttribute = true) s t ∧
      (reconcileManagedVPC env vpc s).2.EC2 = t.EC2 ∧
      (reconcileManagedVPC env vpc s).2.calls = t.calls ∧
      ((reconcileManagedVPC env vpc s).1 = none → (reconcileManagedVPC env vpc s).2.VPC = vpc) := by
  unfold reconcileManagedVPC
  split
  · rename_i err s1 heq
    have hs := (congrArg Prod.snd heq).symm
    subst hs
    refine ⟨_, Run.trans (Run.retry _ _ _ (tagsEnsure_run env I _ hT (fun _ _ => Or.inl rfl) vpc)
      _ _ _ _) (Run.record _ _ _ _), rfl, rfl, ?_⟩
    intro h
    simp [Wrap] at h
  · rename_i s1 heq
    have hs := (congrArg Prod.snd heq).symm
    subst hs
    have h1 := Run.retry I (fun c => c.isTag = true ∨ c.isAttribute = true) _
      (tagsEnsure_run env I _ hT (fun _ _ => Or.inl rfl) vpc) [VPCNotFound] env.backoffSteps none s
    split
    · rename_i err s2 heq2
      have hs2 := (congrArg Prod.snd heq2).symm
      subst hs2
      refine ⟨_, Run.trans h1 (Run.retry _ _ _
        (fun s => Run.mono (ensureManagedVPCAttributes_run env I vpc hD hM s) (fun _ h => Or.inr h))
        _ _ _ _), rfl, rfl, ?_⟩
      intro h
      simp [Wrap] at h
    · rename_i s2 heq2
      have hs2 := (congrArg Prod.snd heq2).symm
      subst hs2
      exact ⟨_, Run.trans h1 (Run.retry _ _ _
        (fun s => Run.mono (ensureManagedVPCAttributes_run env I vpc hD hM s) (fun _ h => Or.inr h))
        _ _ _ _), rfl, rfl, fun _ => rfl⟩

/-- What a successful `describeVPC` tells about the response. -/
theorem describeVPC_found (env : Env σ) (s : Service σ) (vpc : VPCSpec)
    (h : (describeVPC env s).1 = (some vpc, none)) :
    ∃ out vpc0, (env.DescribeVpcs (describeVPCInput s) s.EC2).1 = Except.ok out ∧
      out.Vpcs = [vpc0] ∧ live vpc0 ∧ vpc.ID = vpc0.VpcId ∧
      vpc.EnableIPv6 = s.VPC.EnableIPv6 ∧
      (s.VPC.EnableIPv6 = true → findAssociated vpc0.Ipv6CidrBlockAssociationSet ≠ none) := by
  unfold describeVPC at h
  simp only [Service.issue] at h
  split at h
  · split at h <;> simp [Wrap] at h
  · rename_i out s1 heq
    simp only [Prod.mk.injEq] at heq
    obtain ⟨hresp, rfl⟩ := heq
    split at h
    · simp at h
    · simp at h
    · rename_i vpc0 hv
      refine ⟨out, vpc0, hresp, hv, ?_⟩
      split at h
      · rename_i hlive
        refine ⟨hlive, ?_⟩
        split at h
        · rename_i hip
          split at h
          · simp at h
          · split at h
            · rename_i block hfind
              simp only [Prod.mk.injEq, Option.some.injEq, and_true] at h
              subst h
              simp only at hip
              exact ⟨rfl, rfl, fun _ => by rw [hfind]; simp⟩
            · simp at h
        · rename_i hip
          simp only [Prod.mk.injEq, Option.some.injEq, and_true] at h
          subst h
          simp only at hip
          exact ⟨rfl, rfl, fun hc => absurd hc hip⟩
      · simp at h

theorem defaulted_EC2 (s : Service σ) : (defaulted s).EC2 = s.EC2 := by
  unfold defaulted
  split <;> rfl

theorem createVPC_success (env : Env σ) (vpcs : σ → List Vpc) (hlaw : Lawful env vpcs)
    (s : Service σ) (vpc : VPCSpec) (h : (createVPC env s).1 = (some vpc, none)) :
    vpc.ID ≠ "" ∧ vpc.EnableIPv6 = s.VPC.EnableIPv6 ∧
    Holds vpcs vpc.ID vpc.EnableIPv6 (createVPC env s).2.EC2 := by
  generalize hr : createVPC env s = r at h ⊢
  unfold createVPC at hr
  split at hr
  · subst hr
    simp at h
  · simp only [] at hr
    split at hr
    · subst hr
      simp [Wrap] at h
    · rename_i out s1 heq
      have hid : out.Vpc.VpcId ≠ "" := hlaw.create_id _ _ out (congrArg Prod.fst heq)
      have hs1 : s1.VPC.EnableIPv6 = s.VPC.EnableIPv6 := by
        have := (congrArg Prod.snd heq).symm
        subst this
        exact defaulted_EnableIPv6 s
      generalize hflt : (if (Service.VPC _).EnableIPv6 = true then [filterIPv6BlockAssociatedVPC]
        else ([] : List Filter)) = flt at hr
      split at hr
      · subst hr
        simp [Wrap] at h
      · rename_i s2 heq2
        have hwait := hlaw.wait_available out.Vpc.VpcId flt _ (congrArg Prod.fst heq2)
        have hs2 : s2 = _ := (congrArg Prod.snd heq2).symm
        have hdec : decide (filterIPv6BlockAssociatedVPC ∈ flt) = s.VPC.EnableIPv6 := by
          rw [← hflt, ← hs1]
          simp only [Service.record]
          by_cases hb : s1.VPC.EnableIPv6 = true <;> simp [hb]
        rw [hdec] at hwait
        have hwait2 : Holds vpcs out.Vpc.VpcId s.VPC.EnableIPv6 s2.EC2 := by
          rw [hs2]
          exact hwait
        have hv2 : s2.VPC.EnableIPv6 = s.VPC.EnableIPv6 := by
          rw [hs2]
          exact hs1
        split at hr
        · subst hr
          simp at h
        · rename_i s3 heq3
          have hrun := Run.retry (Holds vpcs out.Vpc.VpcId s.VPC.EnableIPv6) (fun _ => True) _
            (tagsApply_run env _ _ (hlaw.keep_tagsApply _ _) (fun _ => trivial)
              (getVPCTagParams s2 out.Vpc.VpcId)) [VPCNotFound] env.backoffSteps none s2
          rw [heq3] at hrun
          obtain ⟨_, _, hv3, hI3, _⟩ := hrun
          have hH3 := hI3 hwait2
          have hv3e : s3.VPC.EnableIPv6 = s.VPC.EnableIPv6 := by
            rw [hv3]
            exact hv2
          simp only [Service.record, hv3e] at hr
          split at hr
          · split at hr
            · subst hr
              simp at h
            · split at hr
              · subst hr
                simp only [Prod.mk.injEq, Option.some.injEq, and_true] at h
                subst h
                exact ⟨hid, rfl, hH3⟩
              · subst hr
                simp [Wrap] at h
          · subst hr
            simp only [Prod.mk.injEq, Option.some.injEq, and_true] at h
            subst h
            exact ⟨hid, rfl, hH3⟩

theorem describeVPCInput_lookup (s : Service σ) (hid : s.VPC.ID ≠ "") :
    describeVPCInput s = lookupRequest s.VPC.ID s.VPC.EnableIPv6 := by
  unfold describeVPCInput lookupRequest
  by_cases hb : s.VPC.EnableIPv6 = true <;> simp [hid, hb]

/-- A lookup that the provider must answer does not end in `NotFound`. -/
theorem describeVPC_finds (env : Env σ) (vpcs : σ → List Vpc) (hlaw : Lawful env vpcs)
    (s : Service σ) (hid : s.VPC.ID ≠ "")
    (hH : Holds vpcs s.VPC.ID s.VPC.EnableIPv6 s.EC2) :
    IsNotFound (describeVPC env s).1.2 = false := by
  obtain ⟨out, hresp, hne, hlive⟩ := hlaw.describe_complete _ _ _ hH
  rw [← describeVPCInput_lookup s hid] at hresp
  obtain ⟨vpcs0⟩ := out
  unfold describeVPC
  simp only [Service.issue, hresp]
  match vpcs0, hne, hlive with
  | [v], _, hl =>
    have hv : live v := hl v (List.mem_singleton.mpr rfl)
    unfold live at hv
    simp only [hv, if_true]
    split
    · split
      · rfl
      · split <;> rfl
    · rfl
  | _ :: _ :: _, _, _ => rfl

theorem reconcileVPC_unfold (env : Env σ) (s : Service σ) :
    reconcileVPC env s =
      if IsNotFound (describeVPC env s).1.2 then
        match createVPC env (describeVPC env s).2 with
        | ((_, some err), s) => (Outcome.ret (Wrap (some err) "failed to create new vpc"), s)
        | ((vpc, none), s) => reconcileResolvedVPC env vpc s
      else
        match (describeVPC env s).1.2 with
        | some err => (Outcome.ret (Wrap (some err) "failed to describe VPCs"), (describeVPC env s).2)
        | none => reconcileResolvedVPC env (describeVPC env s).1.1 (describeVPC env s).2 := by
  rfl

/-- The run of `reconcileResolvedVPC`: tagging and attribute calls only; the
provider keeps what tagging and attribute calls keep; on success the scope
holds the resolved VPC. -/
theorem reconcileResolvedVPC_run (env : Env σ) (I : σ → Prop) (vpc : Option VPCSpec)
    (hT : ∀ c p st, I st → I (env.tagsEnsure c p st).2)
    (hD : ∀ i st, I st → I (env.DescribeVpcAttribute i st).2)
    (hM : ∀ i st, I st → I (env.ModifyVpcAttribute i st).2) (s : Service σ) :
    (I s.EC2 → I (reconcileResolvedVPC env vpc s).2.EC2) ∧
    (∃ l, (reconcileResolvedVPC env vpc s).2.calls = s.calls ++ l ∧
      ∀ c ∈ l, c.isTag = true ∨ c.isAttribute = true) ∧
    ((reconcileResolvedVPC env vpc s).1 = Outcome.ret none →
      ∃ v, vpc = some v ∧ (reconcileResolvedVPC env vpc s).2.VPC = v) := by
  unfold reconcileResolvedVPC
  split
  · exact ⟨id, ⟨[], by simp, by simp⟩, fun h => by simp at h⟩
  · rename_i v
    split
    · exact ⟨id, ⟨[], by simp, by simp⟩, fun _ => ⟨v, rfl, rfl⟩⟩
    · obtain ⟨t, ⟨_, _, _, hI, l, hl, hP⟩, hE, hC, hV⟩ := reconcileManagedVPC_run env I v hT hD hM s
      refine ⟨?_, ⟨l, ?_, hP⟩, ?_⟩
      · simp only
        rw [hE]
        exact hI
      · simp only
        rw [hC, hl]
      · intro h
        simp only [Outcome.ret.injEq] at h
        exact ⟨v, rfl, hV h⟩

theorem tag_or_attribute (c : Call) (h : c.isTag = true ∨ c.isAttribute = true) :
    c.isCreateVpc = false ∧ c.isDeleteVpc = false := by
  cases c <;> simp [Call.isTag, Call.isAttribute] at h <;> exact ⟨rfl, rfl⟩

theorem createVPC_calls (env : Env σ) (s : Service σ) :
    ∃ l, (createVPC env s).2.calls = s.calls ++ l ∧ ∀ c ∈ l, c.isDeleteVpc = false := by
  by_cases h : env.IsUnmanaged s.VPC s.Name = true
  · refine ⟨[], ?_, by simp⟩
    simp [createVPC, h]
  · have h2 : env.IsUnmanaged s.VPC s.Name = false := by simpa using h
    obtain ⟨_, _, _, _, l, hl, hP⟩ := createVPC_after_create env (fun _ => True)
      (fun c => c.isDeleteVpc = false) s h2 (fun _ _ _ => trivial) (fun _ _ _ => trivial)
      (fun _ => rfl) (fun _ => rfl)
    refine ⟨Call.CreateVpc ⟨(defaulted s).VPC.CidrBlock, (defaulted s).VPC.EnableIPv6⟩ :: l,
      ?_, ?_⟩
    · rw [hl]
      simp only [Service.issue, defaulted_calls, List.append_assoc, List.singleton_append]
    · intro c hc
      rcases List.mem_cons.mp hc with rfl | hc
      · rfl
      · exact hP c hc

/-- A run of `reconcileVPC` never issues `DeleteVpc`, and issues `CreateVpc`
only when `describeVPC` reports `NotFound`. -/
theorem reconcileVPC_calls (env : Env σ) (s : Service σ) :
    ∀ c ∈ issued s (reconcileVPC env s).2,
      c.isDeleteVpc = false ∧
      (IsNotFound (describeVPC env s).1.2 = false → c.isCreateVpc = false) := by
  have hst := describeVPC_state env s
  have key : ∃ l, (reconcileVPC env s).2.calls = (describeVPC env s).2.calls ++ l ∧
      ∀ c ∈ l, c.isDeleteVpc = false ∧
        (IsNotFound (describeVPC env s).1.2 = false → c.isCreateVpc = false) := by
    rw [reconcileVPC_unfold]
    split
    · rename_i hnf
      obtain ⟨l1, hl1, hP1⟩ := createVPC_calls env (describeVPC env s).2
      split
      · rename_i v err s2 heq
        have hs2 : s2 = _ := (congrArg Prod.snd heq).symm
        subst hs2
        exact ⟨l1, hl1, fun c hc => ⟨hP1 c hc, fun h => by simp [hnf] at h⟩⟩
      · rename_i v s2 heq
        have hs2 : s2 = _ := (congrArg Prod.snd heq).symm
        subst hs2
        obtain ⟨_, ⟨l2, hl2, hP2⟩, _⟩ := reconcileResolvedVPC_run env (fun _ => True) v
          (fun _ _ _ _ => trivial) (fun _ _ _ => trivial) (fun _ _ _ => trivial)
          (createVPC env (describeVPC env s).2).2
        refine ⟨l1 ++ l2, by rw [hl2, hl1, List.append_assoc], ?_⟩
        intro c hc
        rcases List.mem_append.mp hc with h1 | h2
        · exact ⟨hP1 c h1, fun h => by simp [hnf] at h⟩
        · exact ⟨(tag_or_attribute c (hP2 c h2)).2, fun _ => (tag_or_attribute c (hP2 c h2)).1⟩
    · split
      · exact ⟨[], by simp, by simp⟩
      · obtain ⟨_, ⟨l2, hl2, hP2⟩, _⟩ := reconcileResolvedVPC_run env (fun _ => True)
          (describeVPC env s).1.1
          (fun _ _ _ _ => trivial) (fun _ _ _ => trivial) (fun _ _ _ => trivial)
          (describeVPC env s).2
        refine ⟨l2, hl2, ?_⟩
        intro c hc
        exact ⟨(tag_or_attribute c (hP2 c hc)).2, fun _ => (tag_or_attribute c (hP2 c hc)).1⟩
  obtain ⟨l, hl, hP⟩ := key
  intro c hc
  have hiss : issued s (reconcileVPC env s).2 = Call.DescribeVpcs (describeVPCInput s) :: l := by
    apply issued_append
    rw [hl, hst]
    simp
  rw [hiss] at hc
  rcases List.mem_cons.mp hc with rfl | hc
  · exact ⟨rfl, fun _ => rfl⟩
  · exact hP c hc

/-- After a successful run the scope names, by a non-empty ID, a VPC that the
provider has: pending or available, with an associated IPv6 block when IPv6
is enabled. -/
theorem reconcileVPC_resolves (env : Env σ) (vpcs : σ → List Vpc) (hlaw : Lawful env vpcs)
    (s : Service σ) (hok : (reconcileVPC env s).1 = Outcome.ret none) :
    (reconcileVPC env s).2.VPC.ID ≠ "" ∧
    Holds vpcs (reconcileVPC env s).2.VPC.ID (reconcileVPC env s).2.VPC.EnableIPv6
      (reconcileVPC env s).2.EC2 := by
  rw [reconcileVPC_unfold] at hok ⊢
  split at hok
  · rename_i hnf
    simp only [hnf, if_true]
    split at hok
    · simp [Wrap] at hok
    · rename_i v s2 heq
      have hs2 : s2 = _ := (congrArg Prod.snd heq).symm
      have h1 : (createVPC env (describeVPC env s).2).1 = (v, none) := congrArg Prod.fst heq
      obtain ⟨_, _, hV⟩ := reconcileResolvedVPC_run env (fun _ => True) v
        (fun _ _ _ _ => trivial) (fun _ _ _ => trivial) (fun _ _ _ => trivial) s2
      obtain ⟨v1, rfl, hv1⟩ := hV hok
      obtain ⟨hid, _, hH⟩ := createVPC_success env vpcs hlaw _ v1 h1
      rw [← hs2] at hH
      obtain ⟨hI, _, _⟩ := reconcileResolvedVPC_run env (Holds vpcs v1.ID v1.EnableIPv6) (some v1)
        (hlaw.keep_tagsEnsure _ _) (hlaw.keep_describeAttribute _ _)
        (hlaw.keep_modifyAttribute _ _) s2
      rw [hv1]
      exact ⟨hid, hI hH⟩
  · rename_i hnf
    simp only [hnf, Bool.false_eq_true, if_false]
    split at hok
    · simp [Wrap] at hok
    · rename_i herr
      obtain ⟨_, _, hV⟩ := reconcileResolvedVPC_run env (fun _ => True) (describeVPC env s).1.1
        (fun _ _ _ _ => trivial) (fun _ _ _ => trivial) (fun _ _ _ => trivial)
        (describeVPC env s).2
      obtain ⟨v1, hv, hv1⟩ := hV hok
      have hd : (describeVPC env s).1 = (some v1, none) := by
        rw [← hv, ← herr]
      obtain ⟨out, vpc0, hresp, hvs, hlive, hid, hip, hassoc⟩ := describeVPC_found env s v1 hd
      obtain ⟨hmem, hne⟩ := hlaw.describe_sound _ _ out hresp vpc0 (by rw [hvs]; simp)
      have hH : Holds vpcs v1.ID v1.EnableIPv6 (describeVPC env s).2.EC2 := by
        rw [describeVPC_state]
        exact ⟨vpc0, hmem, hid.symm, hlive, fun h => hassoc (by rw [← hip]; exact h)⟩
      obtain ⟨hI, _, _⟩ := reconcileResolvedVPC_run env (Holds vpcs v1.ID v1.EnableIPv6)
        (describeVPC env s).1.1
        (hlaw.keep_tagsEnsure _ _) (hlaw.keep_describeAttribute _ _)
        (hlaw.keep_modifyAttribute _ _) (describeVPC env s).2
      rw [hv1]
      exact ⟨by rw [hid]; exact hne, hI hH⟩

/-! ## The small provider is lawful -/

theorem oneVpc_holds (id : String) (ipv6 : Bool) (st : Option OneVpc) :
    Holds oneVpcInventory id ipv6 st ↔ (id = "vpc-1" ∧ ipv6 = false ∧ st.isSome = true) := by
  cases st with
  | none => simp [Holds, oneVpcInventory]
  | some v =>
    cases ipv6 <;>
      simp [Holds, oneVpcInventory, live, VpcStateAvailable, VpcStatePending, findAssociated,
        eq_comm]

theorem oneVpcTag_isSome (params : BuildParams) (st : Option OneVpc) :
    (oneVpcTag params st).2.isSome = st.isSome := by
  unfold oneVpcTag
  cases st with
  | none => rfl
  | some v =>
    simp only
    split <;> rfl

theorem oneVpcProvider_lawful : Lawful oneVpcProvider oneVpcInventory where
  describe_sound := by
    intro input st out h v hv
    simp only [oneVpcProvider, Except.ok.injEq] at h
    subst h
    simp only [List.mem_filter] at hv
    refine ⟨hv.1, ?_⟩
    cases st with
    | none => simp [oneVpcInventory] at hv
    | some w =>
      simp only [oneVpcInventory, List.mem_singleton] at hv
      rw [hv.1]
      simp
  describe_complete := by
    intro id ipv6 st h
    obtain ⟨rfl, rfl, hs⟩ := (oneVpc_holds _ _ _).mp h
    cases st with
    | none => simp at hs
    | some w =>
      refine ⟨_, rfl, ?_, ?_⟩
      · simp [oneVpcInventory, matchesRequest, matchesFilter, lookupRequest, VPCStates,
          VpcStatePending, VpcStateAvailable]
      · intro v hv
        simp only [List.mem_filter, oneVpcInventory, List.mem_singleton] at hv
        rw [hv.1]
        exact Or.inl rfl
  create_id := by
    intro input st out h
    cases st with
    | some w => simp [oneVpcProvider] at h
    | none =>
      simp only [oneVpcProvider] at h
      split at h
      · simp at h
      · simp only [Except.ok.injEq] at h
        subst h
        simp
  wait_available := by
    intro id filters st h
    have hst : (oneVpcProvider.WaitUntilVpcAvailable { Filters := filters, VpcIds := [id] } st).2
        = st := by
      simp only [oneVpcProvider]
      split <;> rfl
    rw [hst, oneVpc_holds]
    cases st with
    | none => simp [oneVpcProvider, oneVpcInventory] at h
    | some w =>
      simp only [oneVpcProvider, oneVpcInventory] at h
      split at h
      · simp at h
      · rename_i hne
        simp only [List.filter_cons, List.filter_nil] at hne
        split at hne
        · rename_i hm
          simp only [matchesRequest, List.isEmpty_cons, Bool.false_or, Bool.and_eq_true,
            List.all_eq_true] at hm
          refine ⟨?_, ?_, rfl⟩
          · simpa [eq_comm] using hm.1
          · simp only [decide_eq_false_iff_not]
            intro hf
            have := hm.2 _ hf
            simp [matchesFilter, filterIPv6BlockAssociatedVPC] at this
        · simp at hne
  keep_describe := by
    intro id ipv6 input st h
    exact h
  keep_tagsApply := by
    intro id ipv6 params st h
    rw [oneVpc_holds] at h ⊢
    exact ⟨h.1, h.2.1, by rw [← h.2.2]; exact oneVpcTag_isSome params st⟩
  keep_tagsEnsure := by
    intro id ipv6 current params st h
    rw [oneVpc_holds] at h ⊢
    exact ⟨h.1, h.2.1, by rw [← h.2.2]; exact oneVpcTag_isSome params st⟩
  keep_describeAttribute := by
    intro id ipv6 input st h
    exact h
  keep_modifyAttribute := by
    intro id ipv6 input st h
    exact h

/-! ## Facts about `ensureManagedVPCAttributes` -/

theorem ensureDnsHostnames_eq (env : Env σ) (vpc : VPCSpec) (s : Service σ) :
    (ensureDnsHostnames env vpc s).errs = (hostnamesFailure env vpc s.EC2).toList ∧
    (ensureDnsHostnames env vpc s).s.calls = s.calls ++
      attributeCalls env (describeHostnames vpc) (modifyHostnames vpc)
        (fun out => out.EnableDnsHostnames) s.EC2 ∧
    (ensureDnsHostnames env vpc s).s.EC2 = afterHostnames env vpc s.EC2 := by
  unfold ensureDnsHostnames hostnamesFailure afterHostnames attributeFailure attributeCalls
    afterAttribute reportedFalse describeHostnames modifyHostnames
  simp only [Service.issue]
  cases h1 : (env.DescribeVpcAttribute { VpcId := vpc.ID, Attribute := "enableDnsHostnames" }
      s.EC2).1 with
  | error e => simp
  | ok out =>
    by_cases hb : (!BoolValue out.EnableDnsHostnames) = true
    · simp only [hb, if_true]
      cases h2 : (env.ModifyVpcAttribute
        { VpcId := vpc.ID, EnableDnsHostnames := some true, EnableDnsSupport := none }
        (env.DescribeVpcAttribute { VpcId := vpc.ID, Attribute := "enableDnsHostnames" }
          s.EC2).2).1 <;> simp
    · simp [hb]

theorem ensureDnsSupport_eq (env : Env σ) (vpc : VPCSpec) (l : AttrLocals σ) :
    (ensureDnsSupport env vpc l).errs = l.errs ++ (supportFailure env vpc l.s.EC2).toList ∧
    (ensureDnsSupport env vpc l).s.calls = l.s.calls ++
      attributeCalls env (describeSupport vpc) (modifySupport vpc)
        (fun out => out.EnableDnsSupport) l.s.EC2 := by
  unfold ensureDnsSupport supportFailure attributeFailure attributeCalls
    reportedFalse describeSupport modifySupport
  simp only [Service.issue]
  cases h1 : (env.DescribeVpcAttribute { VpcId := vpc.ID, Attribute := "enableDnsSupport" }
      l.s.EC2).1 with
  | error e => simp
  | ok out =>
    by_cases hb : (!BoolValue out.EnableDnsSupport) = true
    · simp only [hb, if_true]
      cases h2 : (env.ModifyVpcAttribute
        { VpcId := vpc.ID, EnableDnsHostnames := none, EnableDnsSupport := some true }
        (env.DescribeVpcAttribute { VpcId := vpc.ID, Attribute := "enableDnsSupport" }
          l.s.EC2).2).1 <;> simp
    · simp [hb]

theorem NewAggregate_eq_none (errs : List Error) : NewAggregate errs = none ↔ errs = [] := by
  cases errs <;> simp [NewAggregate]

/-- The result and the calls of `ensureManagedVPCAttributes`, attribute by
attribute. -/
theorem ensureManagedVPCAttributes_eq (env : Env σ) (vpc : VPCSpec) (s : Service σ) :
    (ensureManagedVPCAttributes env vpc s).1 =
      NewAggregate ((hostnamesFailure env vpc s.EC2).toList ++
        (supportFailure env vpc (afterHostnames env vpc s.EC2)).toList) ∧
    (ensureManagedVPCAttributes env vpc s).2.calls = s.calls ++
      (attributeCalls env (describeHostnames vpc) (modifyHostnames vpc)
          (fun out => out.EnableDnsHostnames) s.EC2 ++
        attributeCalls env (describeSupport vpc) (modifySupport vpc)
          (fun out => out.EnableDnsSupport) (afterHostnames env vpc s.EC2)) := by
  obtain ⟨he1, hc1, hs1⟩ := ensureDnsHostnames_eq env vpc s
  obtain ⟨he2, hc2⟩ := ensureDnsSupport_eq env vpc (ensureDnsHostnames env vpc s)
  rw [he1, hs1] at he2
  rw [hc1, hs1] at hc2
  unfold ensureManagedVPCAttributes
  simp only []
  rw [he2]
  split
  · exact ⟨rfl, by simp only [Service.record]; rw [hc2, List.append_assoc]⟩
  · rename_i hlen
    have hnil : (hostnamesFailure env vpc s.EC2).toList ++
        (supportFailure env vpc (afterHostnames env vpc s.EC2)).toList = [] := by
      simpa using hlen
    rw [hnil]
    split
    · exact ⟨rfl, by simp only [Service.record]; rw [hc2, List.append_assoc]⟩
    · exact ⟨rfl, by rw [hc2, List.append_assoc]⟩

theorem attributeFailure_eq_none (env : Env σ) (d : DescribeVpcAttributeInput)
    (m : ModifyVpcAttributeInput) (value : DescribeVpcAttributeOutput → Option Bool)
    (dm mm : String) (st : σ) :
    attributeFailure env d m value dm mm st = none ↔
      ((∃ out, (env.DescribeVpcAttribute d st).1 = Except.ok out) ∧
       (reportedFalse (env.DescribeVpcAttribute d st).1 value = true →
          (env.ModifyVpcAttribute m (env.DescribeVpcAttribute d st).2).1 = none)) := by
  unfold attributeFailure reportedFalse
  cases h1 : (env.DescribeVpcAttribute d st).1 with
  | error e => simp
  | ok out =>
    by_cases hb : (!BoolValue (value out)) = true
    · cases h2 : (env.ModifyVpcAttribute m (env.DescribeVpcAttribute d st).2).1 <;> simp [hb]
    · simp [hb]

/-! ## Facts about failed runs and about the order of calls -/

theorem defaulted_VPC (s : Service σ) :
    (defaulted s).VPC =
      if s.VPC.CidrBlock = "" then { s.VPC with CidrBlock := defaultVPCCidr } else s.VPC := by
  unfold defaulted
  split <;> rfl

theorem createVPC_scope (env : Env σ) (s : Service σ) :
    (createVPC env s).2.VPC =
      if env.IsUnmanaged s.VPC s.Name then s.VPC else (defaulted s).VPC := by
  by_cases h : env.IsUnmanaged s.VPC s.Name = true
  · simp [createVPC, h]
  · have h2 : env.IsUnmanaged s.VPC s.Name = false := by simpa using h
    obtain ⟨_, _, hv, _⟩ := createVPC_after_create env (fun _ => True) (fun _ => True) s h2
      (fun _ _ _ => trivial) (fun _ _ _ => trivial) (fun _ => trivial) (fun _ => trivial)
    rw [hv]
    simp [h2, Service.issue]

/-- A run of `reconcileManagedVPC` that fails leaves the VPC spec of the scope
as it was. -/
theorem reconcileManagedVPC_failed (env : Env σ) (vpc : VPCSpec) (s : Service σ) (e : Error)
    (h : (reconcileManagedVPC env vpc s).1 = some e) :
    (reconcileManagedVPC env vpc s).2.VPC = s.VPC := by
  unfold reconcileManagedVPC at h ⊢
  split
  · rename_i err s1 heq
    have hs := (congrArg Prod.snd heq).symm
    subst hs
    exact (Run.trans (Run.retry (fun _ => True) (fun _ => True) _
      (tagsEnsure_run env _ _ (fun _ _ _ _ => trivial) (fun _ _ => trivial) vpc)
      _ _ _ _) (Run.record _ _ _ _)).2.2.1
  · rename_i s1 heq
    rw [heq] at h
    simp only at h
    have hs := (congrArg Prod.snd heq).symm
    subst hs
    have h1 := Run.retry (fun _ => True) (fun _ => True) _
      (tagsEnsure_run env _ _ (fun _ _ _ _ => trivial) (fun _ _ => trivial) vpc)
      [VPCNotFound] env.backoffSteps none s
    split
    · rename_i err s2 heq2
      have hs2 := (congrArg Prod.snd heq2).symm
      subst hs2
      exact (Run.trans h1 (Run.retry _ _ _
        (fun s => Run.mono (ensureManagedVPCAttributes_run env (fun _ => True) vpc
          (fun _ _ _ => trivial) (fun _ _ _ => trivial) s) (fun _ _ => trivial))
        _ _ _ _)).2.2.1
    · rename_i s2 heq2
      rw [heq2] at h
      simp at h

theorem reconcileResolvedVPC_failed (env : Env σ) (vpc : Option VPCSpec) (s : Service σ)
    (e : Error) (h : (reconcileResolvedVPC env vpc s).1 = Outcome.ret (some e)) :
    (reconcileResolvedVPC env vpc s).2.VPC = s.VPC := by
  unfold reconcileResolvedVPC at h ⊢
  split
  · rfl
  · rename_i v
    split
    · rename_i hun
      simp [hun] at h
    · rename_i hun
      simp only [hun, Bool.false_eq_true, if_false, Outcome.ret.injEq] at h
      exact reconcileManagedVPC_failed env v s e h

/-- The VPC spec of the scope after a run of `reconcileVPC` that returns an
error: the spec before the run, with the CIDR block defaulted when the run
went into `createVPC` on a managed scope. -/
theorem reconcileVPC_failed (env : Env σ) (s : Service σ) (e : Error)
    (h : (reconcileVPC env s).1 = Outcome.ret (some e)) :
    (reconcileVPC env s).2.VPC =
      if IsNotFound (describeVPC env s).1.2 = true ∧ env.IsUnmanaged s.VPC s.Name = false
      then (defaulted s).VPC else s.VPC := by
  have hst := describeVPC_state env s
  have hdv : (describeVPC env s).2.VPC = s.VPC := by rw [hst]
  have hdn : (describeVPC env s).2.Name = s.Name := by rw [hst]
  have hcs := createVPC_scope env (describeVPC env s).2
  rw [reconcileVPC_unfold] at h ⊢
  split
  · rename_i hnf
    simp only [hnf, true_and]
    split
    · rename_i v err s2 heq
      have hs2 : s2 = _ := (congrArg Prod.snd heq).symm
      subst hs2
      simp only
      rw [hcs, hdv, hdn]
      by_cases hun : env.IsUnmanaged s.VPC s.Name = true
      · simp [hun]
      · have hun2 : env.IsUnmanaged s.VPC s.Name = false := by simpa using hun
        simp only [hun2, Bool.false_eq_true, if_false, if_true]
        rw [defaulted_VPC, defaulted_VPC, hdv]
    · rename_i v s2 heq
      rw [hnf] at h
      simp only [if_true] at h
      rw [heq] at h
      simp only at h
      have hs2 : s2 = _ := (congrArg Prod.snd heq).symm
      have h1 : (createVPC env (describeVPC env s).2).1 = (v, none) := congrArg Prod.fst heq
      rw [reconcileResolvedVPC_failed env v s2 e h, hs2, hcs, hdv, hdn]
      by_cases hun : env.IsUnmanaged s.VPC s.Name = true
      · simp [hun]
      · have hun2 : env.IsUnmanaged s.VPC s.Name = false := by simpa using hun
        simp only [hun2, Bool.false_eq_true, if_false, if_true]
        rw [defaulted_VPC, defaulted_VPC, hdv]
  · rename_i hnf
    simp only [hnf, false_and, if_false]
    split
    · exact hdv
    · rename_i herr
      simp only [hnf, Bool.false_eq_true, if_false, herr] at h
      rw [reconcileResolvedVPC_failed env _ _ e h]
      exact hdv

/-- Under the retry helper, an operation that is one call `c` leaves a run of
at most `steps` copies of `c`, and at least one when `steps` is positive. -/
theorem retry_issue_calls (c : Call) (f : σ → Option Error × σ) (retryable : List String)
    (steps : Nat) :
    ∀ (e : Option Error) (s : Service σ), ∃ k,
      (WaitForWithRetryable steps (condition (fun s : Service σ => s.issue c f)) retryable e s).2.calls
        = s.calls ++ List.replicate k c ∧ k ≤ steps ∧ (0 < steps → 0 < k) := by
  induction steps with
  | zero =>
    intro e s
    refine ⟨0, ?_, Nat.le_refl 0, fun h => absurd h (Nat.lt_irrefl 0)⟩
    unfold WaitForWithRetryable
    split <;> simp
  | succ n ih =>
    intro e s
    unfold WaitForWithRetryable
    have hcond : (condition (fun s : Service σ => s.issue c f) s).2.calls = s.calls ++ [c] := by
      unfold Ec2Vpc.condition
      split <;> rename_i heq <;>
        · have := congrArg (fun p => p.2.calls) heq
          simp only [Service.issue] at this
          exact this.symm
    split
    · rename_i s1 heq
      rw [heq] at hcond
      exact ⟨1, by simpa using hcond, by omega, fun _ => Nat.one_pos⟩
    · rename_i s1 heq
      rw [heq] at hcond
      obtain ⟨k, hk, hle, _⟩ := ih none s1
      refine ⟨k + 1, ?_, by omega, fun _ => Nat.succ_pos k⟩
      rw [hk, hcond, List.append_assoc, List.replicate_succ]
      rfl
    · rename_i err s1 heq
      rw [heq] at hcond
      split
      · exact ⟨1, by simpa using hcond, by omega, fun _ => Nat.one_pos⟩
      · split
        · obtain ⟨k, hk, hle, _⟩ := ih (some err) s1
          refine ⟨k + 1, ?_, by omega, fun _ => Nat.succ_pos k⟩
          rw [hk, hcond, List.append_assoc, List.replicate_succ]
          rfl
        · exact ⟨1, by simpa using hcond, by omega, fun _ => Nat.one_pos⟩

theorem defaulted_Name (s : Service σ) : (defaulted s).Name = s.Name := by
  unfold defaulted
  split <;> rfl

theorem defaulted_AdditionalTags (s : Service σ) :
    (defaulted s).AdditionalTags = s.AdditionalTags := by
  unfold defaulted
  split <;> rfl

theorem createVPC_create_failed (env : Env σ) (s : Service σ) (err : Error)
    (h : env.IsUnmanaged s.VPC s.Name = false)
    (hc : (env.CreateVpc (createRequest s) s.EC2).1 = Except.error err) :
    issued s (createVPC env s).2 = [Call.CreateVpc (createRequest s)] := by
  apply issued_append
  unfold createRequest at hc ⊢
  rw [← defaulted_EC2 s] at hc
  unfold createVPC
  simp only [h, Bool.false_eq_true, if_false, Service.issue, hc, Service.record, defaulted_calls]

theorem createVPC_wait_failed (env : Env σ) (s : Service σ) (out : CreateVpcOutput)
    (werr : Error) (h : env.IsUnmanaged s.VPC s.Name = false)
    (hc : (env.CreateVpc (createRequest s) s.EC2).1 = Except.ok out)
    (hw : (env.WaitUntilVpcAvailable (waitRequest s out.Vpc.VpcId)
      (env.CreateVpc (createRequest s) s.EC2).2).1 = some werr) :
    issued s (createVPC env s).2 =
      [Call.CreateVpc (createRequest s),
       Call.WaitUntilVpcAvailable (waitRequest s out.Vpc.VpcId)] ∧
    (createVPC env s).1 =
      (none, some (Error.wrap werr ("failed to wait for vpc \"" ++ out.Vpc.VpcId ++ "\""))) := by
  simp only [createRequest, waitRequest] at hc hw ⊢
  rw [← defaulted_EC2 s] at hc hw
  rw [← defaulted_EnableIPv6 s] at hw ⊢
  constructor
  · apply issued_append
    unfold createVPC
    simp only [h, Bool.false_eq_true, if_false, Service.issue, hc, Service.record, hw,
      defaulted_calls, List.append_assoc, List.singleton_append]
  · unfold createVPC
    simp only [h, Bool.false_eq_true, if_false, Service.issue, hc, Service.record, hw, Wrap]

theorem getVPCTagParams_congr (s t : Service σ) (id : String) (hn : t.Name = s.Name)
    (ht : t.AdditionalTags = s.AdditionalTags) : getVPCTagParams t id = getVPCTagParams s id := by
  simp [getVPCTagParams, hn, ht]

theorem createVPC_waited (env : Env σ) (s : Service σ) (out : CreateVpcOutput)
    (h : env.IsUnmanaged s.VPC s.Name = false)
    (hc : (env.CreateVpc (createRequest s) s.EC2).1 = Except.ok out)
    (hw : (env.WaitUntilVpcAvailable (waitRequest s out.Vpc.VpcId)
      (env.CreateVpc (createRequest s) s.EC2).2).1 = none) :
    ∃ k, issued s (createVPC env s).2 =
        Call.CreateVpc (createRequest s) ::
          Call.WaitUntilVpcAvailable (waitRequest s out.Vpc.VpcId) ::
          List.replicate k (Call.tagsApply (getVPCTagParams s out.Vpc.VpcId)) ∧
      k ≤ env.backoffSteps ∧ (0 < env.backoffSteps → 0 < k) := by
  simp only [createRequest, waitRequest] at hc hw ⊢
  rw [← defaulted_EC2 s] at hc hw
  rw [← defaulted_EnableIPv6 s] at hw ⊢
  generalize hr : createVPC env s = r
  unfold createVPC at hr
  simp only [h, Bool.false_eq_true, if_false] at hr
  split at hr
  · rename_i err s1 heq
    have := congrArg Prod.fst heq
    simp only [Service.issue] at this
    rw [hc] at this
    cases this
  · rename_i out1 s1 heq
    have h1 := congrArg Prod.fst heq
    simp only [Service.issue] at h1
    rw [hc] at h1
    cases h1
    have hs1 : s1 = _ := (congrArg Prod.snd heq).symm
    subst hs1
    split at hr
    · rename_i werr s2 heq2
      have := congrArg Prod.fst heq2
      simp only [Service.issue, Service.record] at this
      rw [hw] at this
      cases this
    · rename_i s2 heq2
      have hs2 : s2 = _ := (congrArg Prod.snd heq2).symm
      have hp : getVPCTagParams s2 out.Vpc.VpcId = getVPCTagParams s out.Vpc.VpcId := by
        apply getVPCTagParams_congr
        · rw [hs2]
          exact defaulted_Name s
        · rw [hs2]
          exact defaulted_AdditionalTags s
      rw [hp] at hr
      obtain ⟨k, hk, hle, hpos⟩ := retry_issue_calls
        (Call.tagsApply (getVPCTagParams s out.Vpc.VpcId))
        (env.tagsApply (getVPCTagParams s out.Vpc.VpcId)) [VPCNotFound] env.backoffSteps none s2
      have hs2c : s2.calls = s.calls ++
          [Call.CreateVpc { CidrBlock := (defaulted s).VPC.CidrBlock,
                            AmazonProvidedIpv6CidrBlock := (defaulted s).VPC.EnableIPv6 },
           Call.WaitUntilVpcAvailable
             { Filters := if (defaulted s).VPC.EnableIPv6 = true then
                 [filterIPv6BlockAssociatedVPC] else [],
               VpcIds := [out.Vpc.VpcId] }] := by
        rw [hs2]
        simp [Service.issue, Service.record, defaulted_calls]
      refine ⟨k, ?_, hle, hpos⟩
      apply issued_append
      rw [hs2c] at hk
      split at hr
      · rename_i terr s3 heq3
        rw [heq3] at hk
        subst hr
        simpa [Service.record] using hk
      · rename_i s3 heq3
        rw [heq3] at hk
        have hfin : ∀ ev, (s3.record ev).calls = s.calls ++
              Call.CreateVpc { CidrBlock := (defaulted s).VPC.CidrBlock,
                               AmazonProvidedIpv6CidrBlock := (defaulted s).VPC.EnableIPv6 } ::
              Call.WaitUntilVpcAvailable
                { Filters := if (defaulted s).VPC.EnableIPv6 = true then
                    [filterIPv6BlockAssociatedVPC] else [],
                  VpcIds := [out.Vpc.VpcId] } ::
              List.replicate k (Call.tagsApply (getVPCTagParams s out.Vpc.VpcId)) := by
          intro ev
          simpa [Service.record] using hk
        split at hr
        · split at hr
          · subst hr
            exact hfin _
          · split at hr <;> subst hr <;> exact hfin _
        · subst hr
          exact hfin _

/-! ## Facts about the subnet pass -/

theorem ipv6Slice_bits (net : IPv6Net) (i : Nat) (hi : i < 256) :
    (ipv6Slice net i).len = 64 ∧ (ipv6Slice net i).addr / 2 ^ 72 = net.addr / 2 ^ 72 ∧
    (ipv6Slice net i).addr / 2 ^ 64 % 256 = i ∧ (ipv6Slice net i).addr % 2 ^ 64 = 0 := by
  have hm : i % 256 = i := Nat.mod_eq_of_lt hi
  unfold ipv6Slice
  rw [hm]
  refine ⟨rfl, ?_, ?_, ?_⟩
  · show (net.addr / 2 ^ 72 * 2 ^ 72 + i * 2 ^ 64) / 2 ^ 72 = net.addr / 2 ^ 72
    omega
  · show (net.addr / 2 ^ 72 * 2 ^ 72 + i * 2 ^ 64) / 2 ^ 64 % 256 = i
    omega
  · show (net.addr / 2 ^ 72 * 2 ^ 72 + i * 2 ^ 64) % 2 ^ 64 = 0
    omega

theorem modifyWhen_calls (env : SubnetEnv) (w : Bool) (input : ModifySubnetAttributeInput)
    (s : SubnetScope) :
    (modifyWhen env w input s).2.calls =
      s.calls ++ (if w then [SubnetCall.ModifySubnetAttribute input] else []) := by
  unfold modifyWhen
  cases w <;> simp [SubnetScope.log]

theorem createSubnet_first_call (env : SubnetEnv) (sn : SubnetSpec) (s : SubnetScope)
    (block : Option String) (hb : subnetIpv6Block s.VPC sn = Except.ok block) :
    ∃ rest, (createSubnet env sn s).2.calls =
      s.calls ++ SubnetCall.CreateSubnet
        { VpcId := s.VPC.ID, CidrBlock := sn.CidrBlock, AvailabilityZone := sn.AvailabilityZone,
          Ipv6CidrBlock := block } :: rest := by
  unfold createSubnet
  rw [hb]
  simp only
  split
  · exact ⟨[], by simp [SubnetScope.log]⟩
  · split
    · exact ⟨_, by simp [SubnetScope.log]; rfl⟩
    · split
      · exact ⟨_, by simp [SubnetScope.log]; rfl⟩
      · split
        · rename_i s4 heq
          have h4 := congrArg (fun r => r.2.calls) heq
          simp only [modifyWhen_calls] at h4
          exact ⟨_, by rw [← h4]; simp [SubnetScope.log]; rfl⟩
        · rename_i s4 heq
          have h4 := congrArg (fun r => r.2.calls) heq
          simp only [modifyWhen_calls] at h4
          exact ⟨_, by simp only [modifyWhen_calls]; rw [← h4]; simp [SubnetScope.log]; rfl⟩

theorem classify_eq_map (tables : List RouteTable) (l : List SubnetSpec) :
    classify tables l = l.map (fun sn => tables.foldl (fun a rt => classifyBy rt a) sn) := by
  unfold classify
  induction tables generalizing l with
  | nil => simp
  | cons rt ts ih =>
    simp only [List.foldl_cons]
    rw [ih]
    simp [List.map_map, Function.comp]

theorem classifyBy_ID (rt : RouteTable) (sn : SubnetSpec) : (classifyBy rt sn).ID = sn.ID := by
  unfold classifyBy
  split <;> rfl

theorem classified_ID (ts : List RouteTable) (sn : SubnetSpec) :
    (ts.foldl (fun a rt => classifyBy rt a) sn).ID = sn.ID := by
  induction ts generalizing sn with
  | nil => rfl
  | cons rt ts ih => simp only [List.foldl_cons]; rw [ih, classifyBy_ID]

theorem classified_IsPublic (ts : List RouteTable) (sn : SubnetSpec) :
    (ts.foldl (fun a rt => classifyBy rt a) sn).IsPublic =
      (sn.IsPublic || ts.any (fun rt => associatedWith rt sn.ID && hasInternetRoute rt)) := by
  induction ts generalizing sn with
  | nil => simp
  | cons rt ts ih =>
    simp only [List.foldl_cons, List.any_cons]
    rw [ih, classifyBy_ID]
    unfold classifyBy
    cases h : associatedWith rt sn.ID <;> simp [Bool.or_assoc]

theorem classified_none (ts : List RouteTable) (sn : SubnetSpec)
    (h0 : sn.RouteTableID = none) (h : ∀ rt ∈ ts, associatedWith rt sn.ID = false) :
    (ts.foldl (fun a rt => classifyBy rt a) sn).RouteTableID = none := by
  induction ts generalizing sn with
  | nil => exact h0
  | cons rt ts ih =>
    simp only [List.foldl_cons]
    have hrt : associatedWith rt sn.ID = false := h rt (List.mem_cons_self _ _)
    have hc : classifyBy rt sn = sn := by simp [classifyBy, hrt]
    rw [hc]
    exact ih sn h0 (fun r hr => h r (List.mem_cons_of_mem _ hr))

theorem classified_some (ts : List RouteTable) (sn : SubnetSpec) (id : String)
    (h : (ts.foldl (fun a rt => classifyBy rt a) sn).RouteTableID = some id) :
    sn.RouteTableID = some id ∨
      ∃ rt ∈ ts, rt.RouteTableId = id ∧ associatedWith rt sn.ID = true := by
  induction ts generalizing sn with
  | nil => exact Or.inl h
  | cons rt ts ih =>
    simp only [List.foldl_cons] at h
    rcases ih _ h with h1 | ⟨r, hr, hid, ha⟩
    · unfold classifyBy at h1
      split at h1
      · rename_i hassoc
        simp only [Option.some.injEq] at h1
        exact Or.inr ⟨rt, List.mem_cons_self _ _, h1, hassoc⟩
      · exact Or.inl h1
    · rw [classifyBy_ID] at ha
      exact Or.inr ⟨r, List.mem_cons_of_mem _ hr, hid, ha⟩

/-- What the classification leaves on a discovered subnet. -/
theorem classify_mem (tables : List RouteTable) (discovered : List Subnet) (sn : SubnetSpec)
    (h : sn ∈ classify tables (discovered.map mapSubnet)) :
    (sn.IsPublic = true ↔
      ∃ rt ∈ tables, associatedWith rt sn.ID = true ∧ hasInternetRoute rt = true) ∧
    ((∀ rt ∈ tables, associatedWith rt sn.ID = false) → sn.RouteTableID = none) ∧
    (∀ id, sn.RouteTableID = some id →
      ∃ rt ∈ tables, rt.RouteTableId = id ∧ associatedWith rt sn.ID = true) := by
  rw [classify_eq_map] at h
  simp only [List.mem_map] at h
  obtain ⟨sn0, ⟨d, _, hd⟩, hsn⟩ := h
  subst hd
  subst hsn
  refine ⟨?_, ?_, ?_⟩
  · rw [classified_IsPublic, classified_ID]
    simp [mapSubnet]
  · intro hno
    rw [classified_ID] at hno
    exact classified_none _ _ rfl hno
  · intro id hid
    rw [classified_ID]
    rcases classified_some _ _ _ hid with h1 | h2
    · simp [mapSubnet] at h1
    · exact h2

theorem unionSubnets_mem (desired existing : List SubnetSpec) (d : SubnetSpec)
    (h : d ∈ existing) :
    ∃ sn ∈ unionSubnets desired existing, sn ∈ existing ∧ sn.ID = d.ID := by
  unfold unionSubnets
  by_cases hany : desired.any (fun sn => sn.ID == d.ID) = true
  · rw [List.any_eq_true] at hany
    obtain ⟨sn, hsn, hid⟩ := hany
    have hid' : sn.ID = d.ID := by simpa using hid
    cases hf : existing.find? (fun e => e.ID == sn.ID) with
    | none =>
      rw [List.find?_eq_none] at hf
      exact absurd (by simpa using hid'.symm) (hf d h)
    | some e =>
      have he : e ∈ existing := List.mem_of_find?_eq_some hf
      have hp := List.find?_some hf
      refine ⟨e, ?_, he, ?_⟩
      · apply List.mem_append_left
        rw [List.mem_map]
        exact ⟨sn, hsn, by rw [hf]; rfl⟩
      · have : e.ID = sn.ID := by simpa using hp
        rw [this, hid']
  · refine ⟨d, ?_, h, rfl⟩
    apply List.mem_append_right
    rw [List.mem_filter]
    exact ⟨h, by simpa using hany⟩

theorem convergeSubnet_existing (env : SubnetEnv) (ids : List String) (sn : SubnetSpec)
    (s : SubnetScope) (h : sn.ID ∈ ids) : (convergeSubnet env ids sn s).1.2 = sn := by
  unfold convergeSubnet
  simp [h]

theorem convergeSubnets_keeps (env : SubnetEnv) (ids : List String) (wanted : List SubnetSpec)
    (s : SubnetScope) (sn : SubnetSpec) (h : sn ∈ wanted) (hid : sn.ID ∈ ids) :
    sn ∈ (convergeSubnets env ids wanted s).1.2 := by
  induction wanted generalizing s with
  | nil => cases h
  | cons sn0 rest ih =>
    unfold convergeSubnets
    split
    · rename_i e sn1 s1 heq
      rcases List.mem_cons.mp h with h0 | hr
      · subst h0
        have := convergeSubnet_existing env ids sn s hid
        rw [heq] at this
        simp only at this
        subst this
        exact List.mem_cons_self _ _
      · exact List.mem_cons_of_mem _ hr
    · rename_i sn1 s1 heq
      rcases List.mem_cons.mp h with h0 | hr
      · subst h0
        have := convergeSubnet_existing env ids sn s hid
        rw [heq] at this
        simp only at this
        subst this
        exact List.mem_cons_self _ _
      · exact List.mem_cons_of_mem _ (ih s1 hr)

theorem discoverZones_scope (env : SubnetEnv) (s : SubnetScope) :
    (discoverZones env s).2.Name = s.Name ∧ (discoverZones env s).2.VPC = s.VPC ∧
    (discoverZones env s).2.Subnets = s.Subnets := by
  unfold discoverZones
  split <;> simp [SubnetScope.log]

theorem describeVpcSubnets_ok (env : SubnetEnv) (s : SubnetScope) (discovered : List Subnet)
    (tables : List RouteTable)
    (hs : env.DescribeSubnets (subnetFilters s.VPC.ID) = Except.ok discovered)
    (ht : env.DescribeRouteTables (routeTableFilters s.VPC.ID) = Except.ok tables)
    (hn : env.DescribeNatGatewaysPages (natGatewayFilters s.VPC.ID) = none) :
    ∃ s3, describeVpcSubnets env s = (Except.ok (classify tables (discovered.map mapSubnet)), s3) ∧
      s3.Name = s.Name ∧ s3.VPC = s.VPC ∧ s3.Subnets = s.Subnets := by
  unfold describeVpcSubnets
  simp only [hs, ht, hn]
  exact ⟨_, rfl, rfl, rfl, rfl⟩

theorem reconcileSubnets_keeps (env : SubnetEnv) (s : SubnetScope) (zones : List String)
    (discovered : List Subnet) (tables : List RouteTable)
    (hz : (discoverZones env s).1 = Except.ok zones)
    (hs : env.DescribeSubnets (subnetFilters s.VPC.ID) = Except.ok discovered)
    (ht : env.DescribeRouteTables (routeTableFilters s.VPC.ID) = Except.ok tables)
    (hn : env.DescribeNatGatewaysPages (natGatewayFilters s.VPC.ID) = none)
    (d : SubnetSpec) (hd : d ∈ classify tables (discovered.map mapSubnet)) :
    ∃ sn ∈ (reconcileSubnets env s).2.Subnets,
      sn ∈ classify tables (discovered.map mapSubnet) ∧ sn.ID = d.ID := by
  obtain ⟨hname, hvpc, hsub⟩ := discoverZones_scope env s
  rcases hdz : discoverZones env s with ⟨rz, s1⟩
  rw [hdz] at hz hname hvpc hsub
  simp only at hz hname hvpc hsub
  subst hz
  rw [← hvpc] at hs ht hn
  obtain ⟨s3, hdesc, h3name, h3vpc, h3sub⟩ := describeVpcSubnets_ok env s1 discovered tables hs ht hn
  obtain ⟨sn, hsn, hex, hid⟩ :=
    unionSubnets_mem s3.Subnets (classify tables (discovered.map mapSubnet)) d hd
  unfold reconcileSubnets
  rw [hdz]
  simp only
  rw [hdesc]
  simp only
  split
  · exact ⟨sn, hsn, hex, hid⟩
  · split
    · exact ⟨sn, hsn, hex, hid⟩
    · rename_i wanted hw
      have hne : (unionSubnets s3.Subnets (classify tables (discovered.map mapSubnet))).isEmpty
          = false := by
        cases hu : unionSubnets s3.Subnets (classify tables (discovered.map mapSubnet)) with
        | nil => rw [hu] at hsn; cases hsn
        | cons a l => rfl
      rw [hne] at hw
      simp only [Bool.false_eq_true, if_false, Option.some.injEq] at hw
      subst hw
      refine ⟨sn, ?_, hex, hid⟩
      apply convergeSubnets_keeps _ _ _ _ _ hsn
      rw [List.mem_map]
      exact ⟨sn, hex, rfl⟩

theorem hasInternetRoute_iff (rt : RouteTable) :
    hasInternetRoute rt = true ↔
      ∃ r ∈ rt.Routes, r.DestinationCidrBlock = some "0.0.0.0/0" ∧
        ∃ g, r.GatewayId = some g ∧ "igw-".toList <+: g.toList := by
  unfold hasInternetRoute
  rw [List.any_eq_true]
  constructor
  · rintro ⟨r, hr, h⟩
    unfold isInternetRoute at h
    rw [Bool.and_eq_true] at h
    refine ⟨r, hr, by simpa using h.1, ?_⟩
    cases hg : r.GatewayId with
    | none => rw [hg] at h; simp at h
    | some g =>
      rw [hg] at h
      exact ⟨g, rfl, by simpa using h.2⟩
  · rintro ⟨r, hr, hd, g, hg, hp⟩
    refine ⟨r, hr, ?_⟩
    unfold isInternetRoute
    rw [hd, hg]
    simpa using hp

/-! ## Facts about the warning event and about the mirrored spec -/

theorem ensureDnsHostnames_events (env : Env σ) (vpc : VPCSpec) (s : Service σ) :
    (ensureDnsHostnames env vpc s).s.events = s.events := by
  unfold ensureDnsHostnames
  simp only [Service.issue]
  split
  · rename_i heq
    simp only [Prod.mk.injEq] at heq
    obtain ⟨_, rfl⟩ := heq
    rfl
  · rename_i heq
    simp only [Prod.mk.injEq] at heq
    obtain ⟨_, rfl⟩ := heq
    split
    · split
      · rename_i heq2
        simp only [Prod.mk.injEq] at heq2
        obtain ⟨_, rfl⟩ := heq2
        rfl
      · rename_i heq2
        simp only [Prod.mk.injEq] at heq2
        obtain ⟨_, rfl⟩ := heq2
        rfl
    · rfl

theorem ensureDnsSupport_events (env : Env σ) (vpc : VPCSpec) (l : AttrLocals σ) :
    (ensureDnsSupport env vpc l).s.events = l.s.events ∧
    (ensureDnsSupport env vpc l).err =
      answerError (env.DescribeVpcAttribute (describeSupport vpc) l.s.EC2).1 := by
  unfold ensureDnsSupport answerError describeSupport
  simp only [Service.issue]
  split
  · rename_i heq
    simp only [Prod.mk.injEq] at heq
    obtain ⟨h1, rfl⟩ := heq
    rw [h1]
    exact ⟨rfl, rfl⟩
  · rename_i heq
    simp only [Prod.mk.injEq] at heq
    obtain ⟨h1, rfl⟩ := heq
    rw [h1]
    split
    · split
      · rename_i heq2
        simp only [Prod.mk.injEq] at heq2
        obtain ⟨_, rfl⟩ := heq2
        exact ⟨rfl, rfl⟩
      · rename_i heq2
        simp only [Prod.mk.injEq] at heq2
        obtain ⟨_, rfl⟩ := heq2
        exact ⟨rfl, rfl⟩
    · exact ⟨rfl, rfl⟩

/-- The events of a failed `ensureManagedVPCAttributes`: the warning, formatted
with the error of the describe call for `enableDnsSupport`. -/
theorem ensureManagedVPCAttributes_warning (env : Env σ) (vpc : VPCSpec) (s : Service σ)
    (h : (ensureManagedVPCAttributes env vpc s).1 ≠ none) :
    (ensureManagedVPCAttributes env vpc s).2.events = s.events ++
      [failedSetVPCAttributes vpc.ID (answerError
        (env.DescribeVpcAttribute (describeSupport vpc) (afterHostnames env vpc s.EC2)).1)] := by
  obtain ⟨_, _, hs1⟩ := ensureDnsHostnames_eq env vpc s
  have hev1 := ensureDnsHostnames_events env vpc s
  obtain ⟨hev2, herr⟩ := ensureDnsSupport_events env vpc (ensureDnsHostnames env vpc s)
  rw [hs1] at herr
  rw [hev1] at hev2
  unfold ensureManagedVPCAttributes at h ⊢
  simp only [] at h ⊢
  split
  · simp only [Service.record, failedSetVPCAttributes]
    rw [hev2, herr]
  · rename_i hlen
    rw [if_neg hlen] at h
    split at h <;> exact absurd rfl h

theorem findAssociated_some (set : List VpcIpv6CidrBlockAssociation) (block : Option String)
    (h : findAssociated set = some block) :
    ∃ pre entry post, set = pre ++ entry :: post ∧
      (∀ a ∈ pre, a.State ≠ VpcCidrBlockStateCodeAssociated) ∧
      entry.State = VpcCidrBlockStateCodeAssociated ∧ block = entry.Ipv6CidrBlock := by
  induction set with
  | nil => simp [findAssociated] at h
  | cons a rest ih =>
    unfold findAssociated at h
    split at h
    · rename_i ha
      simp only [Option.some.injEq] at h
      exact ⟨[], a, rest, rfl, by simp, ha, h.symm⟩
    · rename_i ha
      obtain ⟨pre, entry, post, hset, hpre, hentry, hblock⟩ := ih h
      refine ⟨a :: pre, entry, post, by rw [hset]; rfl, ?_, hentry, hblock⟩
      intro b hb
      rcases List.mem_cons.mp hb with hba | hbp
      · rw [hba]; exact ha
      · exact hpre b hbp

/-- What a spec returned by `describeVPC` holds. -/
theorem describeVPC_mirror (env : Env σ) (s : Service σ) (vpc : VPCSpec)
    (h : (describeVPC env s).1 = (some vpc, none)) :
    ∃ out vpc0, (env.DescribeVpcs (describeVPCInput s) s.EC2).1 = Except.ok out ∧
      out.Vpcs = [vpc0] ∧ vpc.ID = vpc0.VpcId ∧ vpc.CidrBlock = vpc0.CidrBlock ∧
      vpc.Tags = TagsToMap vpc0.Tags ∧ vpc.EnableIPv6 = s.VPC.EnableIPv6 ∧
      (s.VPC.EnableIPv6 = false → vpc.Ipv6CidrBlock = none) ∧
      (s.VPC.EnableIPv6 = true →
        findAssociated vpc0.Ipv6CidrBlockAssociationSet = some vpc.Ipv6CidrBlock) := by
  unfold describeVPC at h
  simp only [Service.issue] at h
  split at h
  · split at h <;> simp [Wrap] at h
  · rename_i out s1 heq
    simp only [Prod.mk.injEq] at heq
    obtain ⟨hresp, rfl⟩ := heq
    split at h
    · simp at h
    · simp at h
    · rename_i vpc0 hv
      refine ⟨out, vpc0, hresp, hv, ?_⟩
      split at h
      · split at h
        · rename_i hip
          split at h
          · simp at h
          · split at h
            · rename_i block hfind
              simp only [Prod.mk.injEq, Option.some.injEq, and_true] at h
              subst h
              exact ⟨rfl, rfl, rfl, rfl, fun hf => absurd (hip.symm.trans hf) (by decide), fun _ => hfind⟩
            · simp at h
        · rename_i hip
          simp only [Prod.mk.injEq, Option.some.injEq, and_true] at h
          subst h
          exact ⟨rfl, rfl, rfl, rfl, fun _ => rfl, fun ht => absurd ht hip⟩
      · simp at h

theorem findAssociated_first (set pre : List VpcIpv6CidrBlockAssociation)
    (entry : VpcIpv6CidrBlockAssociation) (post : List VpcIpv6CidrBlockAssociation)
    (hset : set = pre ++ entry :: post)
    (hpre : ∀ a ∈ pre, a.State ≠ VpcCidrBlockStateCodeAssociated)
    (hentry : entry.State = VpcCidrBlockStateCodeAssociated) :
    findAssociated set = some entry.Ipv6CidrBlock := by
  subst hset
  induction pre with
  | nil => simp [findAssociated, hentry]
  | cons a rest ih =>
    have ha : a.State ≠ VpcCidrBlockStateCodeAssociated := hpre a (List.mem_cons_self a rest)
    have hrest : ∀ b ∈ rest, b.State ≠ VpcCidrBlockStateCodeAssociated :=
      fun b hb => hpre b (List.mem_cons_of_mem a hb)
    simp only [List.cons_append, findAssociated, ha, if_false]
    exact ih hrest

/-! ## The claims -/

/-- C1: when the VPC that `describeVPC` resolves is unmanaged for the cluster,
`reconcileVPC` returns success, the scope holds the observed VPC spec, and the
only call of the run is the `DescribeVpcs` of `describeVPC`: no `CreateVpc`, no
tagging call and no attribute call is issued. -/
theorem reconcileVPC_unmanaged_gate (env : Env σ) (s : Service σ) (vpc : VPCSpec)
    (hdesc : (describeVPC env s).1 = (some vpc, none))
    (hun : env.IsUnmanaged vpc s.Name = true) :
    (reconcileVPC env s).1 = Outcome.ret none ∧
    (reconcileVPC env s).2.VPC = vpc ∧
    issued s (reconcileVPC env s).2 = [Call.DescribeVpcs (describeVPCInput s)] ∧
    ∀ c ∈ issued s (reconcileVPC env s).2,
      c.isCreateVpc = false ∧ c.isTag = false ∧ c.isAttribute = false := by
  have hst := describeVPC_state env s
  have hpair : describeVPC env s = ((some vpc, none), (describeVPC env s).2) := by
    rw [← hdesc]
  have hrun : reconcileVPC env s =
      (Outcome.ret none, { (describeVPC env s).2 with VPC := vpc }) := by
    unfold reconcileVPC
    rw [hpair]
    simp only [IsNotFound, reconcileResolvedVPC]
    rw [hst]
    simp [hun]
  have hiss : issued s (reconcileVPC env s).2 = [Call.DescribeVpcs (describeVPCInput s)] := by
    rw [hrun, hst]
    exact issued_append _ _ _ rfl
  refine ⟨by rw [hrun], by rw [hrun], hiss, ?_⟩
  intro c hc
  rw [hiss] at hc
  simp only [List.mem_singleton] at hc
  subst hc
  exact ⟨rfl, rfl, rfl⟩

/-- C1, at a concrete run: `vpc-1` is found without the ownership tag. -/
theorem reconcileVPC_unmanaged_gate_witness :
    (reconcileVPC (scripted (foundScript [availableVpc "vpc-1" [] []]))
      (newService "test-cluster" (specOf "vpc-1" [] false))).1 = Outcome.ret none ∧
    (reconcileVPC (scripted (foundScript [availableVpc "vpc-1" [] []]))
      (newService "test-cluster" (specOf "vpc-1" [] false))).2.VPC =
        { ID := "vpc-1", CidrBlock := "10.0.0.0/16", EnableIPv6 := false,
          Ipv6CidrBlock := none, Tags := [] } :=
  ⟨(reconcileVPC_unmanaged_gate (scripted (foundScript [availableVpc "vpc-1" [] []]))
      (newService "test-cluster" (specOf "vpc-1" [] false))
      { ID := "vpc-1", CidrBlock := "10.0.0.0/16", EnableIPv6 := false,
        Ipv6CidrBlock := none, Tags := [] } rfl rfl).1,
   (reconcileVPC_unmanaged_gate (scripted (foundScript [availableVpc "vpc-1" [] []]))
      (newService "test-cluster" (specOf "vpc-1" [] false))
      { ID := "vpc-1", CidrBlock := "10.0.0.0/16", EnableIPv6 := false,
        Ipv6CidrBlock := none, Tags := [] } rfl rfl).2.1⟩

/-- C2: when `DescribeVpcs` succeeds with more than one VPC, `describeVPC`
returns no spec and an error of kind `Conflict`, whatever the scope, so for a
query by ID and for a query by cluster tag alike. -/
theorem describeVPC_many_conflict (env : Env σ) (s : Service σ) (out : DescribeVpcsOutput)
    (hresp : (env.DescribeVpcs (describeVPCInput s) s.EC2).1 = Except.ok out)
    (hlen : 1 < out.Vpcs.length) :
    (describeVPC env s).1.1 = none ∧ IsConflict (describeVPC env s).1.2 = true := by
  obtain ⟨vpcs⟩ := out
  match vpcs, hlen with
  | a :: b :: rest, _ =>
    simp [describeVPC, Service.issue, hresp, IsConflict, NewConflict]

/-- C2, at a concrete run: two VPCs carry the ownership tag of the cluster. -/
theorem describeVPC_many_conflict_witness :
    1 < [availableVpc "vpc-1" [ownedTag] [], availableVpc "vpc-2" [ownedTag] []].length ∧
    (describeVPC
      (scripted (foundScript [availableVpc "vpc-1" [ownedTag] [], availableVpc "vpc-2" [ownedTag] []]))
      (newService "test-cluster" (specOf "" [] false))).1.1 = none ∧
    IsConflict (describeVPC
      (scripted (foundScript [availableVpc "vpc-1" [ownedTag] [], availableVpc "vpc-2" [ownedTag] []]))
      (newService "test-cluster" (specOf "" [] false))).1.2 = true :=
  ⟨by decide, describeVPC_many_conflict _ _
    { Vpcs := [availableVpc "vpc-1" [ownedTag] [], availableVpc "vpc-2" [ownedTag] []] }
    rfl (by decide)⟩

/-- C3: on a provider that nobody else changes (`Lawful`), when a run of
`reconcileVPC` succeeds, a second run from the state that the first run left,
provider and scope, issues no `CreateVpc` and no `DeleteVpc`. -/
theorem reconcileVPC_idempotent (env : Env σ) (vpcs : σ → List Vpc) (hlaw : Lawful env vpcs)
    (s : Service σ) (hok : (reconcileVPC env s).1 = Outcome.ret none) :
    ∀ c ∈ issued (reconcileVPC env s).2 (reconcileVPC env (reconcileVPC env s).2).2,
      c.isCreateVpc = false ∧ c.isDeleteVpc = false := by
  obtain ⟨hid, hH⟩ := reconcileVPC_resolves env vpcs hlaw s hok
  have hnf := describeVPC_finds env vpcs hlaw (reconcileVPC env s).2 hid hH
  intro c hc
  obtain ⟨hdel, hcreate⟩ := reconcileVPC_calls env (reconcileVPC env s).2 c hc
  exact ⟨hcreate hnf, hdel⟩

/-- C3, at a concrete run: on the small provider without a VPC the first run
creates `vpc-1` and succeeds; the second run creates and deletes nothing. -/
theorem reconcileVPC_idempotent_witness :
    (reconcileVPC oneVpcProvider (oneVpcService none (specOf "" ownedTags false))).1 =
      Outcome.ret none ∧
    ∀ c ∈ issued (reconcileVPC oneVpcProvider (oneVpcService none (specOf "" ownedTags false))).2
        (reconcileVPC oneVpcProvider
          (reconcileVPC oneVpcProvider (oneVpcService none (specOf "" ownedTags false))).2).2,
      c.isCreateVpc = false ∧ c.isDeleteVpc = false :=
  ⟨rfl, reconcileVPC_idempotent oneVpcProvider oneVpcInventory oneVpcProvider_lawful
    (oneVpcService none (specOf "" ownedTags false)) rfl⟩

/-- C4: when `DescribeVpcs` succeeds with no VPC, `describeVPC` returns no spec
and an error of kind `NotFound`. -/
theorem describeVPC_zero_notFound (env : Env σ) (s : Service σ) (out : DescribeVpcsOutput)
    (hresp : (env.DescribeVpcs (describeVPCInput s) s.EC2).1 = Except.ok out)
    (hlen : out.Vpcs.length = 0) :
    (describeVPC env s).1.1 = none ∧ IsNotFound (describeVPC env s).1.2 = true := by
  obtain ⟨vpcs⟩ := out
  match vpcs, hlen with
  | [], _ =>
    simp [describeVPC, Service.issue, hresp, IsNotFound, NewNotFound]

/-- C4, at a concrete run: the provider knows no VPC of the cluster. -/
theorem describeVPC_zero_notFound_witness :
    ([] : List Vpc).length = 0 ∧
    (describeVPC (scripted okScript) (newService "test-cluster" (specOf "" [] false))).1.1 = none ∧
    IsNotFound
      (describeVPC (scripted okScript) (newService "test-cluster" (specOf "" [] false))).1.2 = true :=
  ⟨rfl, describeVPC_zero_notFound _ _ { Vpcs := [] } rfl rfl⟩

/-- C5 fails as stated: with IPv6 requested and one available VPC whose
association set is empty, the error of `describeVPC` names the IPv6 prefix but
is a plain error, and `IsNotFound` does not hold for it. -/
theorem describeVPC_ipv6_missing_counterexample :
    (newService "test-cluster" (specOf "" [] true)).VPC.EnableIPv6 = true ∧
    (describeVPC (scripted (foundScript [availableVpc "vpc-1" [ownedTag] []]))
      (newService "test-cluster" (specOf "" [] true))).1.2 =
        some (Error.errorf "failed to obtain an IPv6 prefix for VPC vpc-1") ∧
    ¬ (IsNotFound (describeVPC (scripted (foundScript [availableVpc "vpc-1" [ownedTag] []]))
      (newService "test-cluster" (specOf "" [] true))).1.2 = true) := by
  refine ⟨rfl, rfl, ?_⟩
  decide

/-- C5, amended: with IPv6 requested and exactly one pending or available VPC
that has no association in state `associated`, `describeVPC` returns no spec
and the plain error that names the IPv6 prefix of that VPC; the error is not of
kind `NotFound`. -/
theorem describeVPC_ipv6_missing (env : Env σ) (s : Service σ) (vpc0 : Vpc)
    (hipv6 : s.VPC.EnableIPv6 = true)
    (hresp : (env.DescribeVpcs (describeVPCInput s) s.EC2).1 = Except.ok { Vpcs := [vpc0] })
    (hstate : vpc0.State = VpcStateAvailable ∨ vpc0.State = VpcStatePending)
    (hnone : ∀ a ∈ vpc0.Ipv6CidrBlockAssociationSet, a.State ≠ VpcCidrBlockStateCodeAssociated) :
    (describeVPC env s).1 =
      (none, some (Error.errorf ("failed to obtain an IPv6 prefix for VPC " ++ vpc0.VpcId))) ∧
    IsNotFound (describeVPC env s).1.2 = false := by
  have hfind := findAssociated_none _ hnone
  have h1 : (describeVPC env s).1 =
      (none, some (Error.errorf ("failed to obtain an IPv6 prefix for VPC " ++ vpc0.VpcId))) := by
    unfold describeVPC
    simp only [Service.issue, hresp, hipv6, hstate, if_true]
    split
    · rfl
    · simp [hfind]
  rw [h1]
  exact ⟨rfl, rfl⟩

/-- C5, amended, at a concrete run: the only association of `vpc-1` is still
`associating`. -/
theorem describeVPC_ipv6_missing_witness :
    IsNotFound (describeVPC
      (scripted (foundScript [availableVpc "vpc-1" [ownedTag]
        [{ Ipv6CidrBlock := some "2001:db8:1234:1a00::/56", State := "associating" }]]))
      (newService "test-cluster" (specOf "" [] true))).1.2 = false :=
  (describeVPC_ipv6_missing
    (scripted (foundScript [availableVpc "vpc-1" [ownedTag]
      [{ Ipv6CidrBlock := some "2001:db8:1234:1a00::/56", State := "associating" }]]))
    (newService "test-cluster" (specOf "" [] true))
    (availableVpc "vpc-1" [ownedTag]
      [{ Ipv6CidrBlock := some "2001:db8:1234:1a00::/56", State := "associating" }])
    rfl rfl (Or.inl rfl) (by decide)).2

/-- C6 at the failing input: IPv6 is requested, `CreateVpc`, the wait and the
tagging succeed, and the only association in the response is `associating`;
`createVPC` returns neither a spec nor an error. -/
theorem createVPC_associating_returns_nil :
    (createVPC (scripted associatingScript)
      (newService "test-cluster" (specOf "" ownedTags true))).1 = (none, none) := by
  rfl

/-- C7 fails as stated: the scope declares `vpc-1` as owned, the VPC that the
provider returns carries no ownership tag, and `deleteVPC` issues `DeleteVpc`
for it all the same. -/
theorem deleteVPC_unowned_counterexample :
    HasOwned (TagsToMap (availableVpc "vpc-1" [] []).Tags) "test-cluster" = false ∧
    issued (newService "test-cluster" (specOf "vpc-1" ownedTags false))
      (deleteVPC (scripted (foundScript [availableVpc "vpc-1" [] []]))
        (newService "test-cluster" (specOf "vpc-1" ownedTags false))).2 =
      [Call.DescribeVpcs { Filters := [{ Name := "state", Values := ["pending", "available"] }],
                           VpcIds := ["vpc-1"] },
       Call.DeleteVpc { VpcId := "vpc-1" }] := by
  constructor
  · decide
  · decide

/-- C7, amended: the gate of `deleteVPC` is the VPC spec of the scope. When
that spec is unmanaged, `deleteVPC` returns success and issues no call at all,
so no `DeleteVpc`; a `DeleteVpc` is issued only from a scope whose spec is
managed. -/
theorem deleteVPC_gate (env : Env σ) (s : Service σ)
    (h : env.IsUnmanaged s.VPC s.Name = true) :
    (deleteVPC env s).1 = Outcome.ret none ∧
    issued s (deleteVPC env s).2 = [] ∧
    ∀ c ∈ issued s (deleteVPC env s).2, c.isDeleteVpc = false := by
  have hrun : deleteVPC env s = (Outcome.ret none, s) := by
    simp [deleteVPC, h]
  rw [hrun]
  simp [issued_self]

/-- C7, amended, at a concrete run: the scope names `vpc-1` without the
ownership tag. -/
theorem deleteVPC_gate_witness :
    IsUnmanaged (specOf "vpc-1" [] false) "test-cluster" = true ∧
    issued (newService "test-cluster" (specOf "vpc-1" [] false))
      (deleteVPC (scripted (foundScript [availableVpc "vpc-1" [] []]))
        (newService "test-cluster" (specOf "vpc-1" [] false))).2 = [] :=
  ⟨by decide,
   (deleteVPC_gate (scripted (foundScript [availableVpc "vpc-1" [] []]))
      (newService "test-cluster" (specOf "vpc-1" [] false)) (by decide)).2.1⟩

/-- C8: on a managed scope, `deleteVPC` returns success without a `DeleteVpc`
call when `describeVPC` reports `NotFound`; when `describeVPC` finds a VPC, the
calls of the run are the describe and one `DeleteVpc` for the ID that
`describeVPC` returned, and a `DeleteVpc` failure with the code `VPCNotFound`
gives success; an error is returned exactly when `describeVPC` fails with an
error that is not `NotFound` or `DeleteVpc` fails with another error; the run
never panics. -/
theorem deleteVPC_idempotent (env : Env σ) (s : Service σ)
    (h : env.IsUnmanaged s.VPC s.Name = false) :
    (∀ err, (describeVPC env s).1.2 = some err → IsNotFound (some err) = true →
      (deleteVPC env s).1 = Outcome.ret none ∧
      ∀ c ∈ issued s (deleteVPC env s).2, c.isDeleteVpc = false) ∧
    (∀ vpc, (describeVPC env s).1 = (some vpc, none) →
      issued s (deleteVPC env s).2 =
        [Call.DescribeVpcs (describeVPCInput s), Call.DeleteVpc { VpcId := vpc.ID }] ∧
      ∀ err, (env.DeleteVpc { VpcId := vpc.ID } (describeVPC env s).2.EC2).1 = some err →
        Code err = some VPCNotFound → (deleteVPC env s).1 = Outcome.ret none) ∧
    ((∃ e, (deleteVPC env s).1 = Outcome.ret (some e)) ↔
      ((∃ err, (describeVPC env s).1.2 = some err ∧ IsNotFound (some err) = false) ∨
       (∃ vpc err, (describeVPC env s).1 = (some vpc, none) ∧
          (env.DeleteVpc { VpcId := vpc.ID } (describeVPC env s).2.EC2).1 = some err ∧
          Code err ≠ some VPCNotFound))) ∧
    (deleteVPC env s).1 ≠ Outcome.panic := by
  rcases describeVPC_result env s with ⟨vpc, hd⟩ | ⟨err, hd⟩
  · obtain ⟨hcalls, hres⟩ := deleteVPC_of_describe_ok env s vpc h hd
    have hiss : issued s (deleteVPC env s).2 =
        [Call.DescribeVpcs (describeVPCInput s), Call.DeleteVpc { VpcId := vpc.ID }] := by
      unfold issued
      rw [hcalls, describeVPC_state]
      simp
    refine ⟨?_, ?_, ?_, ?_⟩
    · intro err he
      rw [hd] at he
      cases he
    · intro vpc2 hd2
      rw [hd] at hd2
      cases hd2
      refine ⟨hiss, ?_⟩
      intro err he hc
      rw [hres, he]
      simp [hc]
    · constructor
      · rintro ⟨e, he⟩
        right
        rw [hres] at he
        cases hr : (env.DeleteVpc { VpcId := vpc.ID } (describeVPC env s).2.EC2).1 with
        | none => simp [hr] at he
        | some err =>
          by_cases hc : Code err = some VPCNotFound
          · simp [hr, hc] at he
          · exact ⟨vpc, err, hd, hr, hc⟩
      · rintro (⟨err, he, _⟩ | ⟨vpc2, err, hd2, hr, hc⟩)
        · rw [hd] at he
          cases he
        · rw [hd] at hd2
          cases hd2
          rw [hres, hr]
          simp [hc]
    · rw [hres]
      simp
  · have hres := deleteVPC_of_describe_error env s err h hd
    refine ⟨?_, ?_, ?_, ?_⟩
    · intro err2 he hnf
      rw [hd] at he
      cases he
      rw [hres]
      simp only [hnf, if_true, true_and]
      intro c hc
      unfold issued at hc
      rw [describeVPC_state] at hc
      simp at hc
      rw [hc]
      rfl
    · intro vpc2 hd2
      rw [hd] at hd2
      cases hd2
    · rw [hres, hd]
      cases hnf : IsNotFound (some err) <;> simp [hnf]
    · rw [hres]
      simp

/-- C8, at a concrete run: `vpc-1` is found and `DeleteVpc` answers with the
code `InvalidVpcID.NotFound`; the run does not panic and, by the
characterisation of errors, returns success. -/
theorem deleteVPC_idempotent_witness :
    IsUnmanaged (specOf "vpc-1" ownedTags false) "test-cluster" = false ∧
    (deleteVPC (scripted (deleteFailsScript (Error.sdk "InvalidVpcID.NotFound" "gone")))
      (newService "test-cluster" (specOf "vpc-1" ownedTags false))).1 ≠ Outcome.panic :=
  ⟨by decide,
   (deleteVPC_idempotent (scripted (deleteFailsScript (Error.sdk "InvalidVpcID.NotFound" "gone")))
      (newService "test-cluster" (specOf "vpc-1" ownedTags false)) (by decide)).2.2.2⟩

/-- C9: on a scope whose VPC spec is unmanaged, `createVPC` returns an error
and no spec, issues no call, and leaves the VPC spec of the scope and the
provider as they were. -/
theorem createVPC_unmanaged (env : Env σ) (s : Service σ)
    (h : env.IsUnmanaged s.VPC s.Name = true) :
    (createVPC env s).1.1 = none ∧ (∃ e, (createVPC env s).1.2 = some e) ∧
    issued s (createVPC env s).2 = [] ∧ (createVPC env s).2.VPC = s.VPC ∧
    (createVPC env s).2.EC2 = s.EC2 := by
  have hrun : createVPC env s =
      ((none, some (Error.errorf "cannot create a managed vpc in unmanaged mode")), s) := by
    simp [createVPC, h]
  rw [hrun]
  simp [issued_self]

/-- C9, at a concrete run: the scope names `vpc-1` without the ownership tag. -/
theorem createVPC_unmanaged_witness :
    IsUnmanaged (specOf "vpc-1" [] false) "test-cluster" = true ∧
    (createVPC (scripted okScript) (newService "test-cluster" (specOf "vpc-1" [] false))).1.1 = none ∧
    issued (newService "test-cluster" (specOf "vpc-1" [] false))
      (createVPC (scripted okScript) (newService "test-cluster" (specOf "vpc-1" [] false))).2 = [] :=
  ⟨by decide,
   (createVPC_unmanaged (scripted okScript)
      (newService "test-cluster" (specOf "vpc-1" [] false)) (by decide)).1,
   (createVPC_unmanaged (scripted okScript)
      (newService "test-cluster" (specOf "vpc-1" [] false)) (by decide)).2.2.1⟩

/-- C10: on a managed scope the first call of `createVPC` is `CreateVpc`, its
`CidrBlock` is `10.0.0.0/16` when the declared block is empty and the declared
block otherwise, its `AmazonProvidedIpv6CidrBlock` is the `EnableIPv6` of the
spec, and no other `CreateVpc` follows. -/
theorem createVPC_request (env : Env σ) (s : Service σ)
    (h : env.IsUnmanaged s.VPC s.Name = false) :
    ∃ rest, issued s (createVPC env s).2 =
        Call.CreateVpc
          { CidrBlock := if s.VPC.CidrBlock = "" then "10.0.0.0/16" else s.VPC.CidrBlock,
            AmazonProvidedIpv6CidrBlock := s.VPC.EnableIPv6 } :: rest ∧
      ∀ c ∈ rest, c.isCreateVpc = false := by
  obtain ⟨_, _, _, _, l, hl, hP⟩ := createVPC_after_create env (fun _ => True)
    (fun c => c.isCreateVpc = false) s h (fun _ _ _ => trivial) (fun _ _ _ => trivial)
    (fun _ => rfl) (fun _ => rfl)
  refine ⟨l, ?_, hP⟩
  apply issued_append
  rw [hl]
  simp [Service.issue, defaulted_calls, defaulted_CidrBlock, defaulted_EnableIPv6]

/-- C10, at a concrete run: the spec declares no CIDR block and no IPv6. -/
theorem createVPC_request_witness :
    IsUnmanaged (specOf "" ownedTags false) "test-cluster" = false ∧
    ∃ rest, issued (newService "test-cluster" (specOf "" ownedTags false))
        (createVPC (scripted okScript) (newService "test-cluster" (specOf "" ownedTags false))).2 =
        Call.CreateVpc { CidrBlock := "10.0.0.0/16", AmazonProvidedIpv6CidrBlock := false } :: rest ∧
      ∀ c ∈ rest, c.isCreateVpc = false :=
  ⟨by decide,
   createVPC_request (scripted okScript)
      (newService "test-cluster" (specOf "" ownedTags false)) (by decide)⟩

/-- C11: the calls of `ensureManagedVPCAttributes` are, in this order, the
describe call for `enableDnsHostnames`, the modify call that sets
`enableDnsHostnames` alone to true exactly when that describe call succeeded
and reported false, the describe call for `enableDnsSupport`, and the modify
call that sets `enableDnsSupport` alone to true exactly when its own describe
call succeeded and reported false. Each describe request names one
attribute. -/
theorem ensureManagedVPCAttributes_modify_iff (env : Env σ) (vpc : VPCSpec) (s : Service σ) :
    issued s (ensureManagedVPCAttributes env vpc s).2 =
      (Call.DescribeVpcAttribute { VpcId := vpc.ID, Attribute := "enableDnsHostnames" } ::
        (if reportedFalse (env.DescribeVpcAttribute (describeHostnames vpc) s.EC2).1
            (fun out => out.EnableDnsHostnames) then
          [Call.ModifyVpcAttribute
            { VpcId := vpc.ID, EnableDnsHostnames := some true, EnableDnsSupport := none }]
         else [])) ++
      (Call.DescribeVpcAttribute { VpcId := vpc.ID, Attribute := "enableDnsSupport" } ::
        (if reportedFalse
            (env.DescribeVpcAttribute (describeSupport vpc) (afterHostnames env vpc s.EC2)).1
            (fun out => out.EnableDnsSupport) then
          [Call.ModifyVpcAttribute
            { VpcId := vpc.ID, EnableDnsHostnames := none, EnableDnsSupport := some true }]
         else [])) ∧
    (Call.ModifyVpcAttribute (modifyHostnames vpc) ∈
        issued s (ensureManagedVPCAttributes env vpc s).2 ↔
      reportedFalse (env.DescribeVpcAttribute (describeHostnames vpc) s.EC2).1
        (fun out => out.EnableDnsHostnames) = true) ∧
    (Call.ModifyVpcAttribute (modifySupport vpc) ∈
        issued s (ensureManagedVPCAttributes env vpc s).2 ↔
      reportedFalse
        (env.DescribeVpcAttribute (describeSupport vpc) (afterHostnames env vpc s.EC2)).1
        (fun out => out.EnableDnsSupport) = true) := by
  have hiss := issued_append s _ _ (ensureManagedVPCAttributes_eq env vpc s).2
  rw [hiss]
  refine ⟨rfl, ?_, ?_⟩
  · by_cases h1 : reportedFalse (env.DescribeVpcAttribute (describeHostnames vpc) s.EC2).1
        (fun out => out.EnableDnsHostnames) = true <;>
    by_cases h2 : reportedFalse
        (env.DescribeVpcAttribute (describeSupport vpc) (afterHostnames env vpc s.EC2)).1
        (fun out => out.EnableDnsSupport) = true <;>
    simp [attributeCalls, h1, h2, modifyHostnames, modifySupport]
  · by_cases h1 : reportedFalse (env.DescribeVpcAttribute (describeHostnames vpc) s.EC2).1
        (fun out => out.EnableDnsHostnames) = true <;>
    by_cases h2 : reportedFalse
        (env.DescribeVpcAttribute (describeSupport vpc) (afterHostnames env vpc s.EC2)).1
        (fun out => out.EnableDnsSupport) = true <;>
    simp [attributeCalls, h1, h2, modifyHostnames, modifySupport]

/-- C12: `ensureManagedVPCAttributes` does not fail fast. `enableDnsSupport`
is described in every run, and modified when it is reported false, whatever
happened to `enableDnsHostnames`. The result is the aggregate of one error for
each attribute whose describe or modify call failed, so of two errors when both
attributes fail, and it is nil exactly when no describe and no modify call
failed. -/
theorem ensureManagedVPCAttributes_aggregate (env : Env σ) (vpc : VPCSpec) (s : Service σ) :
    Call.DescribeVpcAttribute { VpcId := vpc.ID, Attribute := "enableDnsSupport" } ∈
      issued s (ensureManagedVPCAttributes env vpc s).2 ∧
    (reportedFalse
        (env.DescribeVpcAttribute (describeSupport vpc) (afterHostnames env vpc s.EC2)).1
        (fun out => out.EnableDnsSupport) = true →
      Call.ModifyVpcAttribute (modifySupport vpc) ∈
        issued s (ensureManagedVPCAttributes env vpc s).2) ∧
    (ensureManagedVPCAttributes env vpc s).1 =
      NewAggregate ((hostnamesFailure env vpc s.EC2).toList ++
        (supportFailure env vpc (afterHostnames env vpc s.EC2)).toList) ∧
    (∀ e1 e2, hostnamesFailure env vpc s.EC2 = some e1 →
      supportFailure env vpc (afterHostnames env vpc s.EC2) = some e2 →
      (ensureManagedVPCAttributes env vpc s).1 = some (Error.aggregate [e1, e2])) ∧
    ((ensureManagedVPCAttributes env vpc s).1 = none ↔
      ((∃ out, (env.DescribeVpcAttribute (describeHostnames vpc) s.EC2).1 = Except.ok out) ∧
       (reportedFalse (env.DescribeVpcAttribute (describeHostnames vpc) s.EC2).1
          (fun out => out.EnableDnsHostnames) = true →
        (env.ModifyVpcAttribute (modifyHostnames vpc)
          (env.DescribeVpcAttribute (describeHostnames vpc) s.EC2).2).1 = none)) ∧
      ((∃ out, (env.DescribeVpcAttribute (describeSupport vpc)
          (afterHostnames env vpc s.EC2)).1 = Except.ok out) ∧
       (reportedFalse
          (env.DescribeVpcAttribute (describeSupport vpc) (afterHostnames env vpc s.EC2)).1
          (fun out => out.EnableDnsSupport) = true →
        (env.ModifyVpcAttribute (modifySupport vpc)
          (env.DescribeVpcAttribute (describeSupport vpc)
            (afterHostnames env vpc s.EC2)).2).1 = none))) := by
  obtain ⟨hres, hcalls⟩ := ensureManagedVPCAttributes_eq env vpc s
  have hiss := issued_append s _ _ hcalls
  refine ⟨?_, ?_, hres, ?_, ?_⟩
  · rw [hiss]
    simp [attributeCalls, describeSupport]
  · intro h
    rw [hiss]
    simp [attributeCalls, h]
  · intro e1 e2 h1 h2
    rw [hres, h1, h2]
    rfl
  · rw [hres, NewAggregate_eq_none]
    have hnil : ∀ o : Option Error, o.toList = [] ↔ o = none := by
      intro o
      cases o <;> simp
    simp only [List.append_eq_nil, hnil]
    unfold hostnamesFailure supportFailure
    rw [attributeFailure_eq_none, attributeFailure_eq_none]

/-- C13 fails as stated: the scope declares no CIDR block, no VPC is found and
the `CreateVpc` call itself fails, so nothing is created; `reconcileVPC` returns
an error and the CIDR block of the scope is `10.0.0.0/16` afterwards. -/
theorem reconcileVPC_create_fails_counterexample :
    (newService "test-cluster" (specOf "" ownedTags false)).VPC.CidrBlock = "" ∧
    (reconcileVPC (scripted createFailsScript)
      (newService "test-cluster" (specOf "" ownedTags false))).1 =
      Outcome.ret (some (Error.wrap (Error.wrap (Error.sdk "VpcLimitExceeded" "too many VPCs")
        "failed to create vpc") "failed to create new vpc")) ∧
    (reconcileVPC (scripted createFailsScript)
      (newService "test-cluster" (specOf "" ownedTags false))).2.VPC.CidrBlock = "10.0.0.0/16" ∧
    (reconcileVPC (scripted createFailsScript)
      (newService "test-cluster" (specOf "" ownedTags false))).2.VPC ≠
      (newService "test-cluster" (specOf "" ownedTags false)).VPC := by
  refine ⟨rfl, rfl, rfl, ?_⟩
  decide

/-- C13, amended: after a run of `reconcileVPC` that returns an error, the VPC
spec of the scope has the ID, `EnableIPv6`, IPv6 block and tags it had before.
The CIDR block is the one before as well, except that an empty CIDR block has
become `10.0.0.0/16` when `describeVPC` reported `NotFound` and the scope is
managed, that is when the run went into `createVPC`. When `describeVPC` did
not report `NotFound`, for a `Conflict` say, the whole spec is unchanged. -/
theorem reconcileVPC_failure_scope (env : Env σ) (s : Service σ) (e : Error)
    (h : (reconcileVPC env s).1 = Outcome.ret (some e)) :
    (reconcileVPC env s).2.VPC.ID = s.VPC.ID ∧
    (reconcileVPC env s).2.VPC.EnableIPv6 = s.VPC.EnableIPv6 ∧
    (reconcileVPC env s).2.VPC.Ipv6CidrBlock = s.VPC.Ipv6CidrBlock ∧
    (reconcileVPC env s).2.VPC.Tags = s.VPC.Tags ∧
    (reconcileVPC env s).2.VPC.CidrBlock =
      (if IsNotFound (describeVPC env s).1.2 = true ∧ env.IsUnmanaged s.VPC s.Name = false ∧
          s.VPC.CidrBlock = "" then "10.0.0.0/16" else s.VPC.CidrBlock) ∧
    (IsNotFound (describeVPC env s).1.2 = false → (reconcileVPC env s).2.VPC = s.VPC) := by
  rw [reconcileVPC_failed env s e h]
  by_cases hnf : IsNotFound (describeVPC env s).1.2 = true
  · by_cases hun : env.IsUnmanaged s.VPC s.Name = false
    · by_cases hc : s.VPC.CidrBlock = "" <;> simp [hnf, hun, hc, defaulted_VPC, defaultVPCCidr]
    · simp [hnf, hun]
  · simp [hnf]

/-- C13, amended, at a concrete run: two VPCs are found, `describeVPC` returns
`Conflict`, and the spec of the scope is unchanged. -/
theorem reconcileVPC_failure_scope_witness :
    (reconcileVPC (scripted (foundScript [availableVpc "vpc-1" [ownedTag] [],
        availableVpc "vpc-2" [ownedTag] []]))
      (newService "test-cluster" (specOf "" ownedTags false))).2.VPC =
      (newService "test-cluster" (specOf "" ownedTags false)).VPC :=
  (reconcileVPC_failure_scope
    (scripted (foundScript [availableVpc "vpc-1" [ownedTag] [],
      availableVpc "vpc-2" [ownedTag] []]))
    (newService "test-cluster" (specOf "" ownedTags false))
    (Error.wrap (Error.ec2 ErrorKind.Conflict
      "found more than one vpc with supplied filters. Please clean up extra VPCs: ")
      "failed to describe VPCs") rfl).2.2.2.2.2 rfl

/-- C14: the only call of `describeVPC` is `DescribeVpcs` with the request
`describeVPCInput`. The request always has the state filter for `pending` and
`available`. With a non-empty ID in the spec it has that ID as its only VPC ID
and no tag filter; with an empty ID it has no VPC ID and the tag filter for the
ownership tag of the cluster. It has the IPv6 filter for the state
`associated` exactly when `EnableIPv6` is set. -/
theorem describeVPC_request (env : Env σ) (s : Service σ) :
    issued s (describeVPC env s).2 = [Call.DescribeVpcs (describeVPCInput s)] ∧
    ({ Name := "state", Values := ["pending", "available"] } : Filter) ∈
      (describeVPCInput s).Filters ∧
    (s.VPC.ID ≠ "" → (describeVPCInput s).VpcIds = [s.VPC.ID] ∧
      ∀ f ∈ (describeVPCInput s).Filters, f.Name ≠ "tag-key") ∧
    (s.VPC.ID = "" → (describeVPCInput s).VpcIds = [] ∧
      ({ Name := "tag-key", Values := [ClusterTagKey s.Name] } : Filter) ∈
        (describeVPCInput s).Filters) ∧
    (({ Name := "ipv6-cidr-block-association.state", Values := ["associated"] } : Filter) ∈
        (describeVPCInput s).Filters ↔ s.VPC.EnableIPv6 = true) := by
  have hiss : issued s (describeVPC env s).2 = [Call.DescribeVpcs (describeVPCInput s)] := by
    apply issued_append
    rw [describeVPC_state]
  refine ⟨hiss, ?_, ?_, ?_, ?_⟩
  all_goals
    unfold describeVPCInput
    by_cases hid : s.VPC.ID = "" <;> by_cases hip : s.VPC.EnableIPv6 = true <;>
      simp [hid, hip, VPCStates, Cluster, filterIPv6BlockAssociatedVPC, VpcStatePending,
        VpcStateAvailable, VpcCidrBlockStateCodeAssociated]

/-- C15: on a managed scope the calls of `createVPC` are, in this order,
`CreateVpc`, then `WaitUntilVpcAvailable` for the ID of the created VPC, with
the IPv6 filter exactly when `EnableIPv6` is set, then the tagging calls for
that ID, as many as the retry helper makes (at least one when it has a
positive number of attempts). When `CreateVpc` fails it is the only call; when
the wait fails there is no tagging call and `createVPC` returns an error and no
spec. -/
theorem createVPC_order (env : Env σ) (s : Service σ)
    (h : env.IsUnmanaged s.VPC s.Name = false) :
    (∀ err, (env.CreateVpc (createRequest s) s.EC2).1 = Except.error err →
      issued s (createVPC env s).2 = [Call.CreateVpc (createRequest s)]) ∧
    (∀ out, (env.CreateVpc (createRequest s) s.EC2).1 = Except.ok out →
      (∀ werr, (env.WaitUntilVpcAvailable (waitRequest s out.Vpc.VpcId)
          (env.CreateVpc (createRequest s) s.EC2).2).1 = some werr →
        issued s (createVPC env s).2 =
          [Call.CreateVpc (createRequest s),
           Call.WaitUntilVpcAvailable (waitRequest s out.Vpc.VpcId)] ∧
        (createVPC env s).1.1 = none ∧ ∃ e, (createVPC env s).1.2 = some e) ∧
      ((env.WaitUntilVpcAvailable (waitRequest s out.Vpc.VpcId)
          (env.CreateVpc (createRequest s) s.EC2).2).1 = none →
        ∃ k, issued s (createVPC env s).2 =
            Call.CreateVpc (createRequest s) ::
              Call.WaitUntilVpcAvailable (waitRequest s out.Vpc.VpcId) ::
              List.replicate k (Call.tagsApply (getVPCTagParams s out.Vpc.VpcId)) ∧
          k ≤ env.backoffSteps ∧ (0 < env.backoffSteps → 0 < k))) ∧
    (∀ id, (waitRequest s id).VpcIds = [id] ∧
      (filterIPv6BlockAssociatedVPC ∈ (waitRequest s id).Filters ↔ s.VPC.EnableIPv6 = true) ∧
      (getVPCTagParams s id).ResourceID = id) := by
  refine ⟨fun err hc => createVPC_create_failed env s err h hc, ?_, ?_⟩
  · intro out hc
    refine ⟨?_, fun hw => createVPC_waited env s out h hc hw⟩
    intro werr hw
    obtain ⟨h1, h2⟩ := createVPC_wait_failed env s out werr h hc hw
    exact ⟨h1, by rw [h2], ⟨_, by rw [h2]⟩⟩
  · intro id
    refine ⟨rfl, ?_, rfl⟩
    unfold waitRequest
    by_cases hip : s.VPC.EnableIPv6 = true <;> simp [hip]

/-- C15, at a concrete run: every call succeeds and the created VPC is
`vpc-new`. -/
theorem createVPC_order_witness :
    IsUnmanaged (specOf "" ownedTags false) "test-cluster" = false ∧
    ∃ k, issued (newService "test-cluster" (specOf "" ownedTags false))
        (createVPC (scripted okScript) (newService "test-cluster" (specOf "" ownedTags false))).2 =
        Call.CreateVpc { CidrBlock := "10.0.0.0/16", AmazonProvidedIpv6CidrBlock := false } ::
          Call.WaitUntilVpcAvailable { Filters := [], VpcIds := ["vpc-new"] } ::
          List.replicate k (Call.tagsApply
            (getVPCTagParams (newService "test-cluster" (specOf "" ownedTags false)) "vpc-new")) ∧
      k ≤ 3 ∧ (0 < 3 → 0 < k) :=
  ⟨by decide,
   ((createVPC_order (scripted okScript)
      (newService "test-cluster" (specOf "" ownedTags false)) (by decide)).2.1
      ⟨⟨"vpc-new", "10.0.0.0/16", "pending", [], []⟩⟩ rfl).2 rfl⟩

/-- C16: when the VPC has IPv6 enabled and its block is written as a `/56`,
the create request of an IPv6 subnet with index `i < 256` carries the text of
the `/64` block whose first 56 bits are those of the address of the VPC as
written, whose next eight bits are `i`, and whose last 64 bits are zero. With
the block `2001:10:10:10::/56` of the tests the requests carry
`2001:10:10:a::/64` for index 10, `2001:10:10:b::/64` for index 11, and, for
the default subnets, `2001:10:10::/64` (index 0) and `2001:10:10:1::/64`
(index 1). -/
theorem createSubnet_ipv6_block :
    (∀ (env : SubnetEnv) (s : SubnetScope) (sn : SubnetSpec) (text : String) (net : IPv6Net)
        (i : Nat),
      s.VPC.EnableIPv6 = true → sn.IsIPv6 = true → s.VPC.Ipv6CidrBlock = some text →
      parseCIDR text = some net → net.len = 56 → sn.Ipv6CidrBlockID = some i → i < 256 →
      ∃ (block : IPv6Net) (rest : List SubnetCall),
        (createSubnet env sn s).2.calls =
          s.calls ++ SubnetCall.CreateSubnet
            { VpcId := s.VPC.ID, CidrBlock := sn.CidrBlock,
              AvailabilityZone := sn.AvailabilityZone,
              Ipv6CidrBlock := some (formatCIDR block) } :: rest ∧
        block.len = 64 ∧ block.addr / 2 ^ 72 = net.addr / 2 ^ 72 ∧
        block.addr / 2 ^ 64 % 256 = i ∧ block.addr % 2 ^ 64 = 0) ∧
    (createSubnet strictEnv (ipv6Subnet "us-east-1a" "10.1.0.0/16" false 10) (ipv6Scope [])).2.calls =
      [SubnetCall.CreateSubnet
        { VpcId := "vpc-subnets", CidrBlock := "10.1.0.0/16", AvailabilityZone := "us-east-1a",
          Ipv6CidrBlock := some "2001:10:10:a::/64" }] ∧
    (createSubnet strictEnv (ipv6Subnet "us-east-1b" "10.2.0.0/16" true 11) (ipv6Scope [])).2.calls =
      [SubnetCall.CreateSubnet
        { VpcId := "vpc-subnets", CidrBlock := "10.2.0.0/16", AvailabilityZone := "us-east-1b",
          Ipv6CidrBlock := some "2001:10:10:b::/64" }] ∧
    (defaultSubnets strictEnv (ipv6Scope []).VPC "us-east-1c").map
        (fun sn => (createSubnet strictEnv sn (ipv6Scope [])).2.calls) =
      [[SubnetCall.CreateSubnet
        { VpcId := "vpc-subnets", CidrBlock := "10.0.0.0/24", AvailabilityZone := "us-east-1c",
          Ipv6CidrBlock := some "2001:10:10::/64" }],
       [SubnetCall.CreateSubnet
        { VpcId := "vpc-subnets", CidrBlock := "10.0.1.0/24", AvailabilityZone := "us-east-1c",
          Ipv6CidrBlock := some "2001:10:10:1::/64" }]] := by
  refine ⟨?_, by decide, by decide, by decide⟩
  intro env s sn text net i h6 hsn hblock hparse hlen hid hi
  have hb : subnetIpv6Block s.VPC sn = Except.ok (some (formatCIDR (ipv6Slice net i))) := by
    simp [subnetIpv6Block, h6, hsn, hblock, hparse, hid]
  obtain ⟨rest, hrest⟩ := createSubnet_first_call env sn s _ hb
  exact ⟨ipv6Slice net i, rest, hrest, ipv6Slice_bits net i hi⟩

/-- C16, at the first declared subnet of the IPv6 test: index 10 in the block
`2001:10:10:10::/56`. -/
theorem createSubnet_ipv6_block_witness :
    parseCIDR "2001:10:10:10::/56" = some ⟨0x20010010001000100000000000000000, 56⟩ ∧
    ∃ (block : IPv6Net) (rest : List SubnetCall),
      (createSubnet strictEnv (ipv6Subnet "us-east-1a" "10.1.0.0/16" false 10)
          (ipv6Scope [])).2.calls =
        (ipv6Scope []).calls ++ SubnetCall.CreateSubnet
          { VpcId := "vpc-subnets", CidrBlock := "10.1.0.0/16", AvailabilityZone := "us-east-1a",
            Ipv6CidrBlock := some (formatCIDR block) } :: rest ∧
      block.len = 64 ∧
      block.addr / 2 ^ 72 = 0x20010010001000100000000000000000 / 2 ^ 72 ∧
      block.addr / 2 ^ 64 % 256 = 10 ∧ block.addr % 2 ^ 64 = 0 :=
  ⟨by decide,
   createSubnet_ipv6_block.1 strictEnv (ipv6Scope [])
     (ipv6Subnet "us-east-1a" "10.1.0.0/16" false 10) "2001:10:10:10::/56"
     ⟨0x20010010001000100000000000000000, 56⟩ 10 rfl rfl rfl (by decide) rfl rfl (by decide)⟩

/-- C17: when the discovery requests of the pass succeed, every discovered
subnet is in the subnets of the scope after `reconcileSubnets`, and it is
public exactly when a route table of the response that is associated with it
has a route with destination `0.0.0.0/0` through a gateway whose ID starts with
`igw-`; without an association it is private and has no route table; a
recorded route table is one that is associated with it. In the scenario of
`TestDiscoverSubnets` the pass returns no error, `subnet-1` is public with
`rtb-1`, `subnet-2` is private with `rtb-2`, and the three listing requests are
the only calls. -/
theorem reconcileSubnets_classification :
    (∀ (env : SubnetEnv) (s : SubnetScope) (zones : List String) (discovered : List Subnet)
        (tables : List RouteTable),
      (discoverZones env s).1 = Except.ok zones →
      env.DescribeSubnets (subnetFilters s.VPC.ID) = Except.ok discovered →
      env.DescribeRouteTables (routeTableFilters s.VPC.ID) = Except.ok tables →
      env.DescribeNatGatewaysPages (natGatewayFilters s.VPC.ID) = none →
      ∀ d ∈ discovered, ∃ sn ∈ (reconcileSubnets env s).2.Subnets, sn.ID = d.SubnetId ∧
        (sn.IsPublic = true ↔
          ∃ rt ∈ tables, associatedWith rt d.SubnetId = true ∧ hasInternetRoute rt = true) ∧
        ((∀ rt ∈ tables, associatedWith rt d.SubnetId = false) →
          sn.IsPublic = false ∧ sn.RouteTableID = none) ∧
        (∀ id, sn.RouteTableID = some id →
          ∃ rt ∈ tables, rt.RouteTableId = id ∧ associatedWith rt d.SubnetId = true)) ∧
    (∀ rt : RouteTable, hasInternetRoute rt = true ↔
      ∃ r ∈ rt.Routes, r.DestinationCidrBlock = some "0.0.0.0/0" ∧
        ∃ g, r.GatewayId = some g ∧ "igw-".toList <+: g.toList) ∧
    reconcileSubnets discoverEnv discoverScope =
      (none,
       { discoverScope with
         Subnets :=
           [{ ID := "subnet-1", CidrBlock := "10.0.10.0/24", AvailabilityZone := "us-east-1a",
              IsPublic := true, IsIPv6 := false, Ipv6CidrBlockID := none,
              RouteTableID := some "rtb-1", Tags := [("Name", "provided-subnet-public")] },
            { ID := "subnet-2", CidrBlock := "10.0.11.0/24", AvailabilityZone := "us-east-1a",
              IsPublic := false, IsIPv6 := false, Ipv6CidrBlockID := none,
              RouteTableID := some "rtb-2", Tags := [("Name", "provided-subnet-private")] }]
         calls :=
           [SubnetCall.DescribeSubnets (subnetFilters "vpc-subnets"),
            SubnetCall.DescribeRouteTables (routeTableFilters "vpc-subnets"),
            SubnetCall.DescribeNatGatewaysPages (natGatewayFilters "vpc-subnets")] }) := by
  refine ⟨?_, hasInternetRoute_iff, by rfl⟩
  intro env s zones discovered tables hz hs ht hn d hd
  have hmem : mapSubnet d ∈ discovered.map mapSubnet := List.mem_map_of_mem _ hd
  have hcl : (tables.foldl (fun a rt => classifyBy rt a) (mapSubnet d)) ∈
      classify tables (discovered.map mapSubnet) := by
    rw [classify_eq_map]
    exact List.mem_map_of_mem _ hmem
  obtain ⟨sn, hsn, hex, hid⟩ := reconcileSubnets_keeps env s zones discovered tables hz hs ht hn _ hcl
  rw [classified_ID] at hid
  have hid' : sn.ID = d.SubnetId := hid
  obtain ⟨h1, h2, h3⟩ := classify_mem tables discovered sn hex
  rw [hid'] at h1 h2 h3
  refine ⟨sn, hsn, hid', h1, ?_, h3⟩
  intro hno
  refine ⟨?_, h2 hno⟩
  cases hp : sn.IsPublic with
  | false => rfl
  | true =>
    obtain ⟨rt, hrt, ha, _⟩ := h1.mp hp
    rw [hno rt hrt] at ha
    cases ha

/-- C17, at `subnet-1` of the scenario of `TestDiscoverSubnets`. -/
theorem reconcileSubnets_classification_witness :
    ∃ sn ∈ (reconcileSubnets discoverEnv discoverScope).2.Subnets, sn.ID = "subnet-1" ∧
      (sn.IsPublic = true ↔
        ∃ rt ∈ [({ RouteTableId := "rtb-1", Associations := [⟨some "subnet-1"⟩],
                   Routes := [⟨some "10.0.10.0/24", some "local"⟩,
                              ⟨some "0.0.0.0/0", some "igw-0"⟩] } : RouteTable),
                { RouteTableId := "rtb-2", Associations := [⟨some "subnet-2"⟩],
                  Routes := [⟨some "10.0.11.0/24", some "local"⟩] }],
          associatedWith rt "subnet-1" = true ∧ hasInternetRoute rt = true) ∧
      ((∀ rt ∈ [({ RouteTableId := "rtb-1", Associations := [⟨some "subnet-1"⟩],
                   Routes := [⟨some "10.0.10.0/24", some "local"⟩,
                              ⟨some "0.0.0.0/0", some "igw-0"⟩] } : RouteTable),
                { RouteTableId := "rtb-2", Associations := [⟨some "subnet-2"⟩],
                  Routes := [⟨some "10.0.11.0/24", some "local"⟩] }],
          associatedWith rt "subnet-1" = false) →
        sn.IsPublic = false ∧ sn.RouteTableID = none) ∧
      (∀ id, sn.RouteTableID = some id →
        ∃ rt ∈ [({ RouteTableId := "rtb-1", Associations := [⟨some "subnet-1"⟩],
                   Routes := [⟨some "10.0.10.0/24", some "local"⟩,
                              ⟨some "0.0.0.0/0", some "igw-0"⟩] } : RouteTable),
                { RouteTableId := "rtb-2", Associations := [⟨some "subnet-2"⟩],
                  Routes := [⟨some "10.0.11.0/24", some "local"⟩] }],
          rt.RouteTableId = id ∧ associatedWith rt "subnet-1" = true) :=
  reconcileSubnets_classification.1 discoverEnv discoverScope [] _ _ (by rfl) (by rfl) (by rfl)
    (by rfl)
    { VpcId := subnetsVPCID, SubnetId := "subnet-1", AvailabilityZone := "us-east-1a",
      CidrBlock := "10.0.10.0/24", Tags := [⟨"Name", "provided-subnet-public"⟩] }
    (List.mem_cons_self _ _)

/-- C19: in a run of `reconcileVPC` a `CreateVpc` call is issued only when
`describeVPC` returned an error of kind `NotFound`. For any other error of
`describeVPC`, a `Conflict` say, `reconcileVPC` returns the wrapped error and
its only call is the `DescribeVpcs` of `describeVPC`, so no create, tagging or
attribute call. When `describeVPC` finds a VPC no `CreateVpc` is issued. -/
theorem reconcileVPC_state_machine (env : Env σ) (s : Service σ) :
    (∀ c ∈ issued s (reconcileVPC env s).2, c.isCreateVpc = true →
      IsNotFound (describeVPC env s).1.2 = true) ∧
    (∀ err, (describeVPC env s).1.2 = some err → IsNotFound (some err) = false →
      (reconcileVPC env s).1 = Outcome.ret (some (Error.wrap err "failed to describe VPCs")) ∧
      issued s (reconcileVPC env s).2 = [Call.DescribeVpcs (describeVPCInput s)] ∧
      ∀ c ∈ issued s (reconcileVPC env s).2,
        c.isCreateVpc = false ∧ c.isTag = false ∧ c.isAttribute = false) ∧
    (∀ vpc, (describeVPC env s).1 = (some vpc, none) →
      ∀ c ∈ issued s (reconcileVPC env s).2, c.isCreateVpc = false) := by
  refine ⟨?_, ?_, ?_⟩
  · intro c hc hcreate
    by_cases hnf : IsNotFound (describeVPC env s).1.2 = true
    · exact hnf
    · have hf : IsNotFound (describeVPC env s).1.2 = false := by simpa using hnf
      have := (reconcileVPC_calls env s c hc).2 hf
      rw [hcreate] at this
      cases this
  · intro err herr hnf
    have hrun : reconcileVPC env s =
        (Outcome.ret (some (Error.wrap err "failed to describe VPCs")), (describeVPC env s).2) := by
      rw [reconcileVPC_unfold, herr, hnf]
      simp [Wrap]
    have hiss : issued s (reconcileVPC env s).2 = [Call.DescribeVpcs (describeVPCInput s)] := by
      rw [hrun]
      apply issued_append
      rw [describeVPC_state]
    refine ⟨by rw [hrun], hiss, ?_⟩
    intro c hc
    rw [hiss] at hc
    simp only [List.mem_singleton] at hc
    subst hc
    exact ⟨rfl, rfl, rfl⟩
  · intro vpc hd c hc
    have hf : IsNotFound (describeVPC env s).1.2 = false := by
      rw [hd]
      rfl
    exact (reconcileVPC_calls env s c hc).2 hf

/-- C20 at the failing input: IPv6 is requested, no VPC is found, `CreateVpc`,
the wait and the tagging succeed, and the only association in the response is
`associating`. `createVPC` returns neither a spec nor an error, and
`reconcileVPC` dereferences the nil spec. -/
theorem reconcileVPC_associating_panics :
    (createVPC (scripted associatingScript)
      (describeVPC (scripted associatingScript)
        (newService "test-cluster" (specOf "" ownedTags true))).2).1 = (none, none) ∧
    (reconcileVPC (scripted associatingScript)
      (newService "test-cluster" (specOf "" ownedTags true))).1 = Outcome.panic := by
  exact ⟨rfl, rfl⟩

/-- C21: the warning event of a failed `ensureManagedVPCAttributes` is
formatted with the variable `err`, which holds the error of the describe call
for `enableDnsSupport` and nothing else: whenever the method returns an error,
the one event it records is `FailedSetVPCAttributes` with that error, nil when
that describe call succeeded. In the run in which only the describe call for
`enableDnsHostnames` fails, the method returns the aggregate of that failure
and the event is formatted with a nil error. -/
theorem ensureManagedVPCAttributes_event_error :
    (∀ (τ : Type) (env : Env τ) (vpc : VPCSpec) (s : Service τ),
      (ensureManagedVPCAttributes env vpc s).1 ≠ none →
      (ensureManagedVPCAttributes env vpc s).2.events = s.events ++
        [failedSetVPCAttributes vpc.ID (answerError
          (env.DescribeVpcAttribute (describeSupport vpc) (afterHostnames env vpc s.EC2)).1)]) ∧
    (ensureManagedVPCAttributes hostnamesDescribeFails (specOf "vpc-1" ownedTags false)
        (newService "test-cluster" (specOf "vpc-1" ownedTags false))).1 =
      some (Error.aggregate
        [Error.wrap requestLimitExceeded "failed to describe enableDnsHostnames vpc attribute"]) ∧
    (ensureManagedVPCAttributes hostnamesDescribeFails (specOf "vpc-1" ownedTags false)
        (newService "test-cluster" (specOf "vpc-1" ownedTags false))).2.events =
      [failedSetVPCAttributes "vpc-1" none] := by
  refine ⟨fun _ env vpc s h => ensureManagedVPCAttributes_warning env vpc s h, by rfl, by rfl⟩

/-- C22, counterexample to the claim as stated: the scope enables IPv6 and the
provider answers with the VPC `vpc-1`, whose one association is `associated`
and carries no block. `describeVPC` returns no error, and the spec it returns
has `EnableIPv6` set and `Ipv6CidrBlock` nil. -/
theorem describeVPC_blockless_counterexample :
    (describeVPC (scripted (foundScript [availableVpc "vpc-1" [ownedTag] blocklessAssociation]))
        (newService "test-cluster" (specOf "vpc-1" ownedTags true))).1 =
      (some { ID := "vpc-1", CidrBlock := "10.0.0.0/16", EnableIPv6 := true,
              Ipv6CidrBlock := none, Tags := ownedTags }, none) := by
  rfl

/-- C22, amended: when `describeVPC` returns no error it returns a spec, the
provider answered with exactly one VPC, and the spec has the ID, the CIDR block
and the tag map of that VPC and the `EnableIPv6` of the scope. `Ipv6CidrBlock`
is nil when `EnableIPv6` is not set; when it is set, `Ipv6CidrBlock` is the
field `Ipv6CidrBlock` of the first entry of the association set, in the order
of the response, whose state is `associated`, copied as it is. So
`Ipv6CidrBlock` is set exactly when `EnableIPv6` is set and that entry carries
a block. -/
theorem describeVPC_mirrors (env : Env σ) (s : Service σ)
    (h : (describeVPC env s).1.2 = none) :
    ∃ vpc out vpc0, (describeVPC env s).1.1 = some vpc ∧
      (env.DescribeVpcs (describeVPCInput s) s.EC2).1 = Except.ok out ∧ out.Vpcs = [vpc0] ∧
      vpc.ID = vpc0.VpcId ∧ vpc.CidrBlock = vpc0.CidrBlock ∧ vpc.Tags = TagsToMap vpc0.Tags ∧
      vpc.EnableIPv6 = s.VPC.EnableIPv6 ∧
      (s.VPC.EnableIPv6 = false → vpc.Ipv6CidrBlock = none) ∧
      (s.VPC.EnableIPv6 = true →
        ∃ pre entry post, vpc0.Ipv6CidrBlockAssociationSet = pre ++ entry :: post ∧
          (∀ a ∈ pre, a.State ≠ VpcCidrBlockStateCodeAssociated) ∧
          entry.State = VpcCidrBlockStateCodeAssociated ∧
          vpc.Ipv6CidrBlock = entry.Ipv6CidrBlock) ∧
      (vpc.Ipv6CidrBlock ≠ none ↔
        s.VPC.EnableIPv6 = true ∧
          ∃ pre entry post, vpc0.Ipv6CidrBlockAssociationSet = pre ++ entry :: post ∧
            (∀ a ∈ pre, a.State ≠ VpcCidrBlockStateCodeAssociated) ∧
            entry.State = VpcCidrBlockStateCodeAssociated ∧ entry.Ipv6CidrBlock ≠ none) := by
  rcases describeVPC_result env s with ⟨vpc, hv⟩ | ⟨err, he⟩
  · obtain ⟨out, vpc0, hresp, hvpcs, hid, hcidr, htags, h6, hoff, hon⟩ :=
      describeVPC_mirror env s vpc hv
    have hfirst : s.VPC.EnableIPv6 = true →
        ∃ pre entry post, vpc0.Ipv6CidrBlockAssociationSet = pre ++ entry :: post ∧
          (∀ a ∈ pre, a.State ≠ VpcCidrBlockStateCodeAssociated) ∧
          entry.State = VpcCidrBlockStateCodeAssociated ∧
          vpc.Ipv6CidrBlock = entry.Ipv6CidrBlock :=
      fun ht => findAssociated_some _ _ (hon ht)
    refine ⟨vpc, out, vpc0, by rw [hv], hresp, hvpcs, hid, hcidr, htags, h6, hoff, hfirst, ?_⟩
    constructor
    · intro hne
      have ht : s.VPC.EnableIPv6 = true := by
        cases h6' : s.VPC.EnableIPv6 with
        | true => rfl
        | false => exact absurd (hoff h6') hne
      obtain ⟨pre, entry, post, hset, hpre, hentry, hblock⟩ := hfirst ht
      exact ⟨ht, pre, entry, post, hset, hpre, hentry, by rw [← hblock]; exact hne⟩
    · rintro ⟨ht, pre, entry, post, hset, hpre, hentry, hsome⟩
      have hfind : findAssociated vpc0.Ipv6CidrBlockAssociationSet = some entry.Ipv6CidrBlock :=
        findAssociated_first _ pre entry post hset hpre hentry
      have heq := (hon ht).symm.trans hfind
      simp only [Option.some.injEq] at heq
      rw [heq]
      exact hsome
  · rw [he] at h
    cases h

/-- C22, at a concrete run: the scope enables IPv6 and the provider answers
with the VPC `vpc-1`, whose first association is still associating and whose
second and third are associated; the spec takes the block of the second. -/
theorem describeVPC_mirrors_witness :
    (describeVPC (scripted (foundScript [availableVpc "vpc-1" [ownedTag] threeAssociations]))
        (newService "test-cluster" (specOf "vpc-1" ownedTags true))).1 =
      (some { ID := "vpc-1", CidrBlock := "10.0.0.0/16", EnableIPv6 := true,
              Ipv6CidrBlock := some "2001:db8:1234:1a00::/56", Tags := ownedTags }, none) ∧
    ∃ vpc out vpc0,
      (describeVPC (scripted (foundScript [availableVpc "vpc-1" [ownedTag] threeAssociations]))
        (newService "test-cluster" (specOf "vpc-1" ownedTags true))).1.1 = some vpc ∧
      ((scripted (foundScript [availableVpc "vpc-1" [ownedTag] threeAssociations])).DescribeVpcs
        (describeVPCInput (newService "test-cluster" (specOf "vpc-1" ownedTags true)))
        (newService "test-cluster" (specOf "vpc-1" ownedTags true)).EC2).1 = Except.ok out ∧
      out.Vpcs = [vpc0] ∧
      vpc.ID = vpc0.VpcId ∧ vpc.CidrBlock = vpc0.CidrBlock ∧ vpc.Tags = TagsToMap vpc0.Tags ∧
      vpc.EnableIPv6 = (newService "test-cluster" (specOf "vpc-1" ownedTags true)).VPC.EnableIPv6 ∧
      ((newService "test-cluster" (specOf "vpc-1" ownedTags true)).VPC.EnableIPv6 = false →
        vpc.Ipv6CidrBlock = none) ∧
      ((newService "test-cluster" (specOf "vpc-1" ownedTags true)).VPC.EnableIPv6 = true →
        ∃ pre entry post, vpc0.Ipv6CidrBlockAssociationSet = pre ++ entry :: post ∧
          (∀ a ∈ pre, a.State ≠ VpcCidrBlockStateCodeAssociated) ∧
          entry.State = VpcCidrBlockStateCodeAssociated ∧
          vpc.Ipv6CidrBlock = entry.Ipv6CidrBlock) ∧
      (vpc.Ipv6CidrBlock ≠ none ↔
        (newService "test-cluster" (specOf "vpc-1" ownedTags true)).VPC.EnableIPv6 = true ∧
          ∃ pre entry post, vpc0.Ipv6CidrBlockAssociationSet = pre ++ entry :: post ∧
            (∀ a ∈ pre, a.State ≠ VpcCidrBlockStateCodeAssociated) ∧
            entry.State = VpcCidrBlockStateCodeAssociated ∧ entry.Ipv6CidrBlock ≠ none) :=
  ⟨by rfl,
   describeVPC_mirrors
     (scripted (foundScript [availableVpc "vpc-1" [ownedTag] threeAssociations]))
     (newService "test-cluster" (specOf "vpc-1" ownedTags true)) (by rfl)⟩

end Ec2Vpc
